import Mathlib

/-!
# Enumeration codecs and generated validators of the schema packages

A shallow embedding of the generated enumeration types of
`schema/schemas.openxmlformats.org/wordprocessingml/common.go`, of their attribute and
element codecs and validators, of the union parsers of that file, of the validators of
the structure types `pml.CT_ConnectorNonVisual`, `spreadsheetDrawing.EG_ObjectChoicesChoice`,
`wml.CT_SectPrChange` and `vml.Textbox`, and of the constructor and the XML methods of
`pml.CT_ConnectorNonVisual` and `wml.CT_SectPrChange`, followed by theorems about them.

Conventions of the embedding:

* a Go `byte`-backed enumeration type is `Nat`; the values a Go variable of the
  type can hold are the naturals below 256, and the methods never do arithmetic
  on them, so no wrap-around is involved;
* a Go `error` is `Option String`: `none` is `nil`, `some msg` is an error whose
  message is `msg`;
* a method with a pointer receiver takes the value the receiver holds before the
  call and returns the value it holds afterwards, next to the method's result;
* a Go `switch` over constant labels is `switchCase` applied to the list of its
  cases in source order;
* an `xml.Decoder` is the list of the tokens it has still to deliver, and a method
  reading from it returns the decoder as it leaves it;
* a pointer to a structure is an `Option`, `none` being `nil`; a validator of a
  structure returns, next to its result, the invocations of child validators it
  made, in order;
* what a function uses of declarations made outside these files (a compiled
  pattern, `strconv.Quote`, the constructor and the decoding method of a child
  type) is a parameter of the function; `strconv.ParseInt` and `strconv.ParseUint`
  are embedded for base 10 as the Go standard library defines them;
* a pattern is the regular expression it denotes (`RegularExpression Char`), and
  `MatchString` of the compiled pattern holds when some substring of the string is
  matched by it.
-/

set_option autoImplicit false

/-! ## Go built-ins and encoding/xml -/

/-- Go built-in type string. -/
abbrev string : Type := String

/-- Go interface type error: none is the nil error, some msg is an error whose message is msg. -/
abbrev error : Type := Option string

namespace xml

/-- Type Name of encoding/xml. -/
structure Name where
  Space : string
  Local : string
deriving DecidableEq

/-- Type Attr of encoding/xml. -/
structure Attr where
  Name : xml.Name
  Value : string
deriving DecidableEq

/-- The zero value of Attr, written xml.Attr{} in Go. -/
def Attr.zero : Attr :=
  { Name := { Space := "", Local := "" }, Value := "" }

end xml

/-! ## Tokens and the decoder of encoding/xml -/

namespace xml

/-- Type StartElement of encoding/xml. -/
structure StartElement where
  Name : xml.Name
  Attr : List xml.Attr
deriving DecidableEq

/-- Type EndElement of encoding/xml. -/
structure EndElement where
  Name : xml.Name
deriving DecidableEq

/-- Type ProcInst of encoding/xml. The byte slice Inst is represented by the text it holds. -/
structure ProcInst where
  Target : string
  Inst : string
deriving DecidableEq

/-- Interface type Token of encoding/xml: a StartElement, an EndElement, a CharData, a Comment,
a ProcInst or a Directive. The byte slices CharData, Comment and Directive are represented by
the text they hold, so that the conversion string(cd) is the identity. -/
inductive Token where
  | StartElement (e : xml.StartElement)
  | EndElement (e : xml.EndElement)
  | CharData (data : string)
  | Comment (data : string)
  | ProcInst (p : xml.ProcInst)
  | Directive (data : string)
deriving DecidableEq

/-- A Decoder as a list of tokens: the tokens it has still to deliver, in order. -/
abbrev Decoder : Type := List Token

/-- Method Token of Decoder: the next token with a nil error, the decoder advanced past it; at
the end of the input a nil token with the error io.EOF, whose message is EOF. -/
def Decoder.Token (d : Decoder) : Option xml.Token × error × Decoder :=
  match d with
  | [] => (none, some "EOF", [])
  | tok :: rest => (some tok, none, rest)

/-- What a Decoder reads back from the text Encoder.EncodeElement(v, start) writes for a string
v: the start tag, the text v as one CharData token unless v is empty (an element without
content has no character data), and the end tag carrying the name of the start tag. -/
def EncodeElement (v : string) (start : StartElement) : List xml.Token :=
  [xml.Token.StartElement start] ++ (if v = "" then [] else [xml.Token.CharData v]) ++
    [xml.Token.EndElement { Name := start.Name }]

end xml

/-! ## Verbs of package fmt applied to tokens -/

namespace fmt

/-- Verb %v applied to a byte slice: the bytes in base 10, separated by blanks, in brackets. -/
def bytesV (s : string) : string :=
  "[" ++ " ".intercalate ((s.data.flatMap String.utf8EncodeChar).map fun b => Nat.repr b.toNat) ++ "]"

/-- Verb %v applied to an xml.Name: the fields separated by a blank, in braces. -/
def nameV (n : xml.Name) : string :=
  "\x7b" ++ n.Space ++ " " ++ n.Local ++ "\x7d"

/-- Verb %v applied to an xml.Attr. -/
def attrV (a : xml.Attr) : string :=
  "\x7b" ++ nameV a.Name ++ " " ++ a.Value ++ "\x7d"

/-- Verb %v applied to a value of interface type xml.Token; the nil interface prints as <nil>. -/
def tokenV : Option xml.Token → string
  | none => "<nil>"
  | some (xml.Token.StartElement e) =>
    "\x7b" ++ nameV e.Name ++ " [" ++ " ".intercalate (e.Attr.map attrV) ++ "]\x7d"
  | some (xml.Token.EndElement e) => "\x7b" ++ nameV e.Name ++ "\x7d"
  | some (xml.Token.CharData b) => bytesV b
  | some (xml.Token.Comment b) => bytesV b
  | some (xml.Token.ProcInst p) => "\x7b" ++ p.Target ++ " " ++ bytesV p.Inst ++ "\x7d"
  | some (xml.Token.Directive b) => bytesV b

/-- Verb %T applied to a value of interface type xml.Token: the name of its dynamic type. -/
def tokenT : Option xml.Token → string
  | none => "<nil>"
  | some (xml.Token.StartElement _) => "xml.StartElement"
  | some (xml.Token.EndElement _) => "xml.EndElement"
  | some (xml.Token.CharData _) => "xml.CharData"
  | some (xml.Token.Comment _) => "xml.Comment"
  | some (xml.Token.ProcInst _) => "xml.ProcInst"
  | some (xml.Token.Directive _) => "xml.Directive"

end fmt

/-- Go expression switch with one constant label per case, no default clause and no
fallthrough: the cases are tried from top to bottom and the first one whose label equals
the tag is selected. The result is the payload of the selected case, or none when no label
equals the tag (the switch statement then does nothing). -/
def switchCase {α β : Type} [DecidableEq α] (tag : α) : List (α × β) → Option β
  | [] => none
  | (label, body) :: rest => if tag = label then some body else switchCase tag rest

/-- Message of the error built by fmt.Errorf("%s: out of range value %d", path, int(m)) for a
byte m: the verb %s copies path and the verb %d prints the integer in base 10. -/
def errorfOutOfRange (path : string) (m : Nat) : string :=
  path ++ ": out of range value " ++ Nat.repr m

/-- One generated byte-backed enumeration type: its Go name, its const block and its
ValidateWithPath method. -/
structure EnumType where
  name : string
  constants : List Nat
  ValidateWithPath : Nat → string → error

namespace wordprocessingml

/-! ### ST_HighlightColor -/

/-- Go declaration: type ST_HighlightColor byte. -/
abbrev ST_HighlightColor : Type := Nat

def ST_HighlightColorUnset : ST_HighlightColor := 0
def ST_HighlightColorBlack : ST_HighlightColor := 1
def ST_HighlightColorBlue : ST_HighlightColor := 2
def ST_HighlightColorCyan : ST_HighlightColor := 3
def ST_HighlightColorGreen : ST_HighlightColor := 4
def ST_HighlightColorMagenta : ST_HighlightColor := 5
def ST_HighlightColorRed : ST_HighlightColor := 6
def ST_HighlightColorYellow : ST_HighlightColor := 7
def ST_HighlightColorWhite : ST_HighlightColor := 8
def ST_HighlightColorDarkBlue : ST_HighlightColor := 9
def ST_HighlightColorDarkCyan : ST_HighlightColor := 10
def ST_HighlightColorDarkGreen : ST_HighlightColor := 11
def ST_HighlightColorDarkMagenta : ST_HighlightColor := 12
def ST_HighlightColorDarkRed : ST_HighlightColor := 13
def ST_HighlightColorDarkYellow : ST_HighlightColor := 14
def ST_HighlightColorDarkGray : ST_HighlightColor := 15
def ST_HighlightColorLightGray : ST_HighlightColor := 16
def ST_HighlightColorNone : ST_HighlightColor := 17

/-- The const block of ST_HighlightColor, in declaration order. -/
def ST_HighlightColor.constants : List ST_HighlightColor :=
  [ST_HighlightColorUnset, ST_HighlightColorBlack, ST_HighlightColorBlue,
   ST_HighlightColorCyan, ST_HighlightColorGreen, ST_HighlightColorMagenta,
   ST_HighlightColorRed, ST_HighlightColorYellow, ST_HighlightColorWhite,
   ST_HighlightColorDarkBlue, ST_HighlightColorDarkCyan, ST_HighlightColorDarkGreen,
   ST_HighlightColorDarkMagenta, ST_HighlightColorDarkRed, ST_HighlightColorDarkYellow,
   ST_HighlightColorDarkGray, ST_HighlightColorLightGray, ST_HighlightColorNone]

/-- Method ValidateWithPath of ST_HighlightColor: nil for the listed labels, the out-of-range error in the default branch. -/
def ST_HighlightColor.ValidateWithPath (m : ST_HighlightColor) (path : string) : error :=
  if m ∈ ([0, 1, 2, 3, 4, 5, 6, 7, 8, 9, 10, 11, 12, 13, 14, 15, 16, 17] : List Nat) then none
  else some (errorfOutOfRange path m)

/-! ### ST_HexColorAuto -/

/-- Go declaration: type ST_HexColorAuto byte. -/
abbrev ST_HexColorAuto : Type := Nat

def ST_HexColorAutoUnset : ST_HexColorAuto := 0
def ST_HexColorAutoAuto : ST_HexColorAuto := 1

/-- The const block of ST_HexColorAuto, in declaration order. -/
def ST_HexColorAuto.constants : List ST_HexColorAuto :=
  [ST_HexColorAutoUnset, ST_HexColorAutoAuto]

/-- Method ValidateWithPath of ST_HexColorAuto: nil for the listed labels, the out-of-range error in the default branch. -/
def ST_HexColorAuto.ValidateWithPath (m : ST_HexColorAuto) (path : string) : error :=
  if m ∈ ([0, 1] : List Nat) then none
  else some (errorfOutOfRange path m)

/-! ### ST_Underline -/

/-- Go declaration: type ST_Underline byte. -/
abbrev ST_Underline : Type := Nat

def ST_UnderlineUnset : ST_Underline := 0
def ST_UnderlineSingle : ST_Underline := 1
def ST_UnderlineWords : ST_Underline := 2
def ST_UnderlineDouble : ST_Underline := 3
def ST_UnderlineThick : ST_Underline := 4
def ST_UnderlineDotted : ST_Underline := 5
def ST_UnderlineDottedHeavy : ST_Underline := 6
def ST_UnderlineDash : ST_Underline := 7
def ST_UnderlineDashedHeavy : ST_Underline := 8
def ST_UnderlineDashLong : ST_Underline := 9
def ST_UnderlineDashLongHeavy : ST_Underline := 10
def ST_UnderlineDotDash : ST_Underline := 11
def ST_UnderlineDashDotHeavy : ST_Underline := 12
def ST_UnderlineDotDotDash : ST_Underline := 13
def ST_UnderlineDashDotDotHeavy : ST_Underline := 14
def ST_UnderlineWave : ST_Underline := 15
def ST_UnderlineWavyHeavy : ST_Underline := 16
def ST_UnderlineWavyDouble : ST_Underline := 17
def ST_UnderlineNone : ST_Underline := 18

/-- The const block of ST_Underline, in declaration order. -/
def ST_Underline.constants : List ST_Underline :=
  [ST_UnderlineUnset, ST_UnderlineSingle, ST_UnderlineWords, ST_UnderlineDouble,
   ST_UnderlineThick, ST_UnderlineDotted, ST_UnderlineDottedHeavy, ST_UnderlineDash,
   ST_UnderlineDashedHeavy, ST_UnderlineDashLong, ST_UnderlineDashLongHeavy,
   ST_UnderlineDotDash, ST_UnderlineDashDotHeavy, ST_UnderlineDotDotDash,
   ST_UnderlineDashDotDotHeavy, ST_UnderlineWave, ST_UnderlineWavyHeavy,
   ST_UnderlineWavyDouble, ST_UnderlineNone]

/-- Cases of the switch on e in ST_Underline.MarshalXMLAttr, in source order: label and the string assigned to attr.Value. -/
def ST_Underline.MarshalXMLAttr.cases : List (ST_Underline × string) :=
  [(ST_UnderlineUnset, ""),
   (ST_UnderlineSingle, "single"),
   (ST_UnderlineWords, "words"),
   (ST_UnderlineDouble, "double"),
   (ST_UnderlineThick, "thick"),
   (ST_UnderlineDotted, "dotted"),
   (ST_UnderlineDottedHeavy, "dottedHeavy"),
   (ST_UnderlineDash, "dash"),
   (ST_UnderlineDashedHeavy, "dashedHeavy"),
   (ST_UnderlineDashLong, "dashLong"),
   (ST_UnderlineDashLongHeavy, "dashLongHeavy"),
   (ST_UnderlineDotDash, "dotDash"),
   (ST_UnderlineDashDotHeavy, "dashDotHeavy"),
   (ST_UnderlineDotDotDash, "dotDotDash"),
   (ST_UnderlineDashDotDotHeavy, "dashDotDotHeavy"),
   (ST_UnderlineWave, "wave"),
   (ST_UnderlineWavyHeavy, "wavyHeavy"),
   (ST_UnderlineWavyDouble, "wavyDouble"),
   (ST_UnderlineNone, "none")]

/-- Method MarshalXMLAttr of ST_Underline: returns the attribute and the error. -/
def ST_Underline.MarshalXMLAttr (e : ST_Underline) (name : xml.Name) : xml.Attr × error :=
  let attr : xml.Attr := xml.Attr.zero
  let attr : xml.Attr := { attr with Name := name }
  let attr : xml.Attr :=
    match switchCase e ST_Underline.MarshalXMLAttr.cases with
    | some v => { attr with Value := v }
    | none => attr
  (attr, none)

/-- Cases of the switch on attr.Value in ST_Underline.UnmarshalXMLAttr, in source order: label and the value stored through the receiver. -/
def ST_Underline.UnmarshalXMLAttr.cases : List (string × ST_Underline) :=
  [("", 0),
   ("single", 1),
   ("words", 2),
   ("double", 3),
   ("thick", 4),
   ("dotted", 5),
   ("dottedHeavy", 6),
   ("dash", 7),
   ("dashedHeavy", 8),
   ("dashLong", 9),
   ("dashLongHeavy", 10),
   ("dotDash", 11),
   ("dashDotHeavy", 12),
   ("dotDotDash", 13),
   ("dashDotDotHeavy", 14),
   ("wave", 15),
   ("wavyHeavy", 16),
   ("wavyDouble", 17),
   ("none", 18)]

/-- Method UnmarshalXMLAttr of ST_Underline (pointer receiver): takes the value the receiver holds before the call, returns the value it holds afterwards and the error. -/
def ST_Underline.UnmarshalXMLAttr (e : ST_Underline) (attr : xml.Attr) : ST_Underline × error :=
  let e : ST_Underline :=
    match switchCase attr.Value ST_Underline.UnmarshalXMLAttr.cases with
    | some v => v
    | none => e
  (e, none)

/-- Cases of the switch on m in ST_Underline.String, in source order: label and the string returned. -/
def ST_Underline.String.cases : List (ST_Underline × string) :=
  [(0, ""),
   (1, "single"),
   (2, "words"),
   (3, "double"),
   (4, "thick"),
   (5, "dotted"),
   (6, "dottedHeavy"),
   (7, "dash"),
   (8, "dashedHeavy"),
   (9, "dashLong"),
   (10, "dashLongHeavy"),
   (11, "dotDash"),
   (12, "dashDotHeavy"),
   (13, "dotDotDash"),
   (14, "dashDotDotHeavy"),
   (15, "wave"),
   (16, "wavyHeavy"),
   (17, "wavyDouble"),
   (18, "none")]

/-- Method String of ST_Underline: the string of the selected case, the empty string after the switch otherwise. -/
def ST_Underline.String (m : ST_Underline) : string :=
  match switchCase m ST_Underline.String.cases with
  | some s => s
  | none => ""

/-- Method ValidateWithPath of ST_Underline: nil for the listed labels, the out-of-range error in the default branch. -/
def ST_Underline.ValidateWithPath (m : ST_Underline) (path : string) : error :=
  if m ∈ ([0, 1, 2, 3, 4, 5, 6, 7, 8, 9, 10, 11, 12, 13, 14, 15, 16, 17, 18] : List Nat) then none
  else some (errorfOutOfRange path m)

/-- Method Validate of ST_Underline. -/
def ST_Underline.Validate (m : ST_Underline) : error :=
  ST_Underline.ValidateWithPath m ""

/-! ### ST_TextEffect -/

/-- Go declaration: type ST_TextEffect byte. -/
abbrev ST_TextEffect : Type := Nat

def ST_TextEffectUnset : ST_TextEffect := 0
def ST_TextEffectBlinkBackground : ST_TextEffect := 1
def ST_TextEffectLights : ST_TextEffect := 2
def ST_TextEffectAntsBlack : ST_TextEffect := 3
def ST_TextEffectAntsRed : ST_TextEffect := 4
def ST_TextEffectShimmer : ST_TextEffect := 5
def ST_TextEffectSparkle : ST_TextEffect := 6
def ST_TextEffectNone : ST_TextEffect := 7

/-- The const block of ST_TextEffect, in declaration order. -/
def ST_TextEffect.constants : List ST_TextEffect :=
  [ST_TextEffectUnset, ST_TextEffectBlinkBackground, ST_TextEffectLights,
   ST_TextEffectAntsBlack, ST_TextEffectAntsRed, ST_TextEffectShimmer, ST_TextEffectSparkle,
   ST_TextEffectNone]

/-- Method ValidateWithPath of ST_TextEffect: nil for the listed labels, the out-of-range error in the default branch. -/
def ST_TextEffect.ValidateWithPath (m : ST_TextEffect) (path : string) : error :=
  if m ∈ ([0, 1, 2, 3, 4, 5, 6, 7] : List Nat) then none
  else some (errorfOutOfRange path m)

/-! ### ST_Border -/

/-- Go declaration: type ST_Border byte. -/
abbrev ST_Border : Type := Nat

def ST_BorderUnset : ST_Border := 0
def ST_BorderNil : ST_Border := 1
def ST_BorderNone : ST_Border := 2
def ST_BorderSingle : ST_Border := 3
def ST_BorderThick : ST_Border := 4
def ST_BorderDouble : ST_Border := 5
def ST_BorderDotted : ST_Border := 6
def ST_BorderDashed : ST_Border := 7
def ST_BorderDotDash : ST_Border := 8
def ST_BorderDotDotDash : ST_Border := 9
def ST_BorderTriple : ST_Border := 10
def ST_BorderThinThickSmallGap : ST_Border := 11
def ST_BorderThickThinSmallGap : ST_Border := 12
def ST_BorderThinThickThinSmallGap : ST_Border := 13
def ST_BorderThinThickMediumGap : ST_Border := 14
def ST_BorderThickThinMediumGap : ST_Border := 15
def ST_BorderThinThickThinMediumGap : ST_Border := 16
def ST_BorderThinThickLargeGap : ST_Border := 17
def ST_BorderThickThinLargeGap : ST_Border := 18
def ST_BorderThinThickThinLargeGap : ST_Border := 19
def ST_BorderWave : ST_Border := 20
def ST_BorderDoubleWave : ST_Border := 21
def ST_BorderDashSmallGap : ST_Border := 22
def ST_BorderDashDotStroked : ST_Border := 23
def ST_BorderThreeDEmboss : ST_Border := 24
def ST_BorderThreeDEngrave : ST_Border := 25
def ST_BorderOutset : ST_Border := 26
def ST_BorderInset : ST_Border := 27
def ST_BorderApples : ST_Border := 28
def ST_BorderArchedScallops : ST_Border := 29
def ST_BorderBabyPacifier : ST_Border := 30
def ST_BorderBabyRattle : ST_Border := 31
def ST_BorderBalloons3Colors : ST_Border := 32
def ST_BorderBalloonsHotAir : ST_Border := 33
def ST_BorderBasicBlackDashes : ST_Border := 34
def ST_BorderBasicBlackDots : ST_Border := 35
def ST_BorderBasicBlackSquares : ST_Border := 36
def ST_BorderBasicThinLines : ST_Border := 37
def ST_BorderBasicWhiteDashes : ST_Border := 38
def ST_BorderBasicWhiteDots : ST_Border := 39
def ST_BorderBasicWhiteSquares : ST_Border := 40
def ST_BorderBasicWideInline : ST_Border := 41
def ST_BorderBasicWideMidline : ST_Border := 42
def ST_BorderBasicWideOutline : ST_Border := 43
def ST_BorderBats : ST_Border := 44
def ST_BorderBirds : ST_Border := 45
def ST_BorderBirdsFlight : ST_Border := 46
def ST_BorderCabins : ST_Border := 47
def ST_BorderCakeSlice : ST_Border := 48
def ST_BorderCandyCorn : ST_Border := 49
def ST_BorderCelticKnotwork : ST_Border := 50
def ST_BorderCertificateBanner : ST_Border := 51
def ST_BorderChainLink : ST_Border := 52
def ST_BorderChampagneBottle : ST_Border := 53
def ST_BorderCheckedBarBlack : ST_Border := 54
def ST_BorderCheckedBarColor : ST_Border := 55
def ST_BorderCheckered : ST_Border := 56
def ST_BorderChristmasTree : ST_Border := 57
def ST_BorderCirclesLines : ST_Border := 58
def ST_BorderCirclesRectangles : ST_Border := 59
def ST_BorderClassicalWave : ST_Border := 60
def ST_BorderClocks : ST_Border := 61
def ST_BorderCompass : ST_Border := 62
def ST_BorderConfetti : ST_Border := 63
def ST_BorderConfettiGrays : ST_Border := 64
def ST_BorderConfettiOutline : ST_Border := 65
def ST_BorderConfettiStreamers : ST_Border := 66
def ST_BorderConfettiWhite : ST_Border := 67
def ST_BorderCornerTriangles : ST_Border := 68
def ST_BorderCouponCutoutDashes : ST_Border := 69
def ST_BorderCouponCutoutDots : ST_Border := 70
def ST_BorderCrazyMaze : ST_Border := 71
def ST_BorderCreaturesButterfly : ST_Border := 72
def ST_BorderCreaturesFish : ST_Border := 73
def ST_BorderCreaturesInsects : ST_Border := 74
def ST_BorderCreaturesLadyBug : ST_Border := 75
def ST_BorderCrossStitch : ST_Border := 76
def ST_BorderCup : ST_Border := 77
def ST_BorderDecoArch : ST_Border := 78
def ST_BorderDecoArchColor : ST_Border := 79
def ST_BorderDecoBlocks : ST_Border := 80
def ST_BorderDiamondsGray : ST_Border := 81
def ST_BorderDoubleD : ST_Border := 82
def ST_BorderDoubleDiamonds : ST_Border := 83
def ST_BorderEarth1 : ST_Border := 84
def ST_BorderEarth2 : ST_Border := 85
def ST_BorderEarth3 : ST_Border := 86
def ST_BorderEclipsingSquares1 : ST_Border := 87
def ST_BorderEclipsingSquares2 : ST_Border := 88
def ST_BorderEggsBlack : ST_Border := 89
def ST_BorderFans : ST_Border := 90
def ST_BorderFilm : ST_Border := 91
def ST_BorderFirecrackers : ST_Border := 92
def ST_BorderFlowersBlockPrint : ST_Border := 93
def ST_BorderFlowersDaisies : ST_Border := 94
def ST_BorderFlowersModern1 : ST_Border := 95
def ST_BorderFlowersModern2 : ST_Border := 96
def ST_BorderFlowersPansy : ST_Border := 97
def ST_BorderFlowersRedRose : ST_Border := 98
def ST_BorderFlowersRoses : ST_Border := 99
def ST_BorderFlowersTeacup : ST_Border := 100
def ST_BorderFlowersTiny : ST_Border := 101
def ST_BorderGems : ST_Border := 102
def ST_BorderGingerbreadMan : ST_Border := 103
def ST_BorderGradient : ST_Border := 104
def ST_BorderHandmade1 : ST_Border := 105
def ST_BorderHandmade2 : ST_Border := 106
def ST_BorderHeartBalloon : ST_Border := 107
def ST_BorderHeartGray : ST_Border := 108
def ST_BorderHearts : ST_Border := 109
def ST_BorderHeebieJeebies : ST_Border := 110
def ST_BorderHolly : ST_Border := 111
def ST_BorderHouseFunky : ST_Border := 112
def ST_BorderHypnotic : ST_Border := 113
def ST_BorderIceCreamCones : ST_Border := 114
def ST_BorderLightBulb : ST_Border := 115
def ST_BorderLightning1 : ST_Border := 116
def ST_BorderLightning2 : ST_Border := 117
def ST_BorderMapPins : ST_Border := 118
def ST_BorderMapleLeaf : ST_Border := 119
def ST_BorderMapleMuffins : ST_Border := 120
def ST_BorderMarquee : ST_Border := 121
def ST_BorderMarqueeToothed : ST_Border := 122
def ST_BorderMoons : ST_Border := 123
def ST_BorderMosaic : ST_Border := 124
def ST_BorderMusicNotes : ST_Border := 125
def ST_BorderNorthwest : ST_Border := 126
def ST_BorderOvals : ST_Border := 127
def ST_BorderPackages : ST_Border := 128
def ST_BorderPalmsBlack : ST_Border := 129
def ST_BorderPalmsColor : ST_Border := 130
def ST_BorderPaperClips : ST_Border := 131
def ST_BorderPapyrus : ST_Border := 132
def ST_BorderPartyFavor : ST_Border := 133
def ST_BorderPartyGlass : ST_Border := 134
def ST_BorderPencils : ST_Border := 135
def ST_BorderPeople : ST_Border := 136
def ST_BorderPeopleWaving : ST_Border := 137
def ST_BorderPeopleHats : ST_Border := 138
def ST_BorderPoinsettias : ST_Border := 139
def ST_BorderPostageStamp : ST_Border := 140
def ST_BorderPumpkin1 : ST_Border := 141
def ST_BorderPushPinNote2 : ST_Border := 142
def ST_BorderPushPinNote1 : ST_Border := 143
def ST_BorderPyramids : ST_Border := 144
def ST_BorderPyramidsAbove : ST_Border := 145
def ST_BorderQuadrants : ST_Border := 146
def ST_BorderRings : ST_Border := 147
def ST_BorderSafari : ST_Border := 148
def ST_BorderSawtooth : ST_Border := 149
def ST_BorderSawtoothGray : ST_Border := 150
def ST_BorderScaredCat : ST_Border := 151
def ST_BorderSeattle : ST_Border := 152
def ST_BorderShadowedSquares : ST_Border := 153
def ST_BorderSharksTeeth : ST_Border := 154
def ST_BorderShorebirdTracks : ST_Border := 155
def ST_BorderSkyrocket : ST_Border := 156
def ST_BorderSnowflakeFancy : ST_Border := 157
def ST_BorderSnowflakes : ST_Border := 158
def ST_BorderSombrero : ST_Border := 159
def ST_BorderSouthwest : ST_Border := 160
def ST_BorderStars : ST_Border := 161
def ST_BorderStarsTop : ST_Border := 162
def ST_BorderStars3d : ST_Border := 163
def ST_BorderStarsBlack : ST_Border := 164
def ST_BorderStarsShadowed : ST_Border := 165
def ST_BorderSun : ST_Border := 166
def ST_BorderSwirligig : ST_Border := 167
def ST_BorderTornPaper : ST_Border := 168
def ST_BorderTornPaperBlack : ST_Border := 169
def ST_BorderTrees : ST_Border := 170
def ST_BorderTriangleParty : ST_Border := 171
def ST_BorderTriangles : ST_Border := 172
def ST_BorderTriangle1 : ST_Border := 173
def ST_BorderTriangle2 : ST_Border := 174
def ST_BorderTriangleCircle1 : ST_Border := 175
def ST_BorderTriangleCircle2 : ST_Border := 176
def ST_BorderShapes1 : ST_Border := 177
def ST_BorderShapes2 : ST_Border := 178
def ST_BorderTwistedLines1 : ST_Border := 179
def ST_BorderTwistedLines2 : ST_Border := 180
def ST_BorderVine : ST_Border := 181
def ST_BorderWaveline : ST_Border := 182
def ST_BorderWeavingAngles : ST_Border := 183
def ST_BorderWeavingBraid : ST_Border := 184
def ST_BorderWeavingRibbon : ST_Border := 185
def ST_BorderWeavingStrips : ST_Border := 186
def ST_BorderWhiteFlowers : ST_Border := 187
def ST_BorderWoodwork : ST_Border := 188
def ST_BorderXIllusions : ST_Border := 189
def ST_BorderZanyTriangles : ST_Border := 190
def ST_BorderZigZag : ST_Border := 191
def ST_BorderZigZagStitch : ST_Border := 192
def ST_BorderCustom : ST_Border := 193

/-- The const block of ST_Border, in declaration order. -/
def ST_Border.constants : List ST_Border :=
  [ST_BorderUnset, ST_BorderNil, ST_BorderNone, ST_BorderSingle, ST_BorderThick,
   ST_BorderDouble, ST_BorderDotted, ST_BorderDashed, ST_BorderDotDash, ST_BorderDotDotDash,
   ST_BorderTriple, ST_BorderThinThickSmallGap, ST_BorderThickThinSmallGap,
   ST_BorderThinThickThinSmallGap, ST_BorderThinThickMediumGap, ST_BorderThickThinMediumGap,
   ST_BorderThinThickThinMediumGap, ST_BorderThinThickLargeGap, ST_BorderThickThinLargeGap,
   ST_BorderThinThickThinLargeGap, ST_BorderWave, ST_BorderDoubleWave, ST_BorderDashSmallGap,
   ST_BorderDashDotStroked, ST_BorderThreeDEmboss, ST_BorderThreeDEngrave, ST_BorderOutset,
   ST_BorderInset, ST_BorderApples, ST_BorderArchedScallops, ST_BorderBabyPacifier,
   ST_BorderBabyRattle, ST_BorderBalloons3Colors, ST_BorderBalloonsHotAir,
   ST_BorderBasicBlackDashes, ST_BorderBasicBlackDots, ST_BorderBasicBlackSquares,
   ST_BorderBasicThinLines, ST_BorderBasicWhiteDashes, ST_BorderBasicWhiteDots,
   ST_BorderBasicWhiteSquares, ST_BorderBasicWideInline, ST_BorderBasicWideMidline,
   ST_BorderBasicWideOutline, ST_BorderBats, ST_BorderBirds, ST_BorderBirdsFlight,
   ST_BorderCabins, ST_BorderCakeSlice, ST_BorderCandyCorn, ST_BorderCelticKnotwork,
   ST_BorderCertificateBanner, ST_BorderChainLink, ST_BorderChampagneBottle,
   ST_BorderCheckedBarBlack, ST_BorderCheckedBarColor, ST_BorderCheckered,
   ST_BorderChristmasTree, ST_BorderCirclesLines, ST_BorderCirclesRectangles,
   ST_BorderClassicalWave, ST_BorderClocks, ST_BorderCompass, ST_BorderConfetti,
   ST_BorderConfettiGrays, ST_BorderConfettiOutline, ST_BorderConfettiStreamers,
   ST_BorderConfettiWhite, ST_BorderCornerTriangles, ST_BorderCouponCutoutDashes,
   ST_BorderCouponCutoutDots, ST_BorderCrazyMaze, ST_BorderCreaturesButterfly,
   ST_BorderCreaturesFish, ST_BorderCreaturesInsects, ST_BorderCreaturesLadyBug,
   ST_BorderCrossStitch, ST_BorderCup, ST_BorderDecoArch, ST_BorderDecoArchColor,
   ST_BorderDecoBlocks, ST_BorderDiamondsGray, ST_BorderDoubleD, ST_BorderDoubleDiamonds,
   ST_BorderEarth1, ST_BorderEarth2, ST_BorderEarth3, ST_BorderEclipsingSquares1,
   ST_BorderEclipsingSquares2, ST_BorderEggsBlack, ST_BorderFans, ST_BorderFilm,
   ST_BorderFirecrackers, ST_BorderFlowersBlockPrint, ST_BorderFlowersDaisies,
   ST_BorderFlowersModern1, ST_BorderFlowersModern2, ST_BorderFlowersPansy,
   ST_BorderFlowersRedRose, ST_BorderFlowersRoses, ST_BorderFlowersTeacup,
   ST_BorderFlowersTiny, ST_BorderGems, ST_BorderGingerbreadMan, ST_BorderGradient,
   ST_BorderHandmade1, ST_BorderHandmade2, ST_BorderHeartBalloon, ST_BorderHeartGray,
   ST_BorderHearts, ST_BorderHeebieJeebies, ST_BorderHolly, ST_BorderHouseFunky,
   ST_BorderHypnotic, ST_BorderIceCreamCones, ST_BorderLightBulb, ST_BorderLightning1,
   ST_BorderLightning2, ST_BorderMapPins, ST_BorderMapleLeaf, ST_BorderMapleMuffins,
   ST_BorderMarquee, ST_BorderMarqueeToothed, ST_BorderMoons, ST_BorderMosaic,
   ST_BorderMusicNotes, ST_BorderNorthwest, ST_BorderOvals, ST_BorderPackages,
   ST_BorderPalmsBlack, ST_BorderPalmsColor, ST_BorderPaperClips, ST_BorderPapyrus,
   ST_BorderPartyFavor, ST_BorderPartyGlass, ST_BorderPencils, ST_BorderPeople,
   ST_BorderPeopleWaving, ST_BorderPeopleHats, ST_BorderPoinsettias, ST_BorderPostageStamp,
   ST_BorderPumpkin1, ST_BorderPushPinNote2, ST_BorderPushPinNote1, ST_BorderPyramids,
   ST_BorderPyramidsAbove, ST_BorderQuadrants, ST_BorderRings, ST_BorderSafari,
   ST_BorderSawtooth, ST_BorderSawtoothGray, ST_BorderScaredCat, ST_BorderSeattle,
   ST_BorderShadowedSquares, ST_BorderSharksTeeth, ST_BorderShorebirdTracks,
   ST_BorderSkyrocket, ST_BorderSnowflakeFancy, ST_BorderSnowflakes, ST_BorderSombrero,
   ST_BorderSouthwest, ST_BorderStars, ST_BorderStarsTop, ST_BorderStars3d,
   ST_BorderStarsBlack, ST_BorderStarsShadowed, ST_BorderSun, ST_BorderSwirligig,
   ST_BorderTornPaper, ST_BorderTornPaperBlack, ST_BorderTrees, ST_BorderTriangleParty,
   ST_BorderTriangles, ST_BorderTriangle1, ST_BorderTriangle2, ST_BorderTriangleCircle1,
   ST_BorderTriangleCircle2, ST_BorderShapes1, ST_BorderShapes2, ST_BorderTwistedLines1,
   ST_BorderTwistedLines2, ST_BorderVine, ST_BorderWaveline, ST_BorderWeavingAngles,
   ST_BorderWeavingBraid, ST_BorderWeavingRibbon, ST_BorderWeavingStrips,
   ST_BorderWhiteFlowers, ST_BorderWoodwork, ST_BorderXIllusions, ST_BorderZanyTriangles,
   ST_BorderZigZag, ST_BorderZigZagStitch, ST_BorderCustom]

/-- Cases of the switch on e in ST_Border.MarshalXMLAttr, in source order: label and the string assigned to attr.Value. -/
def ST_Border.MarshalXMLAttr.cases : List (ST_Border × string) :=
  [(ST_BorderUnset, ""),
   (ST_BorderNil, "nil"),
   (ST_BorderNone, "none"),
   (ST_BorderSingle, "single"),
   (ST_BorderThick, "thick"),
   (ST_BorderDouble, "double"),
   (ST_BorderDotted, "dotted"),
   (ST_BorderDashed, "dashed"),
   (ST_BorderDotDash, "dotDash"),
   (ST_BorderDotDotDash, "dotDotDash"),
   (ST_BorderTriple, "triple"),
   (ST_BorderThinThickSmallGap, "thinThickSmallGap"),
   (ST_BorderThickThinSmallGap, "thickThinSmallGap"),
   (ST_BorderThinThickThinSmallGap, "thinThickThinSmallGap"),
   (ST_BorderThinThickMediumGap, "thinThickMediumGap"),
   (ST_BorderThickThinMediumGap, "thickThinMediumGap"),
   (ST_BorderThinThickThinMediumGap, "thinThickThinMediumGap"),
   (ST_BorderThinThickLargeGap, "thinThickLargeGap"),
   (ST_BorderThickThinLargeGap, "thickThinLargeGap"),
   (ST_BorderThinThickThinLargeGap, "thinThickThinLargeGap"),
   (ST_BorderWave, "wave"),
   (ST_BorderDoubleWave, "doubleWave"),
   (ST_BorderDashSmallGap, "dashSmallGap"),
   (ST_BorderDashDotStroked, "dashDotStroked"),
   (ST_BorderThreeDEmboss, "threeDEmboss"),
   (ST_BorderThreeDEngrave, "threeDEngrave"),
   (ST_BorderOutset, "outset"),
   (ST_BorderInset, "inset"),
   (ST_BorderApples, "apples"),
   (ST_BorderArchedScallops, "archedScallops"),
   (ST_BorderBabyPacifier, "babyPacifier"),
   (ST_BorderBabyRattle, "babyRattle"),
   (ST_BorderBalloons3Colors, "balloons3Colors"),
   (ST_BorderBalloonsHotAir, "balloonsHotAir"),
   (ST_BorderBasicBlackDashes, "basicBlackDashes"),
   (ST_BorderBasicBlackDots, "basicBlackDots"),
   (ST_BorderBasicBlackSquares, "basicBlackSquares"),
   (ST_BorderBasicThinLines, "basicThinLines"),
   (ST_BorderBasicWhiteDashes, "basicWhiteDashes"),
   (ST_BorderBasicWhiteDots, "basicWhiteDots"),
   (ST_BorderBasicWhiteSquares, "basicWhiteSquares"),
   (ST_BorderBasicWideInline, "basicWideInline"),
   (ST_BorderBasicWideMidline, "basicWideMidline"),
   (ST_BorderBasicWideOutline, "basicWideOutline"),
   (ST_BorderBats, "bats"),
   (ST_BorderBirds, "birds"),
   (ST_BorderBirdsFlight, "birdsFlight"),
   (ST_BorderCabins, "cabins"),
   (ST_BorderCakeSlice, "cakeSlice"),
   (ST_BorderCandyCorn, "candyCorn"),
   (ST_BorderCelticKnotwork, "celticKnotwork"),
   (ST_BorderCertificateBanner, "certificateBanner"),
   (ST_BorderChainLink, "chainLink"),
   (ST_BorderChampagneBottle, "champagneBottle"),
   (ST_BorderCheckedBarBlack, "checkedBarBlack"),
   (ST_BorderCheckedBarColor, "checkedBarColor"),
   (ST_BorderCheckered, "checkered"),
   (ST_BorderChristmasTree, "christmasTree"),
   (ST_BorderCirclesLines, "circlesLines"),
   (ST_BorderCirclesRectangles, "circlesRectangles"),
   (ST_BorderClassicalWave, "classicalWave"),
   (ST_BorderClocks, "clocks"),
   (ST_BorderCompass, "compass"),
   (ST_BorderConfetti, "confetti"),
   (ST_BorderConfettiGrays, "confettiGrays"),
   (ST_BorderConfettiOutline, "confettiOutline"),
   (ST_BorderConfettiStreamers, "confettiStreamers"),
   (ST_BorderConfettiWhite, "confettiWhite"),
   (ST_BorderCornerTriangles, "cornerTriangles"),
   (ST_BorderCouponCutoutDashes, "couponCutoutDashes"),
   (ST_BorderCouponCutoutDots, "couponCutoutDots"),
   (ST_BorderCrazyMaze, "crazyMaze"),
   (ST_BorderCreaturesButterfly, "creaturesButterfly"),
   (ST_BorderCreaturesFish, "creaturesFish"),
   (ST_BorderCreaturesInsects, "creaturesInsects"),
   (ST_BorderCreaturesLadyBug, "creaturesLadyBug"),
   (ST_BorderCrossStitch, "crossStitch"),
   (ST_BorderCup, "cup"),
   (ST_BorderDecoArch, "decoArch"),
   (ST_BorderDecoArchColor, "decoArchColor"),
   (ST_BorderDecoBlocks, "decoBlocks"),
   (ST_BorderDiamondsGray, "diamondsGray"),
   (ST_BorderDoubleD, "doubleD"),
   (ST_BorderDoubleDiamonds, "doubleDiamonds"),
   (ST_BorderEarth1, "earth1"),
   (ST_BorderEarth2, "earth2"),
   (ST_BorderEarth3, "earth3"),
   (ST_BorderEclipsingSquares1, "eclipsingSquares1"),
   (ST_BorderEclipsingSquares2, "eclipsingSquares2"),
   (ST_BorderEggsBlack, "eggsBlack"),
   (ST_BorderFans, "fans"),
   (ST_BorderFilm, "film"),
   (ST_BorderFirecrackers, "firecrackers"),
   (ST_BorderFlowersBlockPrint, "flowersBlockPrint"),
   (ST_BorderFlowersDaisies, "flowersDaisies"),
   (ST_BorderFlowersModern1, "flowersModern1"),
   (ST_BorderFlowersModern2, "flowersModern2"),
   (ST_BorderFlowersPansy, "flowersPansy"),
   (ST_BorderFlowersRedRose, "flowersRedRose"),
   (ST_BorderFlowersRoses, "flowersRoses"),
   (ST_BorderFlowersTeacup, "flowersTeacup"),
   (ST_BorderFlowersTiny, "flowersTiny"),
   (ST_BorderGems, "gems"),
   (ST_BorderGingerbreadMan, "gingerbreadMan"),
   (ST_BorderGradient, "gradient"),
   (ST_BorderHandmade1, "handmade1"),
   (ST_BorderHandmade2, "handmade2"),
   (ST_BorderHeartBalloon, "heartBalloon"),
   (ST_BorderHeartGray, "heartGray"),
   (ST_BorderHearts, "hearts"),
   (ST_BorderHeebieJeebies, "heebieJeebies"),
   (ST_BorderHolly, "holly"),
   (ST_BorderHouseFunky, "houseFunky"),
   (ST_BorderHypnotic, "hypnotic"),
   (ST_BorderIceCreamCones, "iceCreamCones"),
   (ST_BorderLightBulb, "lightBulb"),
   (ST_BorderLightning1, "lightning1"),
   (ST_BorderLightning2, "lightning2"),
   (ST_BorderMapPins, "mapPins"),
   (ST_BorderMapleLeaf, "mapleLeaf"),
   (ST_BorderMapleMuffins, "mapleMuffins"),
   (ST_BorderMarquee, "marquee"),
   (ST_BorderMarqueeToothed, "marqueeToothed"),
   (ST_BorderMoons, "moons"),
   (ST_BorderMosaic, "mosaic"),
   (ST_BorderMusicNotes, "musicNotes"),
   (ST_BorderNorthwest, "northwest"),
   (ST_BorderOvals, "ovals"),
   (ST_BorderPackages, "packages"),
   (ST_BorderPalmsBlack, "palmsBlack"),
   (ST_BorderPalmsColor, "palmsColor"),
   (ST_BorderPaperClips, "paperClips"),
   (ST_BorderPapyrus, "papyrus"),
   (ST_BorderPartyFavor, "partyFavor"),
   (ST_BorderPartyGlass, "partyGlass"),
   (ST_BorderPencils, "pencils"),
   (ST_BorderPeople, "people"),
   (ST_BorderPeopleWaving, "peopleWaving"),
   (ST_BorderPeopleHats, "peopleHats"),
   (ST_BorderPoinsettias, "poinsettias"),
   (ST_BorderPostageStamp, "postageStamp"),
   (ST_BorderPumpkin1, "pumpkin1"),
   (ST_BorderPushPinNote2, "pushPinNote2"),
   (ST_BorderPushPinNote1, "pushPinNote1"),
   (ST_BorderPyramids, "pyramids"),
   (ST_BorderPyramidsAbove, "pyramidsAbove"),
   (ST_BorderQuadrants, "quadrants"),
   (ST_BorderRings, "rings"),
   (ST_BorderSafari, "safari"),
   (ST_BorderSawtooth, "sawtooth"),
   (ST_BorderSawtoothGray, "sawtoothGray"),
   (ST_BorderScaredCat, "scaredCat"),
   (ST_BorderSeattle, "seattle"),
   (ST_BorderShadowedSquares, "shadowedSquares"),
   (ST_BorderSharksTeeth, "sharksTeeth"),
   (ST_BorderShorebirdTracks, "shorebirdTracks"),
   (ST_BorderSkyrocket, "skyrocket"),
   (ST_BorderSnowflakeFancy, "snowflakeFancy"),
   (ST_BorderSnowflakes, "snowflakes"),
   (ST_BorderSombrero, "sombrero"),
   (ST_BorderSouthwest, "southwest"),
   (ST_BorderStars, "stars"),
   (ST_BorderStarsTop, "starsTop"),
   (ST_BorderStars3d, "stars3d"),
   (ST_BorderStarsBlack, "starsBlack"),
   (ST_BorderStarsShadowed, "starsShadowed"),
   (ST_BorderSun, "sun"),
   (ST_BorderSwirligig, "swirligig"),
   (ST_BorderTornPaper, "tornPaper"),
   (ST_BorderTornPaperBlack, "tornPaperBlack"),
   (ST_BorderTrees, "trees"),
   (ST_BorderTriangleParty, "triangleParty"),
   (ST_BorderTriangles, "triangles"),
   (ST_BorderTriangle1, "triangle1"),
   (ST_BorderTriangle2, "triangle2"),
   (ST_BorderTriangleCircle1, "triangleCircle1"),
   (ST_BorderTriangleCircle2, "triangleCircle2"),
   (ST_BorderShapes1, "shapes1"),
   (ST_BorderShapes2, "shapes2"),
   (ST_BorderTwistedLines1, "twistedLines1"),
   (ST_BorderTwistedLines2, "twistedLines2"),
   (ST_BorderVine, "vine"),
   (ST_BorderWaveline, "waveline"),
   (ST_BorderWeavingAngles, "weavingAngles"),
   (ST_BorderWeavingBraid, "weavingBraid"),
   (ST_BorderWeavingRibbon, "weavingRibbon"),
   (ST_BorderWeavingStrips, "weavingStrips"),
   (ST_BorderWhiteFlowers, "whiteFlowers"),
   (ST_BorderWoodwork, "woodwork"),
   (ST_BorderXIllusions, "xIllusions"),
   (ST_BorderZanyTriangles, "zanyTriangles"),
   (ST_BorderZigZag, "zigZag"),
   (ST_BorderZigZagStitch, "zigZagStitch"),
   (ST_BorderCustom, "custom")]

/-- Method MarshalXMLAttr of ST_Border: returns the attribute and the error. -/
def ST_Border.MarshalXMLAttr (e : ST_Border) (name : xml.Name) : xml.Attr × error :=
  let attr : xml.Attr := xml.Attr.zero
  let attr : xml.Attr := { attr with Name := name }
  let attr : xml.Attr :=
    match switchCase e ST_Border.MarshalXMLAttr.cases with
    | some v => { attr with Value := v }
    | none => attr
  (attr, none)

/-- Cases of the switch on attr.Value in ST_Border.UnmarshalXMLAttr, in source order: label and the value stored through the receiver. -/
def ST_Border.UnmarshalXMLAttr.cases : List (string × ST_Border) :=
  [("", 0),
   ("nil", 1),
   ("none", 2),
   ("single", 3),
   ("thick", 4),
   ("double", 5),
   ("dotted", 6),
   ("dashed", 7),
   ("dotDash", 8),
   ("dotDotDash", 9),
   ("triple", 10),
   ("thinThickSmallGap", 11),
   ("thickThinSmallGap", 12),
   ("thinThickThinSmallGap", 13),
   ("thinThickMediumGap", 14),
   ("thickThinMediumGap", 15),
   ("thinThickThinMediumGap", 16),
   ("thinThickLargeGap", 17),
   ("thickThinLargeGap", 18),
   ("thinThickThinLargeGap", 19),
   ("wave", 20),
   ("doubleWave", 21),
   ("dashSmallGap", 22),
   ("dashDotStroked", 23),
   ("threeDEmboss", 24),
   ("threeDEngrave", 25),
   ("outset", 26),
   ("inset", 27),
   ("apples", 28),
   ("archedScallops", 29),
   ("babyPacifier", 30),
   ("babyRattle", 31),
   ("balloons3Colors", 32),
   ("balloonsHotAir", 33),
   ("basicBlackDashes", 34),
   ("basicBlackDots", 35),
   ("basicBlackSquares", 36),
   ("basicThinLines", 37),
   ("basicWhiteDashes", 38),
   ("basicWhiteDots", 39),
   ("basicWhiteSquares", 40),
   ("basicWideInline", 41),
   ("basicWideMidline", 42),
   ("basicWideOutline", 43),
   ("bats", 44),
   ("birds", 45),
   ("birdsFlight", 46),
   ("cabins", 47),
   ("cakeSlice", 48),
   ("candyCorn", 49),
   ("celticKnotwork", 50),
   ("certificateBanner", 51),
   ("chainLink", 52),
   ("champagneBottle", 53),
   ("checkedBarBlack", 54),
   ("checkedBarColor", 55),
   ("checkered", 56),
   ("christmasTree", 57),
   ("circlesLines", 58),
   ("circlesRectangles", 59),
   ("classicalWave", 60),
   ("clocks", 61),
   ("compass", 62),
   ("confetti", 63),
   ("confettiGrays", 64),
   ("confettiOutline", 65),
   ("confettiStreamers", 66),
   ("confettiWhite", 67),
   ("cornerTriangles", 68),
   ("couponCutoutDashes", 69),
   ("couponCutoutDots", 70),
   ("crazyMaze", 71),
   ("creaturesButterfly", 72),
   ("creaturesFish", 73),
   ("creaturesInsects", 74),
   ("creaturesLadyBug", 75),
   ("crossStitch", 76),
   ("cup", 77),
   ("decoArch", 78),
   ("decoArchColor", 79),
   ("decoBlocks", 80),
   ("diamondsGray", 81),
   ("doubleD", 82),
   ("doubleDiamonds", 83),
   ("earth1", 84),
   ("earth2", 85),
   ("earth3", 86),
   ("eclipsingSquares1", 87),
   ("eclipsingSquares2", 88),
   ("eggsBlack", 89),
   ("fans", 90),
   ("film", 91),
   ("firecrackers", 92),
   ("flowersBlockPrint", 93),
   ("flowersDaisies", 94),
   ("flowersModern1", 95),
   ("flowersModern2", 96),
   ("flowersPansy", 97),
   ("flowersRedRose", 98),
   ("flowersRoses", 99),
   ("flowersTeacup", 100),
   ("flowersTiny", 101),
   ("gems", 102),
   ("gingerbreadMan", 103),
   ("gradient", 104),
   ("handmade1", 105),
   ("handmade2", 106),
   ("heartBalloon", 107),
   ("heartGray", 108),
   ("hearts", 109),
   ("heebieJeebies", 110),
   ("holly", 111),
   ("houseFunky", 112),
   ("hypnotic", 113),
   ("iceCreamCones", 114),
   ("lightBulb", 115),
   ("lightning1", 116),
   ("lightning2", 117),
   ("mapPins", 118),
   ("mapleLeaf", 119),
   ("mapleMuffins", 120),
   ("marquee", 121),
   ("marqueeToothed", 122),
   ("moons", 123),
   ("mosaic", 124),
   ("musicNotes", 125),
   ("northwest", 126),
   ("ovals", 127),
   ("packages", 128),
   ("palmsBlack", 129),
   ("palmsColor", 130),
   ("paperClips", 131),
   ("papyrus", 132),
   ("partyFavor", 133),
   ("partyGlass", 134),
   ("pencils", 135),
   ("people", 136),
   ("peopleWaving", 137),
   ("peopleHats", 138),
   ("poinsettias", 139),
   ("postageStamp", 140),
   ("pumpkin1", 141),
   ("pushPinNote2", 142),
   ("pushPinNote1", 143),
   ("pyramids", 144),
   ("pyramidsAbove", 145),
   ("quadrants", 146),
   ("rings", 147),
   ("safari", 148),
   ("sawtooth", 149),
   ("sawtoothGray", 150),
   ("scaredCat", 151),
   ("seattle", 152),
   ("shadowedSquares", 153),
   ("sharksTeeth", 154),
   ("shorebirdTracks", 155),
   ("skyrocket", 156),
   ("snowflakeFancy", 157),
   ("snowflakes", 158),
   ("sombrero", 159),
   ("southwest", 160),
   ("stars", 161),
   ("starsTop", 162),
   ("stars3d", 163),
   ("starsBlack", 164),
   ("starsShadowed", 165),
   ("sun", 166),
   ("swirligig", 167),
   ("tornPaper", 168),
   ("tornPaperBlack", 169),
   ("trees", 170),
   ("triangleParty", 171),
   ("triangles", 172),
   ("triangle1", 173),
   ("triangle2", 174),
   ("triangleCircle1", 175),
   ("triangleCircle2", 176),
   ("shapes1", 177),
   ("shapes2", 178),
   ("twistedLines1", 179),
   ("twistedLines2", 180),
   ("vine", 181),
   ("waveline", 182),
   ("weavingAngles", 183),
   ("weavingBraid", 184),
   ("weavingRibbon", 185),
   ("weavingStrips", 186),
   ("whiteFlowers", 187),
   ("woodwork", 188),
   ("xIllusions", 189),
   ("zanyTriangles", 190),
   ("zigZag", 191),
   ("zigZagStitch", 192),
   ("custom", 193)]

/-- Method UnmarshalXMLAttr of ST_Border (pointer receiver): takes the value the receiver holds before the call, returns the value it holds afterwards and the error. -/
def ST_Border.UnmarshalXMLAttr (e : ST_Border) (attr : xml.Attr) : ST_Border × error :=
  let e : ST_Border :=
    match switchCase attr.Value ST_Border.UnmarshalXMLAttr.cases with
    | some v => v
    | none => e
  (e, none)

/-- Cases of the switch on m in ST_Border.String, in source order: label and the string returned. -/
def ST_Border.String.cases : List (ST_Border × string) :=
  [(0, ""),
   (1, "nil"),
   (2, "none"),
   (3, "single"),
   (4, "thick"),
   (5, "double"),
   (6, "dotted"),
   (7, "dashed"),
   (8, "dotDash"),
   (9, "dotDotDash"),
   (10, "triple"),
   (11, "thinThickSmallGap"),
   (12, "thickThinSmallGap"),
   (13, "thinThickThinSmallGap"),
   (14, "thinThickMediumGap"),
   (15, "thickThinMediumGap"),
   (16, "thinThickThinMediumGap"),
   (17, "thinThickLargeGap"),
   (18, "thickThinLargeGap"),
   (19, "thinThickThinLargeGap"),
   (20, "wave"),
   (21, "doubleWave"),
   (22, "dashSmallGap"),
   (23, "dashDotStroked"),
   (24, "threeDEmboss"),
   (25, "threeDEngrave"),
   (26, "outset"),
   (27, "inset"),
   (28, "apples"),
   (29, "archedScallops"),
   (30, "babyPacifier"),
   (31, "babyRattle"),
   (32, "balloons3Colors"),
   (33, "balloonsHotAir"),
   (34, "basicBlackDashes"),
   (35, "basicBlackDots"),
   (36, "basicBlackSquares"),
   (37, "basicThinLines"),
   (38, "basicWhiteDashes"),
   (39, "basicWhiteDots"),
   (40, "basicWhiteSquares"),
   (41, "basicWideInline"),
   (42, "basicWideMidline"),
   (43, "basicWideOutline"),
   (44, "bats"),
   (45, "birds"),
   (46, "birdsFlight"),
   (47, "cabins"),
   (48, "cakeSlice"),
   (49, "candyCorn"),
   (50, "celticKnotwork"),
   (51, "certificateBanner"),
   (52, "chainLink"),
   (53, "champagneBottle"),
   (54, "checkedBarBlack"),
   (55, "checkedBarColor"),
   (56, "checkered"),
   (57, "christmasTree"),
   (58, "circlesLines"),
   (59, "circlesRectangles"),
   (60, "classicalWave"),
   (61, "clocks"),
   (62, "compass"),
   (63, "confetti"),
   (64, "confettiGrays"),
   (65, "confettiOutline"),
   (66, "confettiStreamers"),
   (67, "confettiWhite"),
   (68, "cornerTriangles"),
   (69, "couponCutoutDashes"),
   (70, "couponCutoutDots"),
   (71, "crazyMaze"),
   (72, "creaturesButterfly"),
   (73, "creaturesFish"),
   (74, "creaturesInsects"),
   (75, "creaturesLadyBug"),
   (76, "crossStitch"),
   (77, "cup"),
   (78, "decoArch"),
   (79, "decoArchColor"),
   (80, "decoBlocks"),
   (81, "diamondsGray"),
   (82, "doubleD"),
   (83, "doubleDiamonds"),
   (84, "earth1"),
   (85, "earth2"),
   (86, "earth3"),
   (87, "eclipsingSquares1"),
   (88, "eclipsingSquares2"),
   (89, "eggsBlack"),
   (90, "fans"),
   (91, "film"),
   (92, "firecrackers"),
   (93, "flowersBlockPrint"),
   (94, "flowersDaisies"),
   (95, "flowersModern1"),
   (96, "flowersModern2"),
   (97, "flowersPansy"),
   (98, "flowersRedRose"),
   (99, "flowersRoses"),
   (100, "flowersTeacup"),
   (101, "flowersTiny"),
   (102, "gems"),
   (103, "gingerbreadMan"),
   (104, "gradient"),
   (105, "handmade1"),
   (106, "handmade2"),
   (107, "heartBalloon"),
   (108, "heartGray"),
   (109, "hearts"),
   (110, "heebieJeebies"),
   (111, "holly"),
   (112, "houseFunky"),
   (113, "hypnotic"),
   (114, "iceCreamCones"),
   (115, "lightBulb"),
   (116, "lightning1"),
   (117, "lightning2"),
   (118, "mapPins"),
   (119, "mapleLeaf"),
   (120, "mapleMuffins"),
   (121, "marquee"),
   (122, "marqueeToothed"),
   (123, "moons"),
   (124, "mosaic"),
   (125, "musicNotes"),
   (126, "northwest"),
   (127, "ovals"),
   (128, "packages"),
   (129, "palmsBlack"),
   (130, "palmsColor"),
   (131, "paperClips"),
   (132, "papyrus"),
   (133, "partyFavor"),
   (134, "partyGlass"),
   (135, "pencils"),
   (136, "people"),
   (137, "peopleWaving"),
   (138, "peopleHats"),
   (139, "poinsettias"),
   (140, "postageStamp"),
   (141, "pumpkin1"),
   (142, "pushPinNote2"),
   (143, "pushPinNote1"),
   (144, "pyramids"),
   (145, "pyramidsAbove"),
   (146, "quadrants"),
   (147, "rings"),
   (148, "safari"),
   (149, "sawtooth"),
   (150, "sawtoothGray"),
   (151, "scaredCat"),
   (152, "seattle"),
   (153, "shadowedSquares"),
   (154, "sharksTeeth"),
   (155, "shorebirdTracks"),
   (156, "skyrocket"),
   (157, "snowflakeFancy"),
   (158, "snowflakes"),
   (159, "sombrero"),
   (160, "southwest"),
   (161, "stars"),
   (162, "starsTop"),
   (163, "stars3d"),
   (164, "starsBlack"),
   (165, "starsShadowed"),
   (166, "sun"),
   (167, "swirligig"),
   (168, "tornPaper"),
   (169, "tornPaperBlack"),
   (170, "trees"),
   (171, "triangleParty"),
   (172, "triangles"),
   (173, "triangle1"),
   (174, "triangle2"),
   (175, "triangleCircle1"),
   (176, "triangleCircle2"),
   (177, "shapes1"),
   (178, "shapes2"),
   (179, "twistedLines1"),
   (180, "twistedLines2"),
   (181, "vine"),
   (182, "waveline"),
   (183, "weavingAngles"),
   (184, "weavingBraid"),
   (185, "weavingRibbon"),
   (186, "weavingStrips"),
   (187, "whiteFlowers"),
   (188, "woodwork"),
   (189, "xIllusions"),
   (190, "zanyTriangles"),
   (191, "zigZag"),
   (192, "zigZagStitch"),
   (193, "custom")]

/-- Method String of ST_Border: the string of the selected case, the empty string after the switch otherwise. -/
def ST_Border.String (m : ST_Border) : string :=
  match switchCase m ST_Border.String.cases with
  | some s => s
  | none => ""

/-- Method MarshalXML of ST_Border: the tokens a decoder reads back from what e.EncodeElement(m.String(), start) writes, with a nil error. -/
def ST_Border.MarshalXML (m : ST_Border) (start : xml.StartElement) : List xml.Token × error :=
  (xml.EncodeElement (ST_Border.String m) start, none)

/-- Cases of the switch on string(cd) in ST_Border.UnmarshalXML, in source order: label and the value stored through the receiver. -/
def ST_Border.UnmarshalXML.cases : List (string × ST_Border) :=
  [("", 0),
   ("nil", 1),
   ("none", 2),
   ("single", 3),
   ("thick", 4),
   ("double", 5),
   ("dotted", 6),
   ("dashed", 7),
   ("dotDash", 8),
   ("dotDotDash", 9),
   ("triple", 10),
   ("thinThickSmallGap", 11),
   ("thickThinSmallGap", 12),
   ("thinThickThinSmallGap", 13),
   ("thinThickMediumGap", 14),
   ("thickThinMediumGap", 15),
   ("thinThickThinMediumGap", 16),
   ("thinThickLargeGap", 17),
   ("thickThinLargeGap", 18),
   ("thinThickThinLargeGap", 19),
   ("wave", 20),
   ("doubleWave", 21),
   ("dashSmallGap", 22),
   ("dashDotStroked", 23),
   ("threeDEmboss", 24),
   ("threeDEngrave", 25),
   ("outset", 26),
   ("inset", 27),
   ("apples", 28),
   ("archedScallops", 29),
   ("babyPacifier", 30),
   ("babyRattle", 31),
   ("balloons3Colors", 32),
   ("balloonsHotAir", 33),
   ("basicBlackDashes", 34),
   ("basicBlackDots", 35),
   ("basicBlackSquares", 36),
   ("basicThinLines", 37),
   ("basicWhiteDashes", 38),
   ("basicWhiteDots", 39),
   ("basicWhiteSquares", 40),
   ("basicWideInline", 41),
   ("basicWideMidline", 42),
   ("basicWideOutline", 43),
   ("bats", 44),
   ("birds", 45),
   ("birdsFlight", 46),
   ("cabins", 47),
   ("cakeSlice", 48),
   ("candyCorn", 49),
   ("celticKnotwork", 50),
   ("certificateBanner", 51),
   ("chainLink", 52),
   ("champagneBottle", 53),
   ("checkedBarBlack", 54),
   ("checkedBarColor", 55),
   ("checkered", 56),
   ("christmasTree", 57),
   ("circlesLines", 58),
   ("circlesRectangles", 59),
   ("classicalWave", 60),
   ("clocks", 61),
   ("compass", 62),
   ("confetti", 63),
   ("confettiGrays", 64),
   ("confettiOutline", 65),
   ("confettiStreamers", 66),
   ("confettiWhite", 67),
   ("cornerTriangles", 68),
   ("couponCutoutDashes", 69),
   ("couponCutoutDots", 70),
   ("crazyMaze", 71),
   ("creaturesButterfly", 72),
   ("creaturesFish", 73),
   ("creaturesInsects", 74),
   ("creaturesLadyBug", 75),
   ("crossStitch", 76),
   ("cup", 77),
   ("decoArch", 78),
   ("decoArchColor", 79),
   ("decoBlocks", 80),
   ("diamondsGray", 81),
   ("doubleD", 82),
   ("doubleDiamonds", 83),
   ("earth1", 84),
   ("earth2", 85),
   ("earth3", 86),
   ("eclipsingSquares1", 87),
   ("eclipsingSquares2", 88),
   ("eggsBlack", 89),
   ("fans", 90),
   ("film", 91),
   ("firecrackers", 92),
   ("flowersBlockPrint", 93),
   ("flowersDaisies", 94),
   ("flowersModern1", 95),
   ("flowersModern2", 96),
   ("flowersPansy", 97),
   ("flowersRedRose", 98),
   ("flowersRoses", 99),
   ("flowersTeacup", 100),
   ("flowersTiny", 101),
   ("gems", 102),
   ("gingerbreadMan", 103),
   ("gradient", 104),
   ("handmade1", 105),
   ("handmade2", 106),
   ("heartBalloon", 107),
   ("heartGray", 108),
   ("hearts", 109),
   ("heebieJeebies", 110),
   ("holly", 111),
   ("houseFunky", 112),
   ("hypnotic", 113),
   ("iceCreamCones", 114),
   ("lightBulb", 115),
   ("lightning1", 116),
   ("lightning2", 117),
   ("mapPins", 118),
   ("mapleLeaf", 119),
   ("mapleMuffins", 120),
   ("marquee", 121),
   ("marqueeToothed", 122),
   ("moons", 123),
   ("mosaic", 124),
   ("musicNotes", 125),
   ("northwest", 126),
   ("ovals", 127),
   ("packages", 128),
   ("palmsBlack", 129),
   ("palmsColor", 130),
   ("paperClips", 131),
   ("papyrus", 132),
   ("partyFavor", 133),
   ("partyGlass", 134),
   ("pencils", 135),
   ("people", 136),
   ("peopleWaving", 137),
   ("peopleHats", 138),
   ("poinsettias", 139),
   ("postageStamp", 140),
   ("pumpkin1", 141),
   ("pushPinNote2", 142),
   ("pushPinNote1", 143),
   ("pyramids", 144),
   ("pyramidsAbove", 145),
   ("quadrants", 146),
   ("rings", 147),
   ("safari", 148),
   ("sawtooth", 149),
   ("sawtoothGray", 150),
   ("scaredCat", 151),
   ("seattle", 152),
   ("shadowedSquares", 153),
   ("sharksTeeth", 154),
   ("shorebirdTracks", 155),
   ("skyrocket", 156),
   ("snowflakeFancy", 157),
   ("snowflakes", 158),
   ("sombrero", 159),
   ("southwest", 160),
   ("stars", 161),
   ("starsTop", 162),
   ("stars3d", 163),
   ("starsBlack", 164),
   ("starsShadowed", 165),
   ("sun", 166),
   ("swirligig", 167),
   ("tornPaper", 168),
   ("tornPaperBlack", 169),
   ("trees", 170),
   ("triangleParty", 171),
   ("triangles", 172),
   ("triangle1", 173),
   ("triangle2", 174),
   ("triangleCircle1", 175),
   ("triangleCircle2", 176),
   ("shapes1", 177),
   ("shapes2", 178),
   ("twistedLines1", 179),
   ("twistedLines2", 180),
   ("vine", 181),
   ("waveline", 182),
   ("weavingAngles", 183),
   ("weavingBraid", 184),
   ("weavingRibbon", 185),
   ("weavingStrips", 186),
   ("whiteFlowers", 187),
   ("woodwork", 188),
   ("xIllusions", 189),
   ("zanyTriangles", 190),
   ("zigZag", 191),
   ("zigZagStitch", 192),
   ("custom", 193)]

/-- Method UnmarshalXML of ST_Border (pointer receiver): takes the value the receiver holds before the call and the decoder, returns the value the receiver holds afterwards, the decoder as the call leaves it, and the error. -/
def ST_Border.UnmarshalXML (m : ST_Border) (d : xml.Decoder) (start : xml.StartElement) :
    ST_Border × xml.Decoder × error :=
  match xml.Decoder.Token d with
  | (_, some err, d) => (m, d, some err)
  | (tok, none, d) =>
    match tok with
    | some (xml.Token.CharData cd) =>
      let m : ST_Border :=
        match switchCase cd ST_Border.UnmarshalXML.cases with
        | some v => v
        | none => m
      match xml.Decoder.Token d with
      | (_, some err, d) => (m, d, some err)
      | (tok, none, d) =>
        match tok with
        | some (xml.Token.EndElement el) =>
          if el.Name = start.Name then (m, d, none)
          else (m, d, some ("expected end element, got " ++ fmt.tokenV tok))
        | _ => (m, d, some ("expected end element, got " ++ fmt.tokenV tok))
    | _ => (m, d, some ("expected char data, got " ++ fmt.tokenT tok))

/-- Method ValidateWithPath of ST_Border: nil for the listed labels, the out-of-range error in the default branch. -/
def ST_Border.ValidateWithPath (m : ST_Border) (path : string) : error :=
  if m ∈ ([0, 1, 2, 3, 4, 5, 6, 7, 8, 9, 10, 11, 12, 13, 14, 15, 16, 17, 18, 19, 20, 21, 22, 23, 24, 25,
    26, 27, 28, 29, 30, 31, 32, 33, 34, 35, 36, 37, 38, 39, 40, 41, 42, 43, 44, 45, 46, 47, 48,
    49, 50, 51, 52, 53, 54, 55, 56, 57, 58, 59, 60, 61, 62, 63, 64, 65, 66, 67, 68, 69, 70, 71,
    72, 73, 74, 75, 76, 77, 78, 79, 80, 81, 82, 83, 84, 85, 86, 87, 88, 89, 90, 91, 92, 93, 94,
    95, 96, 97, 98, 99, 100, 101, 102, 103, 104, 105, 106, 107, 108, 109, 110, 111, 112, 113,
    114, 115, 116, 117, 118, 119, 120, 121, 122, 123, 124, 125, 126, 127, 128, 129, 130, 131,
    132, 133, 134, 135, 136, 137, 138, 139, 140, 141, 142, 143, 144, 145, 146, 147, 148, 149,
    150, 151, 152, 153, 154, 155, 156, 157, 158, 159, 160, 161, 162, 163, 164, 165, 166, 167,
    168, 169, 170, 171, 172, 173, 174, 175, 176, 177, 178, 179, 180, 181, 182, 183, 184, 185,
    186, 187, 188, 189, 190, 191, 192, 193] : List Nat) then none
  else some (errorfOutOfRange path m)

/-- Method Validate of ST_Border. -/
def ST_Border.Validate (m : ST_Border) : error :=
  ST_Border.ValidateWithPath m ""

/-! ### ST_Shd -/

/-- Go declaration: type ST_Shd byte. -/
abbrev ST_Shd : Type := Nat

def ST_ShdUnset : ST_Shd := 0
def ST_ShdNil : ST_Shd := 1
def ST_ShdClear : ST_Shd := 2
def ST_ShdSolid : ST_Shd := 3
def ST_ShdHorzStripe : ST_Shd := 4
def ST_ShdVertStripe : ST_Shd := 5
def ST_ShdReverseDiagStripe : ST_Shd := 6
def ST_ShdDiagStripe : ST_Shd := 7
def ST_ShdHorzCross : ST_Shd := 8
def ST_ShdDiagCross : ST_Shd := 9
def ST_ShdThinHorzStripe : ST_Shd := 10
def ST_ShdThinVertStripe : ST_Shd := 11
def ST_ShdThinReverseDiagStripe : ST_Shd := 12
def ST_ShdThinDiagStripe : ST_Shd := 13
def ST_ShdThinHorzCross : ST_Shd := 14
def ST_ShdThinDiagCross : ST_Shd := 15
def ST_ShdPct5 : ST_Shd := 16
def ST_ShdPct10 : ST_Shd := 17
def ST_ShdPct12 : ST_Shd := 18
def ST_ShdPct15 : ST_Shd := 19
def ST_ShdPct20 : ST_Shd := 20
def ST_ShdPct25 : ST_Shd := 21
def ST_ShdPct30 : ST_Shd := 22
def ST_ShdPct35 : ST_Shd := 23
def ST_ShdPct37 : ST_Shd := 24
def ST_ShdPct40 : ST_Shd := 25
def ST_ShdPct45 : ST_Shd := 26
def ST_ShdPct50 : ST_Shd := 27
def ST_ShdPct55 : ST_Shd := 28
def ST_ShdPct60 : ST_Shd := 29
def ST_ShdPct62 : ST_Shd := 30
def ST_ShdPct65 : ST_Shd := 31
def ST_ShdPct70 : ST_Shd := 32
def ST_ShdPct75 : ST_Shd := 33
def ST_ShdPct80 : ST_Shd := 34
def ST_ShdPct85 : ST_Shd := 35
def ST_ShdPct87 : ST_Shd := 36
def ST_ShdPct90 : ST_Shd := 37
def ST_ShdPct95 : ST_Shd := 38

/-- The const block of ST_Shd, in declaration order. -/
def ST_Shd.constants : List ST_Shd :=
  [ST_ShdUnset, ST_ShdNil, ST_ShdClear, ST_ShdSolid, ST_ShdHorzStripe, ST_ShdVertStripe,
   ST_ShdReverseDiagStripe, ST_ShdDiagStripe, ST_ShdHorzCross, ST_ShdDiagCross,
   ST_ShdThinHorzStripe, ST_ShdThinVertStripe, ST_ShdThinReverseDiagStripe,
   ST_ShdThinDiagStripe, ST_ShdThinHorzCross, ST_ShdThinDiagCross, ST_ShdPct5, ST_ShdPct10,
   ST_ShdPct12, ST_ShdPct15, ST_ShdPct20, ST_ShdPct25, ST_ShdPct30, ST_ShdPct35, ST_ShdPct37,
   ST_ShdPct40, ST_ShdPct45, ST_ShdPct50, ST_ShdPct55, ST_ShdPct60, ST_ShdPct62, ST_ShdPct65,
   ST_ShdPct70, ST_ShdPct75, ST_ShdPct80, ST_ShdPct85, ST_ShdPct87, ST_ShdPct90, ST_ShdPct95]

/-- Method ValidateWithPath of ST_Shd: nil for the listed labels, the out-of-range error in the default branch. -/
def ST_Shd.ValidateWithPath (m : ST_Shd) (path : string) : error :=
  if m ∈ ([0, 1, 2, 3, 4, 5, 6, 7, 8, 9, 10, 11, 12, 13, 14, 15, 16, 17, 18, 19, 20, 21, 22, 23, 24, 25,
    26, 27, 28, 29, 30, 31, 32, 33, 34, 35, 36, 37, 38] : List Nat) then none
  else some (errorfOutOfRange path m)

/-! ### ST_Em -/

/-- Go declaration: type ST_Em byte. -/
abbrev ST_Em : Type := Nat

def ST_EmUnset : ST_Em := 0
def ST_EmNone : ST_Em := 1
def ST_EmDot : ST_Em := 2
def ST_EmComma : ST_Em := 3
def ST_EmCircle : ST_Em := 4
def ST_EmUnderDot : ST_Em := 5

/-- The const block of ST_Em, in declaration order. -/
def ST_Em.constants : List ST_Em :=
  [ST_EmUnset, ST_EmNone, ST_EmDot, ST_EmComma, ST_EmCircle, ST_EmUnderDot]

/-- Method ValidateWithPath of ST_Em: nil for the listed labels, the out-of-range error in the default branch. -/
def ST_Em.ValidateWithPath (m : ST_Em) (path : string) : error :=
  if m ∈ ([0, 1, 2, 3, 4, 5] : List Nat) then none
  else some (errorfOutOfRange path m)

/-! ### ST_CombineBrackets -/

/-- Go declaration: type ST_CombineBrackets byte. -/
abbrev ST_CombineBrackets : Type := Nat

def ST_CombineBracketsUnset : ST_CombineBrackets := 0
def ST_CombineBracketsNone : ST_CombineBrackets := 1
def ST_CombineBracketsRound : ST_CombineBrackets := 2
def ST_CombineBracketsSquare : ST_CombineBrackets := 3
def ST_CombineBracketsAngle : ST_CombineBrackets := 4
def ST_CombineBracketsCurly : ST_CombineBrackets := 5

/-- The const block of ST_CombineBrackets, in declaration order. -/
def ST_CombineBrackets.constants : List ST_CombineBrackets :=
  [ST_CombineBracketsUnset, ST_CombineBracketsNone, ST_CombineBracketsRound,
   ST_CombineBracketsSquare, ST_CombineBracketsAngle, ST_CombineBracketsCurly]

/-- Method ValidateWithPath of ST_CombineBrackets: nil for the listed labels, the out-of-range error in the default branch. -/
def ST_CombineBrackets.ValidateWithPath (m : ST_CombineBrackets) (path : string) : error :=
  if m ∈ ([0, 1, 2, 3, 4, 5] : List Nat) then none
  else some (errorfOutOfRange path m)

/-! ### ST_HeightRule -/

/-- Go declaration: type ST_HeightRule byte. -/
abbrev ST_HeightRule : Type := Nat

def ST_HeightRuleUnset : ST_HeightRule := 0
def ST_HeightRuleAuto : ST_HeightRule := 1
def ST_HeightRuleExact : ST_HeightRule := 2
def ST_HeightRuleAtLeast : ST_HeightRule := 3

/-- The const block of ST_HeightRule, in declaration order. -/
def ST_HeightRule.constants : List ST_HeightRule :=
  [ST_HeightRuleUnset, ST_HeightRuleAuto, ST_HeightRuleExact, ST_HeightRuleAtLeast]

/-- Cases of the switch on e in ST_HeightRule.MarshalXMLAttr, in source order: label and the string assigned to attr.Value. -/
def ST_HeightRule.MarshalXMLAttr.cases : List (ST_HeightRule × string) :=
  [(ST_HeightRuleUnset, ""),
   (ST_HeightRuleAuto, "auto"),
   (ST_HeightRuleExact, "exact"),
   (ST_HeightRuleAtLeast, "atLeast")]

/-- Method MarshalXMLAttr of ST_HeightRule: returns the attribute and the error. -/
def ST_HeightRule.MarshalXMLAttr (e : ST_HeightRule) (name : xml.Name) : xml.Attr × error :=
  let attr : xml.Attr := xml.Attr.zero
  let attr : xml.Attr := { attr with Name := name }
  let attr : xml.Attr :=
    match switchCase e ST_HeightRule.MarshalXMLAttr.cases with
    | some v => { attr with Value := v }
    | none => attr
  (attr, none)

/-- Cases of the switch on attr.Value in ST_HeightRule.UnmarshalXMLAttr, in source order: label and the value stored through the receiver. -/
def ST_HeightRule.UnmarshalXMLAttr.cases : List (string × ST_HeightRule) :=
  [("", 0),
   ("auto", 1),
   ("exact", 2),
   ("atLeast", 3)]

/-- Method UnmarshalXMLAttr of ST_HeightRule (pointer receiver): takes the value the receiver holds before the call, returns the value it holds afterwards and the error. -/
def ST_HeightRule.UnmarshalXMLAttr (e : ST_HeightRule) (attr : xml.Attr) : ST_HeightRule × error :=
  let e : ST_HeightRule :=
    match switchCase attr.Value ST_HeightRule.UnmarshalXMLAttr.cases with
    | some v => v
    | none => e
  (e, none)

/-- Cases of the switch on m in ST_HeightRule.String, in source order: label and the string returned. -/
def ST_HeightRule.String.cases : List (ST_HeightRule × string) :=
  [(0, ""),
   (1, "auto"),
   (2, "exact"),
   (3, "atLeast")]

/-- Method String of ST_HeightRule: the string of the selected case, the empty string after the switch otherwise. -/
def ST_HeightRule.String (m : ST_HeightRule) : string :=
  match switchCase m ST_HeightRule.String.cases with
  | some s => s
  | none => ""

/-- Method MarshalXML of ST_HeightRule: the tokens a decoder reads back from what e.EncodeElement(m.String(), start) writes, with a nil error. -/
def ST_HeightRule.MarshalXML (m : ST_HeightRule) (start : xml.StartElement) : List xml.Token × error :=
  (xml.EncodeElement (ST_HeightRule.String m) start, none)

/-- Cases of the switch on string(cd) in ST_HeightRule.UnmarshalXML, in source order: label and the value stored through the receiver. -/
def ST_HeightRule.UnmarshalXML.cases : List (string × ST_HeightRule) :=
  [("", 0),
   ("auto", 1),
   ("exact", 2),
   ("atLeast", 3)]

/-- Method UnmarshalXML of ST_HeightRule (pointer receiver): takes the value the receiver holds before the call and the decoder, returns the value the receiver holds afterwards, the decoder as the call leaves it, and the error. -/
def ST_HeightRule.UnmarshalXML (m : ST_HeightRule) (d : xml.Decoder) (start : xml.StartElement) :
    ST_HeightRule × xml.Decoder × error :=
  match xml.Decoder.Token d with
  | (_, some err, d) => (m, d, some err)
  | (tok, none, d) =>
    match tok with
    | some (xml.Token.CharData cd) =>
      let m : ST_HeightRule :=
        match switchCase cd ST_HeightRule.UnmarshalXML.cases with
        | some v => v
        | none => m
      match xml.Decoder.Token d with
      | (_, some err, d) => (m, d, some err)
      | (tok, none, d) =>
        match tok with
        | some (xml.Token.EndElement el) =>
          if el.Name = start.Name then (m, d, none)
          else (m, d, some ("expected end element, got " ++ fmt.tokenV tok))
        | _ => (m, d, some ("expected end element, got " ++ fmt.tokenV tok))
    | _ => (m, d, some ("expected char data, got " ++ fmt.tokenT tok))

/-- Method ValidateWithPath of ST_HeightRule: nil for the listed labels, the out-of-range error in the default branch. -/
def ST_HeightRule.ValidateWithPath (m : ST_HeightRule) (path : string) : error :=
  if m ∈ ([0, 1, 2, 3] : List Nat) then none
  else some (errorfOutOfRange path m)

/-- Method Validate of ST_HeightRule. -/
def ST_HeightRule.Validate (m : ST_HeightRule) : error :=
  ST_HeightRule.ValidateWithPath m ""

/-! ### ST_Wrap -/

/-- Go declaration: type ST_Wrap byte. -/
abbrev ST_Wrap : Type := Nat

def ST_WrapUnset : ST_Wrap := 0
def ST_WrapAuto : ST_Wrap := 1
def ST_WrapNotBeside : ST_Wrap := 2
def ST_WrapAround : ST_Wrap := 3
def ST_WrapTight : ST_Wrap := 4
def ST_WrapThrough : ST_Wrap := 5
def ST_WrapNone : ST_Wrap := 6

/-- The const block of ST_Wrap, in declaration order. -/
def ST_Wrap.constants : List ST_Wrap :=
  [ST_WrapUnset, ST_WrapAuto, ST_WrapNotBeside, ST_WrapAround, ST_WrapTight, ST_WrapThrough,
   ST_WrapNone]

/-- Method ValidateWithPath of ST_Wrap: nil for the listed labels, the out-of-range error in the default branch. -/
def ST_Wrap.ValidateWithPath (m : ST_Wrap) (path : string) : error :=
  if m ∈ ([0, 1, 2, 3, 4, 5, 6] : List Nat) then none
  else some (errorfOutOfRange path m)

/-! ### ST_VAnchor -/

/-- Go declaration: type ST_VAnchor byte. -/
abbrev ST_VAnchor : Type := Nat

def ST_VAnchorUnset : ST_VAnchor := 0
def ST_VAnchorText : ST_VAnchor := 1
def ST_VAnchorMargin : ST_VAnchor := 2
def ST_VAnchorPage : ST_VAnchor := 3

/-- The const block of ST_VAnchor, in declaration order. -/
def ST_VAnchor.constants : List ST_VAnchor :=
  [ST_VAnchorUnset, ST_VAnchorText, ST_VAnchorMargin, ST_VAnchorPage]

/-- Method ValidateWithPath of ST_VAnchor: nil for the listed labels, the out-of-range error in the default branch. -/
def ST_VAnchor.ValidateWithPath (m : ST_VAnchor) (path : string) : error :=
  if m ∈ ([0, 1, 2, 3] : List Nat) then none
  else some (errorfOutOfRange path m)

/-! ### ST_HAnchor -/

/-- Go declaration: type ST_HAnchor byte. -/
abbrev ST_HAnchor : Type := Nat

def ST_HAnchorUnset : ST_HAnchor := 0
def ST_HAnchorText : ST_HAnchor := 1
def ST_HAnchorMargin : ST_HAnchor := 2
def ST_HAnchorPage : ST_HAnchor := 3

/-- The const block of ST_HAnchor, in declaration order. -/
def ST_HAnchor.constants : List ST_HAnchor :=
  [ST_HAnchorUnset, ST_HAnchorText, ST_HAnchorMargin, ST_HAnchorPage]

/-- Method ValidateWithPath of ST_HAnchor: nil for the listed labels, the out-of-range error in the default branch. -/
def ST_HAnchor.ValidateWithPath (m : ST_HAnchor) (path : string) : error :=
  if m ∈ ([0, 1, 2, 3] : List Nat) then none
  else some (errorfOutOfRange path m)

/-! ### ST_DropCap -/

/-- Go declaration: type ST_DropCap byte. -/
abbrev ST_DropCap : Type := Nat

def ST_DropCapUnset : ST_DropCap := 0
def ST_DropCapNone : ST_DropCap := 1
def ST_DropCapDrop : ST_DropCap := 2
def ST_DropCapMargin : ST_DropCap := 3

/-- The const block of ST_DropCap, in declaration order. -/
def ST_DropCap.constants : List ST_DropCap :=
  [ST_DropCapUnset, ST_DropCapNone, ST_DropCapDrop, ST_DropCapMargin]

/-- Method ValidateWithPath of ST_DropCap: nil for the listed labels, the out-of-range error in the default branch. -/
def ST_DropCap.ValidateWithPath (m : ST_DropCap) (path : string) : error :=
  if m ∈ ([0, 1, 2, 3] : List Nat) then none
  else some (errorfOutOfRange path m)

/-! ### ST_TabJc -/

/-- Go declaration: type ST_TabJc byte. -/
abbrev ST_TabJc : Type := Nat

def ST_TabJcUnset : ST_TabJc := 0
def ST_TabJcClear : ST_TabJc := 1
def ST_TabJcStart : ST_TabJc := 2
def ST_TabJcCenter : ST_TabJc := 3
def ST_TabJcEnd : ST_TabJc := 4
def ST_TabJcDecimal : ST_TabJc := 5
def ST_TabJcBar : ST_TabJc := 6
def ST_TabJcNum : ST_TabJc := 7
def ST_TabJcLeft : ST_TabJc := 8
def ST_TabJcRight : ST_TabJc := 9

/-- The const block of ST_TabJc, in declaration order. -/
def ST_TabJc.constants : List ST_TabJc :=
  [ST_TabJcUnset, ST_TabJcClear, ST_TabJcStart, ST_TabJcCenter, ST_TabJcEnd, ST_TabJcDecimal,
   ST_TabJcBar, ST_TabJcNum, ST_TabJcLeft, ST_TabJcRight]

/-- Method ValidateWithPath of ST_TabJc: nil for the listed labels, the out-of-range error in the default branch. -/
def ST_TabJc.ValidateWithPath (m : ST_TabJc) (path : string) : error :=
  if m ∈ ([0, 1, 2, 3, 4, 5, 6, 7, 8, 9] : List Nat) then none
  else some (errorfOutOfRange path m)

/-! ### ST_TabTlc -/

/-- Go declaration: type ST_TabTlc byte. -/
abbrev ST_TabTlc : Type := Nat

def ST_TabTlcUnset : ST_TabTlc := 0
def ST_TabTlcNone : ST_TabTlc := 1
def ST_TabTlcDot : ST_TabTlc := 2
def ST_TabTlcHyphen : ST_TabTlc := 3
def ST_TabTlcUnderscore : ST_TabTlc := 4
def ST_TabTlcHeavy : ST_TabTlc := 5
def ST_TabTlcMiddleDot : ST_TabTlc := 6

/-- The const block of ST_TabTlc, in declaration order. -/
def ST_TabTlc.constants : List ST_TabTlc :=
  [ST_TabTlcUnset, ST_TabTlcNone, ST_TabTlcDot, ST_TabTlcHyphen, ST_TabTlcUnderscore,
   ST_TabTlcHeavy, ST_TabTlcMiddleDot]

/-- Method ValidateWithPath of ST_TabTlc: nil for the listed labels, the out-of-range error in the default branch. -/
def ST_TabTlc.ValidateWithPath (m : ST_TabTlc) (path : string) : error :=
  if m ∈ ([0, 1, 2, 3, 4, 5, 6] : List Nat) then none
  else some (errorfOutOfRange path m)

/-! ### ST_LineSpacingRule -/

/-- Go declaration: type ST_LineSpacingRule byte. -/
abbrev ST_LineSpacingRule : Type := Nat

def ST_LineSpacingRuleUnset : ST_LineSpacingRule := 0
def ST_LineSpacingRuleAuto : ST_LineSpacingRule := 1
def ST_LineSpacingRuleExact : ST_LineSpacingRule := 2
def ST_LineSpacingRuleAtLeast : ST_LineSpacingRule := 3

/-- The const block of ST_LineSpacingRule, in declaration order. -/
def ST_LineSpacingRule.constants : List ST_LineSpacingRule :=
  [ST_LineSpacingRuleUnset, ST_LineSpacingRuleAuto, ST_LineSpacingRuleExact,
   ST_LineSpacingRuleAtLeast]

/-- Method ValidateWithPath of ST_LineSpacingRule: nil for the listed labels, the out-of-range error in the default branch. -/
def ST_LineSpacingRule.ValidateWithPath (m : ST_LineSpacingRule) (path : string) : error :=
  if m ∈ ([0, 1, 2, 3] : List Nat) then none
  else some (errorfOutOfRange path m)

/-! ### ST_Jc -/

/-- Go declaration: type ST_Jc byte. -/
abbrev ST_Jc : Type := Nat

def ST_JcUnset : ST_Jc := 0
def ST_JcStart : ST_Jc := 1
def ST_JcCenter : ST_Jc := 2
def ST_JcEnd : ST_Jc := 3
def ST_JcBoth : ST_Jc := 4
def ST_JcMediumKashida : ST_Jc := 5
def ST_JcDistribute : ST_Jc := 6
def ST_JcNumTab : ST_Jc := 7
def ST_JcHighKashida : ST_Jc := 8
def ST_JcLowKashida : ST_Jc := 9
def ST_JcThaiDistribute : ST_Jc := 10
def ST_JcLeft : ST_Jc := 11
def ST_JcRight : ST_Jc := 12

/-- The const block of ST_Jc, in declaration order. -/
def ST_Jc.constants : List ST_Jc :=
  [ST_JcUnset, ST_JcStart, ST_JcCenter, ST_JcEnd, ST_JcBoth, ST_JcMediumKashida,
   ST_JcDistribute, ST_JcNumTab, ST_JcHighKashida, ST_JcLowKashida, ST_JcThaiDistribute,
   ST_JcLeft, ST_JcRight]

/-- Method ValidateWithPath of ST_Jc: nil for the listed labels, the out-of-range error in the default branch. -/
def ST_Jc.ValidateWithPath (m : ST_Jc) (path : string) : error :=
  if m ∈ ([0, 1, 2, 3, 4, 5, 6, 7, 8, 9, 10, 11, 12] : List Nat) then none
  else some (errorfOutOfRange path m)

/-! ### ST_JcTable -/

/-- Go declaration: type ST_JcTable byte. -/
abbrev ST_JcTable : Type := Nat

def ST_JcTableUnset : ST_JcTable := 0
def ST_JcTableCenter : ST_JcTable := 1
def ST_JcTableEnd : ST_JcTable := 2
def ST_JcTableLeft : ST_JcTable := 3
def ST_JcTableRight : ST_JcTable := 4
def ST_JcTableStart : ST_JcTable := 5

/-- The const block of ST_JcTable, in declaration order. -/
def ST_JcTable.constants : List ST_JcTable :=
  [ST_JcTableUnset, ST_JcTableCenter, ST_JcTableEnd, ST_JcTableLeft, ST_JcTableRight,
   ST_JcTableStart]

/-- Method ValidateWithPath of ST_JcTable: nil for the listed labels, the out-of-range error in the default branch. -/
def ST_JcTable.ValidateWithPath (m : ST_JcTable) (path : string) : error :=
  if m ∈ ([0, 1, 2, 3, 4, 5] : List Nat) then none
  else some (errorfOutOfRange path m)

/-! ### ST_View -/

/-- Go declaration: type ST_View byte. -/
abbrev ST_View : Type := Nat

def ST_ViewUnset : ST_View := 0
def ST_ViewNone : ST_View := 1
def ST_ViewPrint : ST_View := 2
def ST_ViewOutline : ST_View := 3
def ST_ViewMasterPages : ST_View := 4
def ST_ViewNormal : ST_View := 5
def ST_ViewWeb : ST_View := 6

/-- The const block of ST_View, in declaration order. -/
def ST_View.constants : List ST_View :=
  [ST_ViewUnset, ST_ViewNone, ST_ViewPrint, ST_ViewOutline, ST_ViewMasterPages, ST_ViewNormal,
   ST_ViewWeb]

/-- Method ValidateWithPath of ST_View: nil for the listed labels, the out-of-range error in the default branch. -/
def ST_View.ValidateWithPath (m : ST_View) (path : string) : error :=
  if m ∈ ([0, 1, 2, 3, 4, 5, 6] : List Nat) then none
  else some (errorfOutOfRange path m)

/-! ### ST_Zoom -/

/-- Go declaration: type ST_Zoom byte. -/
abbrev ST_Zoom : Type := Nat

def ST_ZoomUnset : ST_Zoom := 0
def ST_ZoomNone : ST_Zoom := 1
def ST_ZoomFullPage : ST_Zoom := 2
def ST_ZoomBestFit : ST_Zoom := 3
def ST_ZoomTextFit : ST_Zoom := 4

/-- The const block of ST_Zoom, in declaration order. -/
def ST_Zoom.constants : List ST_Zoom :=
  [ST_ZoomUnset, ST_ZoomNone, ST_ZoomFullPage, ST_ZoomBestFit, ST_ZoomTextFit]

/-- Method ValidateWithPath of ST_Zoom: nil for the listed labels, the out-of-range error in the default branch. -/
def ST_Zoom.ValidateWithPath (m : ST_Zoom) (path : string) : error :=
  if m ∈ ([0, 1, 2, 3, 4] : List Nat) then none
  else some (errorfOutOfRange path m)

/-! ### ST_Proof -/

/-- Go declaration: type ST_Proof byte. -/
abbrev ST_Proof : Type := Nat

def ST_ProofUnset : ST_Proof := 0
def ST_ProofClean : ST_Proof := 1
def ST_ProofDirty : ST_Proof := 2

/-- The const block of ST_Proof, in declaration order. -/
def ST_Proof.constants : List ST_Proof :=
  [ST_ProofUnset, ST_ProofClean, ST_ProofDirty]

/-- Method ValidateWithPath of ST_Proof: nil for the listed labels, the out-of-range error in the default branch. -/
def ST_Proof.ValidateWithPath (m : ST_Proof) (path : string) : error :=
  if m ∈ ([0, 1, 2] : List Nat) then none
  else some (errorfOutOfRange path m)

/-! ### ST_DocProtect -/

/-- Go declaration: type ST_DocProtect byte. -/
abbrev ST_DocProtect : Type := Nat

def ST_DocProtectUnset : ST_DocProtect := 0
def ST_DocProtectNone : ST_DocProtect := 1
def ST_DocProtectReadOnly : ST_DocProtect := 2
def ST_DocProtectComments : ST_DocProtect := 3
def ST_DocProtectTrackedChanges : ST_DocProtect := 4
def ST_DocProtectForms : ST_DocProtect := 5

/-- The const block of ST_DocProtect, in declaration order. -/
def ST_DocProtect.constants : List ST_DocProtect :=
  [ST_DocProtectUnset, ST_DocProtectNone, ST_DocProtectReadOnly, ST_DocProtectComments,
   ST_DocProtectTrackedChanges, ST_DocProtectForms]

/-- Method ValidateWithPath of ST_DocProtect: nil for the listed labels, the out-of-range error in the default branch. -/
def ST_DocProtect.ValidateWithPath (m : ST_DocProtect) (path : string) : error :=
  if m ∈ ([0, 1, 2, 3, 4, 5] : List Nat) then none
  else some (errorfOutOfRange path m)

/-! ### ST_MailMergeDocType -/

/-- Go declaration: type ST_MailMergeDocType byte. -/
abbrev ST_MailMergeDocType : Type := Nat

def ST_MailMergeDocTypeUnset : ST_MailMergeDocType := 0
def ST_MailMergeDocTypeCatalog : ST_MailMergeDocType := 1
def ST_MailMergeDocTypeEnvelopes : ST_MailMergeDocType := 2
def ST_MailMergeDocTypeMailingLabels : ST_MailMergeDocType := 3
def ST_MailMergeDocTypeFormLetters : ST_MailMergeDocType := 4
def ST_MailMergeDocTypeEmail : ST_MailMergeDocType := 5
def ST_MailMergeDocTypeFax : ST_MailMergeDocType := 6

/-- The const block of ST_MailMergeDocType, in declaration order. -/
def ST_MailMergeDocType.constants : List ST_MailMergeDocType :=
  [ST_MailMergeDocTypeUnset, ST_MailMergeDocTypeCatalog, ST_MailMergeDocTypeEnvelopes,
   ST_MailMergeDocTypeMailingLabels, ST_MailMergeDocTypeFormLetters, ST_MailMergeDocTypeEmail,
   ST_MailMergeDocTypeFax]

/-- Method ValidateWithPath of ST_MailMergeDocType: nil for the listed labels, the out-of-range error in the default branch. -/
def ST_MailMergeDocType.ValidateWithPath (m : ST_MailMergeDocType) (path : string) : error :=
  if m ∈ ([0, 1, 2, 3, 4, 5, 6] : List Nat) then none
  else some (errorfOutOfRange path m)

/-! ### ST_MailMergeDest -/

/-- Go declaration: type ST_MailMergeDest byte. -/
abbrev ST_MailMergeDest : Type := Nat

def ST_MailMergeDestUnset : ST_MailMergeDest := 0
def ST_MailMergeDestNewDocument : ST_MailMergeDest := 1
def ST_MailMergeDestPrinter : ST_MailMergeDest := 2
def ST_MailMergeDestEmail : ST_MailMergeDest := 3
def ST_MailMergeDestFax : ST_MailMergeDest := 4

/-- The const block of ST_MailMergeDest, in declaration order. -/
def ST_MailMergeDest.constants : List ST_MailMergeDest :=
  [ST_MailMergeDestUnset, ST_MailMergeDestNewDocument, ST_MailMergeDestPrinter,
   ST_MailMergeDestEmail, ST_MailMergeDestFax]

/-- Method ValidateWithPath of ST_MailMergeDest: nil for the listed labels, the out-of-range error in the default branch. -/
def ST_MailMergeDest.ValidateWithPath (m : ST_MailMergeDest) (path : string) : error :=
  if m ∈ ([0, 1, 2, 3, 4] : List Nat) then none
  else some (errorfOutOfRange path m)

/-! ### ST_MailMergeOdsoFMDFieldType -/

/-- Go declaration: type ST_MailMergeOdsoFMDFieldType byte. -/
abbrev ST_MailMergeOdsoFMDFieldType : Type := Nat

def ST_MailMergeOdsoFMDFieldTypeUnset : ST_MailMergeOdsoFMDFieldType := 0
def ST_MailMergeOdsoFMDFieldTypeNull : ST_MailMergeOdsoFMDFieldType := 1
def ST_MailMergeOdsoFMDFieldTypeDbColumn : ST_MailMergeOdsoFMDFieldType := 2

/-- The const block of ST_MailMergeOdsoFMDFieldType, in declaration order. -/
def ST_MailMergeOdsoFMDFieldType.constants : List ST_MailMergeOdsoFMDFieldType :=
  [ST_MailMergeOdsoFMDFieldTypeUnset, ST_MailMergeOdsoFMDFieldTypeNull,
   ST_MailMergeOdsoFMDFieldTypeDbColumn]

/-- Method ValidateWithPath of ST_MailMergeOdsoFMDFieldType: nil for the listed labels, the out-of-range error in the default branch. -/
def ST_MailMergeOdsoFMDFieldType.ValidateWithPath (m : ST_MailMergeOdsoFMDFieldType) (path : string) : error :=
  if m ∈ ([0, 1, 2] : List Nat) then none
  else some (errorfOutOfRange path m)

/-! ### ST_TextDirection -/

/-- Go declaration: type ST_TextDirection byte. -/
abbrev ST_TextDirection : Type := Nat

def ST_TextDirectionUnset : ST_TextDirection := 0
def ST_TextDirectionTb : ST_TextDirection := 1
def ST_TextDirectionRl : ST_TextDirection := 2
def ST_TextDirectionLr : ST_TextDirection := 3
def ST_TextDirectionTbV : ST_TextDirection := 4
def ST_TextDirectionRlV : ST_TextDirection := 5
def ST_TextDirectionLrV : ST_TextDirection := 6
def ST_TextDirectionBtLr : ST_TextDirection := 7
def ST_TextDirectionLrTb : ST_TextDirection := 8
def ST_TextDirectionLrTbV : ST_TextDirection := 9
def ST_TextDirectionTbLrV : ST_TextDirection := 10
def ST_TextDirectionTbRl : ST_TextDirection := 11
def ST_TextDirectionTbRlV : ST_TextDirection := 12

/-- The const block of ST_TextDirection, in declaration order. -/
def ST_TextDirection.constants : List ST_TextDirection :=
  [ST_TextDirectionUnset, ST_TextDirectionTb, ST_TextDirectionRl, ST_TextDirectionLr,
   ST_TextDirectionTbV, ST_TextDirectionRlV, ST_TextDirectionLrV, ST_TextDirectionBtLr,
   ST_TextDirectionLrTb, ST_TextDirectionLrTbV, ST_TextDirectionTbLrV, ST_TextDirectionTbRl,
   ST_TextDirectionTbRlV]

/-- Method ValidateWithPath of ST_TextDirection: nil for the listed labels, the out-of-range error in the default branch. -/
def ST_TextDirection.ValidateWithPath (m : ST_TextDirection) (path : string) : error :=
  if m ∈ ([0, 1, 2, 3, 4, 5, 6, 7, 8, 9, 10, 11, 12] : List Nat) then none
  else some (errorfOutOfRange path m)

/-! ### ST_TextAlignment -/

/-- Go declaration: type ST_TextAlignment byte. -/
abbrev ST_TextAlignment : Type := Nat

def ST_TextAlignmentUnset : ST_TextAlignment := 0
def ST_TextAlignmentTop : ST_TextAlignment := 1
def ST_TextAlignmentCenter : ST_TextAlignment := 2
def ST_TextAlignmentBaseline : ST_TextAlignment := 3
def ST_TextAlignmentBottom : ST_TextAlignment := 4
def ST_TextAlignmentAuto : ST_TextAlignment := 5

/-- The const block of ST_TextAlignment, in declaration order. -/
def ST_TextAlignment.constants : List ST_TextAlignment :=
  [ST_TextAlignmentUnset, ST_TextAlignmentTop, ST_TextAlignmentCenter,
   ST_TextAlignmentBaseline, ST_TextAlignmentBottom, ST_TextAlignmentAuto]

/-- Method ValidateWithPath of ST_TextAlignment: nil for the listed labels, the out-of-range error in the default branch. -/
def ST_TextAlignment.ValidateWithPath (m : ST_TextAlignment) (path : string) : error :=
  if m ∈ ([0, 1, 2, 3, 4, 5] : List Nat) then none
  else some (errorfOutOfRange path m)

/-! ### ST_DisplacedByCustomXml -/

/-- Go declaration: type ST_DisplacedByCustomXml byte. -/
abbrev ST_DisplacedByCustomXml : Type := Nat

def ST_DisplacedByCustomXmlUnset : ST_DisplacedByCustomXml := 0
def ST_DisplacedByCustomXmlNext : ST_DisplacedByCustomXml := 1
def ST_DisplacedByCustomXmlPrev : ST_DisplacedByCustomXml := 2

/-- The const block of ST_DisplacedByCustomXml, in declaration order. -/
def ST_DisplacedByCustomXml.constants : List ST_DisplacedByCustomXml :=
  [ST_DisplacedByCustomXmlUnset, ST_DisplacedByCustomXmlNext, ST_DisplacedByCustomXmlPrev]

/-- Method ValidateWithPath of ST_DisplacedByCustomXml: nil for the listed labels, the out-of-range error in the default branch. -/
def ST_DisplacedByCustomXml.ValidateWithPath (m : ST_DisplacedByCustomXml) (path : string) : error :=
  if m ∈ ([0, 1, 2] : List Nat) then none
  else some (errorfOutOfRange path m)

/-! ### ST_AnnotationVMerge -/

/-- Go declaration: type ST_AnnotationVMerge byte. -/
abbrev ST_AnnotationVMerge : Type := Nat

def ST_AnnotationVMergeUnset : ST_AnnotationVMerge := 0
def ST_AnnotationVMergeCont : ST_AnnotationVMerge := 1
def ST_AnnotationVMergeRest : ST_AnnotationVMerge := 2

/-- The const block of ST_AnnotationVMerge, in declaration order. -/
def ST_AnnotationVMerge.constants : List ST_AnnotationVMerge :=
  [ST_AnnotationVMergeUnset, ST_AnnotationVMergeCont, ST_AnnotationVMergeRest]

/-- Method ValidateWithPath of ST_AnnotationVMerge: nil for the listed labels, the out-of-range error in the default branch. -/
def ST_AnnotationVMerge.ValidateWithPath (m : ST_AnnotationVMerge) (path : string) : error :=
  if m ∈ ([0, 1, 2] : List Nat) then none
  else some (errorfOutOfRange path m)

/-! ### ST_TextboxTightWrap -/

/-- Go declaration: type ST_TextboxTightWrap byte. -/
abbrev ST_TextboxTightWrap : Type := Nat

def ST_TextboxTightWrapUnset : ST_TextboxTightWrap := 0
def ST_TextboxTightWrapNone : ST_TextboxTightWrap := 1
def ST_TextboxTightWrapAllLines : ST_TextboxTightWrap := 2
def ST_TextboxTightWrapFirstAndLastLine : ST_TextboxTightWrap := 3
def ST_TextboxTightWrapFirstLineOnly : ST_TextboxTightWrap := 4
def ST_TextboxTightWrapLastLineOnly : ST_TextboxTightWrap := 5

/-- The const block of ST_TextboxTightWrap, in declaration order. -/
def ST_TextboxTightWrap.constants : List ST_TextboxTightWrap :=
  [ST_TextboxTightWrapUnset, ST_TextboxTightWrapNone, ST_TextboxTightWrapAllLines,
   ST_TextboxTightWrapFirstAndLastLine, ST_TextboxTightWrapFirstLineOnly,
   ST_TextboxTightWrapLastLineOnly]

/-- Method ValidateWithPath of ST_TextboxTightWrap: nil for the listed labels, the out-of-range error in the default branch. -/
def ST_TextboxTightWrap.ValidateWithPath (m : ST_TextboxTightWrap) (path : string) : error :=
  if m ∈ ([0, 1, 2, 3, 4, 5] : List Nat) then none
  else some (errorfOutOfRange path m)

/-! ### ST_ObjectDrawAspect -/

/-- Go declaration: type ST_ObjectDrawAspect byte. -/
abbrev ST_ObjectDrawAspect : Type := Nat

def ST_ObjectDrawAspectUnset : ST_ObjectDrawAspect := 0
def ST_ObjectDrawAspectContent : ST_ObjectDrawAspect := 1
def ST_ObjectDrawAspectIcon : ST_ObjectDrawAspect := 2

/-- The const block of ST_ObjectDrawAspect, in declaration order. -/
def ST_ObjectDrawAspect.constants : List ST_ObjectDrawAspect :=
  [ST_ObjectDrawAspectUnset, ST_ObjectDrawAspectContent, ST_ObjectDrawAspectIcon]

/-- Method ValidateWithPath of ST_ObjectDrawAspect: nil for the listed labels, the out-of-range error in the default branch. -/
def ST_ObjectDrawAspect.ValidateWithPath (m : ST_ObjectDrawAspect) (path : string) : error :=
  if m ∈ ([0, 1, 2] : List Nat) then none
  else some (errorfOutOfRange path m)

/-! ### ST_ObjectUpdateMode -/

/-- Go declaration: type ST_ObjectUpdateMode byte. -/
abbrev ST_ObjectUpdateMode : Type := Nat

def ST_ObjectUpdateModeUnset : ST_ObjectUpdateMode := 0
def ST_ObjectUpdateModeAlways : ST_ObjectUpdateMode := 1
def ST_ObjectUpdateModeOnCall : ST_ObjectUpdateMode := 2

/-- The const block of ST_ObjectUpdateMode, in declaration order. -/
def ST_ObjectUpdateMode.constants : List ST_ObjectUpdateMode :=
  [ST_ObjectUpdateModeUnset, ST_ObjectUpdateModeAlways, ST_ObjectUpdateModeOnCall]

/-- Method ValidateWithPath of ST_ObjectUpdateMode: nil for the listed labels, the out-of-range error in the default branch. -/
def ST_ObjectUpdateMode.ValidateWithPath (m : ST_ObjectUpdateMode) (path : string) : error :=
  if m ∈ ([0, 1, 2] : List Nat) then none
  else some (errorfOutOfRange path m)

/-! ### ST_FldCharType -/

/-- Go declaration: type ST_FldCharType byte. -/
abbrev ST_FldCharType : Type := Nat

def ST_FldCharTypeUnset : ST_FldCharType := 0
def ST_FldCharTypeBegin : ST_FldCharType := 1
def ST_FldCharTypeSeparate : ST_FldCharType := 2
def ST_FldCharTypeEnd : ST_FldCharType := 3

/-- The const block of ST_FldCharType, in declaration order. -/
def ST_FldCharType.constants : List ST_FldCharType :=
  [ST_FldCharTypeUnset, ST_FldCharTypeBegin, ST_FldCharTypeSeparate, ST_FldCharTypeEnd]

/-- Method ValidateWithPath of ST_FldCharType: nil for the listed labels, the out-of-range error in the default branch. -/
def ST_FldCharType.ValidateWithPath (m : ST_FldCharType) (path : string) : error :=
  if m ∈ ([0, 1, 2, 3] : List Nat) then none
  else some (errorfOutOfRange path m)

/-! ### ST_InfoTextType -/

/-- Go declaration: type ST_InfoTextType byte. -/
abbrev ST_InfoTextType : Type := Nat

def ST_InfoTextTypeUnset : ST_InfoTextType := 0
def ST_InfoTextTypeText : ST_InfoTextType := 1
def ST_InfoTextTypeAutoText : ST_InfoTextType := 2

/-- The const block of ST_InfoTextType, in declaration order. -/
def ST_InfoTextType.constants : List ST_InfoTextType :=
  [ST_InfoTextTypeUnset, ST_InfoTextTypeText, ST_InfoTextTypeAutoText]

/-- Method ValidateWithPath of ST_InfoTextType: nil for the listed labels, the out-of-range error in the default branch. -/
def ST_InfoTextType.ValidateWithPath (m : ST_InfoTextType) (path : string) : error :=
  if m ∈ ([0, 1, 2] : List Nat) then none
  else some (errorfOutOfRange path m)

/-! ### ST_FFTextType -/

/-- Go declaration: type ST_FFTextType byte. -/
abbrev ST_FFTextType : Type := Nat

def ST_FFTextTypeUnset : ST_FFTextType := 0
def ST_FFTextTypeRegular : ST_FFTextType := 1
def ST_FFTextTypeNumber : ST_FFTextType := 2
def ST_FFTextTypeDate : ST_FFTextType := 3
def ST_FFTextTypeCurrentTime : ST_FFTextType := 4
def ST_FFTextTypeCurrentDate : ST_FFTextType := 5
def ST_FFTextTypeCalculated : ST_FFTextType := 6

/-- The const block of ST_FFTextType, in declaration order. -/
def ST_FFTextType.constants : List ST_FFTextType :=
  [ST_FFTextTypeUnset, ST_FFTextTypeRegular, ST_FFTextTypeNumber, ST_FFTextTypeDate,
   ST_FFTextTypeCurrentTime, ST_FFTextTypeCurrentDate, ST_FFTextTypeCalculated]

/-- Method ValidateWithPath of ST_FFTextType: nil for the listed labels, the out-of-range error in the default branch. -/
def ST_FFTextType.ValidateWithPath (m : ST_FFTextType) (path : string) : error :=
  if m ∈ ([0, 1, 2, 3, 4, 5, 6] : List Nat) then none
  else some (errorfOutOfRange path m)

/-! ### ST_SectionMark -/

/-- Go declaration: type ST_SectionMark byte. -/
abbrev ST_SectionMark : Type := Nat

def ST_SectionMarkUnset : ST_SectionMark := 0
def ST_SectionMarkNextPage : ST_SectionMark := 1
def ST_SectionMarkNextColumn : ST_SectionMark := 2
def ST_SectionMarkContinuous : ST_SectionMark := 3
def ST_SectionMarkEvenPage : ST_SectionMark := 4
def ST_SectionMarkOddPage : ST_SectionMark := 5

/-- The const block of ST_SectionMark, in declaration order. -/
def ST_SectionMark.constants : List ST_SectionMark :=
  [ST_SectionMarkUnset, ST_SectionMarkNextPage, ST_SectionMarkNextColumn,
   ST_SectionMarkContinuous, ST_SectionMarkEvenPage, ST_SectionMarkOddPage]

/-- Method ValidateWithPath of ST_SectionMark: nil for the listed labels, the out-of-range error in the default branch. -/
def ST_SectionMark.ValidateWithPath (m : ST_SectionMark) (path : string) : error :=
  if m ∈ ([0, 1, 2, 3, 4, 5] : List Nat) then none
  else some (errorfOutOfRange path m)

/-! ### ST_NumberFormat -/

/-- Go declaration: type ST_NumberFormat byte. -/
abbrev ST_NumberFormat : Type := Nat

def ST_NumberFormatUnset : ST_NumberFormat := 0
def ST_NumberFormatDecimal : ST_NumberFormat := 1
def ST_NumberFormatUpperRoman : ST_NumberFormat := 2
def ST_NumberFormatLowerRoman : ST_NumberFormat := 3
def ST_NumberFormatUpperLetter : ST_NumberFormat := 4
def ST_NumberFormatLowerLetter : ST_NumberFormat := 5
def ST_NumberFormatOrdinal : ST_NumberFormat := 6
def ST_NumberFormatCardinalText : ST_NumberFormat := 7
def ST_NumberFormatOrdinalText : ST_NumberFormat := 8
def ST_NumberFormatHex : ST_NumberFormat := 9
def ST_NumberFormatChicago : ST_NumberFormat := 10
def ST_NumberFormatIdeographDigital : ST_NumberFormat := 11
def ST_NumberFormatJapaneseCounting : ST_NumberFormat := 12
def ST_NumberFormatAiueo : ST_NumberFormat := 13
def ST_NumberFormatIroha : ST_NumberFormat := 14
def ST_NumberFormatDecimalFullWidth : ST_NumberFormat := 15
def ST_NumberFormatDecimalHalfWidth : ST_NumberFormat := 16
def ST_NumberFormatJapaneseLegal : ST_NumberFormat := 17
def ST_NumberFormatJapaneseDigitalTenThousand : ST_NumberFormat := 18
def ST_NumberFormatDecimalEnclosedCircle : ST_NumberFormat := 19
def ST_NumberFormatDecimalFullWidth2 : ST_NumberFormat := 20
def ST_NumberFormatAiueoFullWidth : ST_NumberFormat := 21
def ST_NumberFormatIrohaFullWidth : ST_NumberFormat := 22
def ST_NumberFormatDecimalZero : ST_NumberFormat := 23
def ST_NumberFormatBullet : ST_NumberFormat := 24
def ST_NumberFormatGanada : ST_NumberFormat := 25
def ST_NumberFormatChosung : ST_NumberFormat := 26
def ST_NumberFormatDecimalEnclosedFullstop : ST_NumberFormat := 27
def ST_NumberFormatDecimalEnclosedParen : ST_NumberFormat := 28
def ST_NumberFormatDecimalEnclosedCircleChinese : ST_NumberFormat := 29
def ST_NumberFormatIdeographEnclosedCircle : ST_NumberFormat := 30
def ST_NumberFormatIdeographTraditional : ST_NumberFormat := 31
def ST_NumberFormatIdeographZodiac : ST_NumberFormat := 32
def ST_NumberFormatIdeographZodiacTraditional : ST_NumberFormat := 33
def ST_NumberFormatTaiwaneseCounting : ST_NumberFormat := 34
def ST_NumberFormatIdeographLegalTraditional : ST_NumberFormat := 35
def ST_NumberFormatTaiwaneseCountingThousand : ST_NumberFormat := 36
def ST_NumberFormatTaiwaneseDigital : ST_NumberFormat := 37
def ST_NumberFormatChineseCounting : ST_NumberFormat := 38
def ST_NumberFormatChineseLegalSimplified : ST_NumberFormat := 39
def ST_NumberFormatChineseCountingThousand : ST_NumberFormat := 40
def ST_NumberFormatKoreanDigital : ST_NumberFormat := 41
def ST_NumberFormatKoreanCounting : ST_NumberFormat := 42
def ST_NumberFormatKoreanLegal : ST_NumberFormat := 43
def ST_NumberFormatKoreanDigital2 : ST_NumberFormat := 44
def ST_NumberFormatVietnameseCounting : ST_NumberFormat := 45
def ST_NumberFormatRussianLower : ST_NumberFormat := 46
def ST_NumberFormatRussianUpper : ST_NumberFormat := 47
def ST_NumberFormatNone : ST_NumberFormat := 48
def ST_NumberFormatNumberInDash : ST_NumberFormat := 49
def ST_NumberFormatHebrew1 : ST_NumberFormat := 50
def ST_NumberFormatHebrew2 : ST_NumberFormat := 51
def ST_NumberFormatArabicAlpha : ST_NumberFormat := 52
def ST_NumberFormatArabicAbjad : ST_NumberFormat := 53
def ST_NumberFormatHindiVowels : ST_NumberFormat := 54
def ST_NumberFormatHindiConsonants : ST_NumberFormat := 55
def ST_NumberFormatHindiNumbers : ST_NumberFormat := 56
def ST_NumberFormatHindiCounting : ST_NumberFormat := 57
def ST_NumberFormatThaiLetters : ST_NumberFormat := 58
def ST_NumberFormatThaiNumbers : ST_NumberFormat := 59
def ST_NumberFormatThaiCounting : ST_NumberFormat := 60
def ST_NumberFormatBahtText : ST_NumberFormat := 61
def ST_NumberFormatDollarText : ST_NumberFormat := 62
def ST_NumberFormatCustom : ST_NumberFormat := 63

/-- The const block of ST_NumberFormat, in declaration order. -/
def ST_NumberFormat.constants : List ST_NumberFormat :=
  [ST_NumberFormatUnset, ST_NumberFormatDecimal, ST_NumberFormatUpperRoman,
   ST_NumberFormatLowerRoman, ST_NumberFormatUpperLetter, ST_NumberFormatLowerLetter,
   ST_NumberFormatOrdinal, ST_NumberFormatCardinalText, ST_NumberFormatOrdinalText,
   ST_NumberFormatHex, ST_NumberFormatChicago, ST_NumberFormatIdeographDigital,
   ST_NumberFormatJapaneseCounting, ST_NumberFormatAiueo, ST_NumberFormatIroha,
   ST_NumberFormatDecimalFullWidth, ST_NumberFormatDecimalHalfWidth,
   ST_NumberFormatJapaneseLegal, ST_NumberFormatJapaneseDigitalTenThousand,
   ST_NumberFormatDecimalEnclosedCircle, ST_NumberFormatDecimalFullWidth2,
   ST_NumberFormatAiueoFullWidth, ST_NumberFormatIrohaFullWidth, ST_NumberFormatDecimalZero,
   ST_NumberFormatBullet, ST_NumberFormatGanada, ST_NumberFormatChosung,
   ST_NumberFormatDecimalEnclosedFullstop, ST_NumberFormatDecimalEnclosedParen,
   ST_NumberFormatDecimalEnclosedCircleChinese, ST_NumberFormatIdeographEnclosedCircle,
   ST_NumberFormatIdeographTraditional, ST_NumberFormatIdeographZodiac,
   ST_NumberFormatIdeographZodiacTraditional, ST_NumberFormatTaiwaneseCounting,
   ST_NumberFormatIdeographLegalTraditional, ST_NumberFormatTaiwaneseCountingThousand,
   ST_NumberFormatTaiwaneseDigital, ST_NumberFormatChineseCounting,
   ST_NumberFormatChineseLegalSimplified, ST_NumberFormatChineseCountingThousand,
   ST_NumberFormatKoreanDigital, ST_NumberFormatKoreanCounting, ST_NumberFormatKoreanLegal,
   ST_NumberFormatKoreanDigital2, ST_NumberFormatVietnameseCounting,
   ST_NumberFormatRussianLower, ST_NumberFormatRussianUpper, ST_NumberFormatNone,
   ST_NumberFormatNumberInDash, ST_NumberFormatHebrew1, ST_NumberFormatHebrew2,
   ST_NumberFormatArabicAlpha, ST_NumberFormatArabicAbjad, ST_NumberFormatHindiVowels,
   ST_NumberFormatHindiConsonants, ST_NumberFormatHindiNumbers, ST_NumberFormatHindiCounting,
   ST_NumberFormatThaiLetters, ST_NumberFormatThaiNumbers, ST_NumberFormatThaiCounting,
   ST_NumberFormatBahtText, ST_NumberFormatDollarText, ST_NumberFormatCustom]

/-- Cases of the switch on e in ST_NumberFormat.MarshalXMLAttr, in source order: label and the string assigned to attr.Value. -/
def ST_NumberFormat.MarshalXMLAttr.cases : List (ST_NumberFormat × string) :=
  [(ST_NumberFormatUnset, ""),
   (ST_NumberFormatDecimal, "decimal"),
   (ST_NumberFormatUpperRoman, "upperRoman"),
   (ST_NumberFormatLowerRoman, "lowerRoman"),
   (ST_NumberFormatUpperLetter, "upperLetter"),
   (ST_NumberFormatLowerLetter, "lowerLetter"),
   (ST_NumberFormatOrdinal, "ordinal"),
   (ST_NumberFormatCardinalText, "cardinalText"),
   (ST_NumberFormatOrdinalText, "ordinalText"),
   (ST_NumberFormatHex, "hex"),
   (ST_NumberFormatChicago, "chicago"),
   (ST_NumberFormatIdeographDigital, "ideographDigital"),
   (ST_NumberFormatJapaneseCounting, "japaneseCounting"),
   (ST_NumberFormatAiueo, "aiueo"),
   (ST_NumberFormatIroha, "iroha"),
   (ST_NumberFormatDecimalFullWidth, "decimalFullWidth"),
   (ST_NumberFormatDecimalHalfWidth, "decimalHalfWidth"),
   (ST_NumberFormatJapaneseLegal, "japaneseLegal"),
   (ST_NumberFormatJapaneseDigitalTenThousand, "japaneseDigitalTenThousand"),
   (ST_NumberFormatDecimalEnclosedCircle, "decimalEnclosedCircle"),
   (ST_NumberFormatDecimalFullWidth2, "decimalFullWidth2"),
   (ST_NumberFormatAiueoFullWidth, "aiueoFullWidth"),
   (ST_NumberFormatIrohaFullWidth, "irohaFullWidth"),
   (ST_NumberFormatDecimalZero, "decimalZero"),
   (ST_NumberFormatBullet, "bullet"),
   (ST_NumberFormatGanada, "ganada"),
   (ST_NumberFormatChosung, "chosung"),
   (ST_NumberFormatDecimalEnclosedFullstop, "decimalEnclosedFullstop"),
   (ST_NumberFormatDecimalEnclosedParen, "decimalEnclosedParen"),
   (ST_NumberFormatDecimalEnclosedCircleChinese, "decimalEnclosedCircleChinese"),
   (ST_NumberFormatIdeographEnclosedCircle, "ideographEnclosedCircle"),
   (ST_NumberFormatIdeographTraditional, "ideographTraditional"),
   (ST_NumberFormatIdeographZodiac, "ideographZodiac"),
   (ST_NumberFormatIdeographZodiacTraditional, "ideographZodiacTraditional"),
   (ST_NumberFormatTaiwaneseCounting, "taiwaneseCounting"),
   (ST_NumberFormatIdeographLegalTraditional, "ideographLegalTraditional"),
   (ST_NumberFormatTaiwaneseCountingThousand, "taiwaneseCountingThousand"),
   (ST_NumberFormatTaiwaneseDigital, "taiwaneseDigital"),
   (ST_NumberFormatChineseCounting, "chineseCounting"),
   (ST_NumberFormatChineseLegalSimplified, "chineseLegalSimplified"),
   (ST_NumberFormatChineseCountingThousand, "chineseCountingThousand"),
   (ST_NumberFormatKoreanDigital, "koreanDigital"),
   (ST_NumberFormatKoreanCounting, "koreanCounting"),
   (ST_NumberFormatKoreanLegal, "koreanLegal"),
   (ST_NumberFormatKoreanDigital2, "koreanDigital2"),
   (ST_NumberFormatVietnameseCounting, "vietnameseCounting"),
   (ST_NumberFormatRussianLower, "russianLower"),
   (ST_NumberFormatRussianUpper, "russianUpper"),
   (ST_NumberFormatNone, "none"),
   (ST_NumberFormatNumberInDash, "numberInDash"),
   (ST_NumberFormatHebrew1, "hebrew1"),
   (ST_NumberFormatHebrew2, "hebrew2"),
   (ST_NumberFormatArabicAlpha, "arabicAlpha"),
   (ST_NumberFormatArabicAbjad, "arabicAbjad"),
   (ST_NumberFormatHindiVowels, "hindiVowels"),
   (ST_NumberFormatHindiConsonants, "hindiConsonants"),
   (ST_NumberFormatHindiNumbers, "hindiNumbers"),
   (ST_NumberFormatHindiCounting, "hindiCounting"),
   (ST_NumberFormatThaiLetters, "thaiLetters"),
   (ST_NumberFormatThaiNumbers, "thaiNumbers"),
   (ST_NumberFormatThaiCounting, "thaiCounting"),
   (ST_NumberFormatBahtText, "bahtText"),
   (ST_NumberFormatDollarText, "dollarText"),
   (ST_NumberFormatCustom, "custom")]

/-- Method MarshalXMLAttr of ST_NumberFormat: returns the attribute and the error. -/
def ST_NumberFormat.MarshalXMLAttr (e : ST_NumberFormat) (name : xml.Name) : xml.Attr × error :=
  let attr : xml.Attr := xml.Attr.zero
  let attr : xml.Attr := { attr with Name := name }
  let attr : xml.Attr :=
    match switchCase e ST_NumberFormat.MarshalXMLAttr.cases with
    | some v => { attr with Value := v }
    | none => attr
  (attr, none)

/-- Cases of the switch on attr.Value in ST_NumberFormat.UnmarshalXMLAttr, in source order: label and the value stored through the receiver. -/
def ST_NumberFormat.UnmarshalXMLAttr.cases : List (string × ST_NumberFormat) :=
  [("", 0),
   ("decimal", 1),
   ("upperRoman", 2),
   ("lowerRoman", 3),
   ("upperLetter", 4),
   ("lowerLetter", 5),
   ("ordinal", 6),
   ("cardinalText", 7),
   ("ordinalText", 8),
   ("hex", 9),
   ("chicago", 10),
   ("ideographDigital", 11),
   ("japaneseCounting", 12),
   ("aiueo", 13),
   ("iroha", 14),
   ("decimalFullWidth", 15),
   ("decimalHalfWidth", 16),
   ("japaneseLegal", 17),
   ("japaneseDigitalTenThousand", 18),
   ("decimalEnclosedCircle", 19),
   ("decimalFullWidth2", 20),
   ("aiueoFullWidth", 21),
   ("irohaFullWidth", 22),
   ("decimalZero", 23),
   ("bullet", 24),
   ("ganada", 25),
   ("chosung", 26),
   ("decimalEnclosedFullstop", 27),
   ("decimalEnclosedParen", 28),
   ("decimalEnclosedCircleChinese", 29),
   ("ideographEnclosedCircle", 30),
   ("ideographTraditional", 31),
   ("ideographZodiac", 32),
   ("ideographZodiacTraditional", 33),
   ("taiwaneseCounting", 34),
   ("ideographLegalTraditional", 35),
   ("taiwaneseCountingThousand", 36),
   ("taiwaneseDigital", 37),
   ("chineseCounting", 38),
   ("chineseLegalSimplified", 39),
   ("chineseCountingThousand", 40),
   ("koreanDigital", 41),
   ("koreanCounting", 42),
   ("koreanLegal", 43),
   ("koreanDigital2", 44),
   ("vietnameseCounting", 45),
   ("russianLower", 46),
   ("russianUpper", 47),
   ("none", 48),
   ("numberInDash", 49),
   ("hebrew1", 50),
   ("hebrew2", 51),
   ("arabicAlpha", 52),
   ("arabicAbjad", 53),
   ("hindiVowels", 54),
   ("hindiConsonants", 55),
   ("hindiNumbers", 56),
   ("hindiCounting", 57),
   ("thaiLetters", 58),
   ("thaiNumbers", 59),
   ("thaiCounting", 60),
   ("bahtText", 61),
   ("dollarText", 62),
   ("custom", 63)]

/-- Method UnmarshalXMLAttr of ST_NumberFormat (pointer receiver): takes the value the receiver holds before the call, returns the value it holds afterwards and the error. -/
def ST_NumberFormat.UnmarshalXMLAttr (e : ST_NumberFormat) (attr : xml.Attr) : ST_NumberFormat × error :=
  let e : ST_NumberFormat :=
    match switchCase attr.Value ST_NumberFormat.UnmarshalXMLAttr.cases with
    | some v => v
    | none => e
  (e, none)

/-- Cases of the switch on m in ST_NumberFormat.String, in source order: label and the string returned. -/
def ST_NumberFormat.String.cases : List (ST_NumberFormat × string) :=
  [(0, ""),
   (1, "decimal"),
   (2, "upperRoman"),
   (3, "lowerRoman"),
   (4, "upperLetter"),
   (5, "lowerLetter"),
   (6, "ordinal"),
   (7, "cardinalText"),
   (8, "ordinalText"),
   (9, "hex"),
   (10, "chicago"),
   (11, "ideographDigital"),
   (12, "japaneseCounting"),
   (13, "aiueo"),
   (14, "iroha"),
   (15, "decimalFullWidth"),
   (16, "decimalHalfWidth"),
   (17, "japaneseLegal"),
   (18, "japaneseDigitalTenThousand"),
   (19, "decimalEnclosedCircle"),
   (20, "decimalFullWidth2"),
   (21, "aiueoFullWidth"),
   (22, "irohaFullWidth"),
   (23, "decimalZero"),
   (24, "bullet"),
   (25, "ganada"),
   (26, "chosung"),
   (27, "decimalEnclosedFullstop"),
   (28, "decimalEnclosedParen"),
   (29, "decimalEnclosedCircleChinese"),
   (30, "ideographEnclosedCircle"),
   (31, "ideographTraditional"),
   (32, "ideographZodiac"),
   (33, "ideographZodiacTraditional"),
   (34, "taiwaneseCounting"),
   (35, "ideographLegalTraditional"),
   (36, "taiwaneseCountingThousand"),
   (37, "taiwaneseDigital"),
   (38, "chineseCounting"),
   (39, "chineseLegalSimplified"),
   (40, "chineseCountingThousand"),
   (41, "koreanDigital"),
   (42, "koreanCounting"),
   (43, "koreanLegal"),
   (44, "koreanDigital2"),
   (45, "vietnameseCounting"),
   (46, "russianLower"),
   (47, "russianUpper"),
   (48, "none"),
   (49, "numberInDash"),
   (50, "hebrew1"),
   (51, "hebrew2"),
   (52, "arabicAlpha"),
   (53, "arabicAbjad"),
   (54, "hindiVowels"),
   (55, "hindiConsonants"),
   (56, "hindiNumbers"),
   (57, "hindiCounting"),
   (58, "thaiLetters"),
   (59, "thaiNumbers"),
   (60, "thaiCounting"),
   (61, "bahtText"),
   (62, "dollarText"),
   (63, "custom")]

/-- Method String of ST_NumberFormat: the string of the selected case, the empty string after the switch otherwise. -/
def ST_NumberFormat.String (m : ST_NumberFormat) : string :=
  match switchCase m ST_NumberFormat.String.cases with
  | some s => s
  | none => ""

/-- Method ValidateWithPath of ST_NumberFormat: nil for the listed labels, the out-of-range error in the default branch. -/
def ST_NumberFormat.ValidateWithPath (m : ST_NumberFormat) (path : string) : error :=
  if m ∈ ([0, 1, 2, 3, 4, 5, 6, 7, 8, 9, 10, 11, 12, 13, 14, 15, 16, 17, 18, 19, 20, 21, 22, 23, 24, 25,
    26, 27, 28, 29, 30, 31, 32, 33, 34, 35, 36, 37, 38, 39, 40, 41, 42, 43, 44, 45, 46, 47, 48,
    49, 50, 51, 52, 53, 54, 55, 56, 57, 58, 59, 60, 61, 62, 63] : List Nat) then none
  else some (errorfOutOfRange path m)

/-- Method Validate of ST_NumberFormat. -/
def ST_NumberFormat.Validate (m : ST_NumberFormat) : error :=
  ST_NumberFormat.ValidateWithPath m ""

/-! ### ST_PageOrientation -/

/-- Go declaration: type ST_PageOrientation byte. -/
abbrev ST_PageOrientation : Type := Nat

def ST_PageOrientationUnset : ST_PageOrientation := 0
def ST_PageOrientationPortrait : ST_PageOrientation := 1
def ST_PageOrientationLandscape : ST_PageOrientation := 2

/-- The const block of ST_PageOrientation, in declaration order. -/
def ST_PageOrientation.constants : List ST_PageOrientation :=
  [ST_PageOrientationUnset, ST_PageOrientationPortrait, ST_PageOrientationLandscape]

/-- Method ValidateWithPath of ST_PageOrientation: nil for the listed labels, the out-of-range error in the default branch. -/
def ST_PageOrientation.ValidateWithPath (m : ST_PageOrientation) (path : string) : error :=
  if m ∈ ([0, 1, 2] : List Nat) then none
  else some (errorfOutOfRange path m)

/-! ### ST_PageBorderZOrder -/

/-- Go declaration: type ST_PageBorderZOrder byte. -/
abbrev ST_PageBorderZOrder : Type := Nat

def ST_PageBorderZOrderUnset : ST_PageBorderZOrder := 0
def ST_PageBorderZOrderFront : ST_PageBorderZOrder := 1
def ST_PageBorderZOrderBack : ST_PageBorderZOrder := 2

/-- The const block of ST_PageBorderZOrder, in declaration order. -/
def ST_PageBorderZOrder.constants : List ST_PageBorderZOrder :=
  [ST_PageBorderZOrderUnset, ST_PageBorderZOrderFront, ST_PageBorderZOrderBack]

/-- Method ValidateWithPath of ST_PageBorderZOrder: nil for the listed labels, the out-of-range error in the default branch. -/
def ST_PageBorderZOrder.ValidateWithPath (m : ST_PageBorderZOrder) (path : string) : error :=
  if m ∈ ([0, 1, 2] : List Nat) then none
  else some (errorfOutOfRange path m)

/-! ### ST_PageBorderDisplay -/

/-- Go declaration: type ST_PageBorderDisplay byte. -/
abbrev ST_PageBorderDisplay : Type := Nat

def ST_PageBorderDisplayUnset : ST_PageBorderDisplay := 0
def ST_PageBorderDisplayAllPages : ST_PageBorderDisplay := 1
def ST_PageBorderDisplayFirstPage : ST_PageBorderDisplay := 2
def ST_PageBorderDisplayNotFirstPage : ST_PageBorderDisplay := 3

/-- The const block of ST_PageBorderDisplay, in declaration order. -/
def ST_PageBorderDisplay.constants : List ST_PageBorderDisplay :=
  [ST_PageBorderDisplayUnset, ST_PageBorderDisplayAllPages, ST_PageBorderDisplayFirstPage,
   ST_PageBorderDisplayNotFirstPage]

/-- Method ValidateWithPath of ST_PageBorderDisplay: nil for the listed labels, the out-of-range error in the default branch. -/
def ST_PageBorderDisplay.ValidateWithPath (m : ST_PageBorderDisplay) (path : string) : error :=
  if m ∈ ([0, 1, 2, 3] : List Nat) then none
  else some (errorfOutOfRange path m)

/-! ### ST_PageBorderOffset -/

/-- Go declaration: type ST_PageBorderOffset byte. -/
abbrev ST_PageBorderOffset : Type := Nat

def ST_PageBorderOffsetUnset : ST_PageBorderOffset := 0
def ST_PageBorderOffsetPage : ST_PageBorderOffset := 1
def ST_PageBorderOffsetText : ST_PageBorderOffset := 2

/-- The const block of ST_PageBorderOffset, in declaration order. -/
def ST_PageBorderOffset.constants : List ST_PageBorderOffset :=
  [ST_PageBorderOffsetUnset, ST_PageBorderOffsetPage, ST_PageBorderOffsetText]

/-- Method ValidateWithPath of ST_PageBorderOffset: nil for the listed labels, the out-of-range error in the default branch. -/
def ST_PageBorderOffset.ValidateWithPath (m : ST_PageBorderOffset) (path : string) : error :=
  if m ∈ ([0, 1, 2] : List Nat) then none
  else some (errorfOutOfRange path m)

/-! ### ST_ChapterSep -/

/-- Go declaration: type ST_ChapterSep byte. -/
abbrev ST_ChapterSep : Type := Nat

def ST_ChapterSepUnset : ST_ChapterSep := 0
def ST_ChapterSepHyphen : ST_ChapterSep := 1
def ST_ChapterSepPeriod : ST_ChapterSep := 2
def ST_ChapterSepColon : ST_ChapterSep := 3
def ST_ChapterSepEmDash : ST_ChapterSep := 4
def ST_ChapterSepEnDash : ST_ChapterSep := 5

/-- The const block of ST_ChapterSep, in declaration order. -/
def ST_ChapterSep.constants : List ST_ChapterSep :=
  [ST_ChapterSepUnset, ST_ChapterSepHyphen, ST_ChapterSepPeriod, ST_ChapterSepColon,
   ST_ChapterSepEmDash, ST_ChapterSepEnDash]

/-- Method ValidateWithPath of ST_ChapterSep: nil for the listed labels, the out-of-range error in the default branch. -/
def ST_ChapterSep.ValidateWithPath (m : ST_ChapterSep) (path : string) : error :=
  if m ∈ ([0, 1, 2, 3, 4, 5] : List Nat) then none
  else some (errorfOutOfRange path m)

/-! ### ST_LineNumberRestart -/

/-- Go declaration: type ST_LineNumberRestart byte. -/
abbrev ST_LineNumberRestart : Type := Nat

def ST_LineNumberRestartUnset : ST_LineNumberRestart := 0
def ST_LineNumberRestartNewPage : ST_LineNumberRestart := 1
def ST_LineNumberRestartNewSection : ST_LineNumberRestart := 2
def ST_LineNumberRestartContinuous : ST_LineNumberRestart := 3

/-- The const block of ST_LineNumberRestart, in declaration order. -/
def ST_LineNumberRestart.constants : List ST_LineNumberRestart :=
  [ST_LineNumberRestartUnset, ST_LineNumberRestartNewPage, ST_LineNumberRestartNewSection,
   ST_LineNumberRestartContinuous]

/-- Method ValidateWithPath of ST_LineNumberRestart: nil for the listed labels, the out-of-range error in the default branch. -/
def ST_LineNumberRestart.ValidateWithPath (m : ST_LineNumberRestart) (path : string) : error :=
  if m ∈ ([0, 1, 2, 3] : List Nat) then none
  else some (errorfOutOfRange path m)

/-! ### ST_VerticalJc -/

/-- Go declaration: type ST_VerticalJc byte. -/
abbrev ST_VerticalJc : Type := Nat

def ST_VerticalJcUnset : ST_VerticalJc := 0
def ST_VerticalJcTop : ST_VerticalJc := 1
def ST_VerticalJcCenter : ST_VerticalJc := 2
def ST_VerticalJcBoth : ST_VerticalJc := 3
def ST_VerticalJcBottom : ST_VerticalJc := 4

/-- The const block of ST_VerticalJc, in declaration order. -/
def ST_VerticalJc.constants : List ST_VerticalJc :=
  [ST_VerticalJcUnset, ST_VerticalJcTop, ST_VerticalJcCenter, ST_VerticalJcBoth,
   ST_VerticalJcBottom]

/-- Method ValidateWithPath of ST_VerticalJc: nil for the listed labels, the out-of-range error in the default branch. -/
def ST_VerticalJc.ValidateWithPath (m : ST_VerticalJc) (path : string) : error :=
  if m ∈ ([0, 1, 2, 3, 4] : List Nat) then none
  else some (errorfOutOfRange path m)

/-! ### ST_DocGrid -/

/-- Go declaration: type ST_DocGrid byte. -/
abbrev ST_DocGrid : Type := Nat

def ST_DocGridUnset : ST_DocGrid := 0
def ST_DocGridDefault : ST_DocGrid := 1
def ST_DocGridLines : ST_DocGrid := 2
def ST_DocGridLinesAndChars : ST_DocGrid := 3
def ST_DocGridSnapToChars : ST_DocGrid := 4

/-- The const block of ST_DocGrid, in declaration order. -/
def ST_DocGrid.constants : List ST_DocGrid :=
  [ST_DocGridUnset, ST_DocGridDefault, ST_DocGridLines, ST_DocGridLinesAndChars,
   ST_DocGridSnapToChars]

/-- Method ValidateWithPath of ST_DocGrid: nil for the listed labels, the out-of-range error in the default branch. -/
def ST_DocGrid.ValidateWithPath (m : ST_DocGrid) (path : string) : error :=
  if m ∈ ([0, 1, 2, 3, 4] : List Nat) then none
  else some (errorfOutOfRange path m)

/-! ### ST_HdrFtr -/

/-- Go declaration: type ST_HdrFtr byte. -/
abbrev ST_HdrFtr : Type := Nat

def ST_HdrFtrUnset : ST_HdrFtr := 0
def ST_HdrFtrEven : ST_HdrFtr := 1
def ST_HdrFtrDefault : ST_HdrFtr := 2
def ST_HdrFtrFirst : ST_HdrFtr := 3

/-- The const block of ST_HdrFtr, in declaration order. -/
def ST_HdrFtr.constants : List ST_HdrFtr :=
  [ST_HdrFtrUnset, ST_HdrFtrEven, ST_HdrFtrDefault, ST_HdrFtrFirst]

/-- Method ValidateWithPath of ST_HdrFtr: nil for the listed labels, the out-of-range error in the default branch. -/
def ST_HdrFtr.ValidateWithPath (m : ST_HdrFtr) (path : string) : error :=
  if m ∈ ([0, 1, 2, 3] : List Nat) then none
  else some (errorfOutOfRange path m)

/-! ### ST_FtnEdn -/

/-- Go declaration: type ST_FtnEdn byte. -/
abbrev ST_FtnEdn : Type := Nat

def ST_FtnEdnUnset : ST_FtnEdn := 0
def ST_FtnEdnNormal : ST_FtnEdn := 1
def ST_FtnEdnSeparator : ST_FtnEdn := 2
def ST_FtnEdnContinuationSeparator : ST_FtnEdn := 3
def ST_FtnEdnContinuationNotice : ST_FtnEdn := 4

/-- The const block of ST_FtnEdn, in declaration order. -/
def ST_FtnEdn.constants : List ST_FtnEdn :=
  [ST_FtnEdnUnset, ST_FtnEdnNormal, ST_FtnEdnSeparator, ST_FtnEdnContinuationSeparator,
   ST_FtnEdnContinuationNotice]

/-- Method ValidateWithPath of ST_FtnEdn: nil for the listed labels, the out-of-range error in the default branch. -/
def ST_FtnEdn.ValidateWithPath (m : ST_FtnEdn) (path : string) : error :=
  if m ∈ ([0, 1, 2, 3, 4] : List Nat) then none
  else some (errorfOutOfRange path m)

/-! ### ST_BrType -/

/-- Go declaration: type ST_BrType byte. -/
abbrev ST_BrType : Type := Nat

def ST_BrTypeUnset : ST_BrType := 0
def ST_BrTypePage : ST_BrType := 1
def ST_BrTypeColumn : ST_BrType := 2
def ST_BrTypeTextWrapping : ST_BrType := 3

/-- The const block of ST_BrType, in declaration order. -/
def ST_BrType.constants : List ST_BrType :=
  [ST_BrTypeUnset, ST_BrTypePage, ST_BrTypeColumn, ST_BrTypeTextWrapping]

/-- Method ValidateWithPath of ST_BrType: nil for the listed labels, the out-of-range error in the default branch. -/
def ST_BrType.ValidateWithPath (m : ST_BrType) (path : string) : error :=
  if m ∈ ([0, 1, 2, 3] : List Nat) then none
  else some (errorfOutOfRange path m)

/-! ### ST_BrClear -/

/-- Go declaration: type ST_BrClear byte. -/
abbrev ST_BrClear : Type := Nat

def ST_BrClearUnset : ST_BrClear := 0
def ST_BrClearNone : ST_BrClear := 1
def ST_BrClearLeft : ST_BrClear := 2
def ST_BrClearRight : ST_BrClear := 3
def ST_BrClearAll : ST_BrClear := 4

/-- The const block of ST_BrClear, in declaration order. -/
def ST_BrClear.constants : List ST_BrClear :=
  [ST_BrClearUnset, ST_BrClearNone, ST_BrClearLeft, ST_BrClearRight, ST_BrClearAll]

/-- Method ValidateWithPath of ST_BrClear: nil for the listed labels, the out-of-range error in the default branch. -/
def ST_BrClear.ValidateWithPath (m : ST_BrClear) (path : string) : error :=
  if m ∈ ([0, 1, 2, 3, 4] : List Nat) then none
  else some (errorfOutOfRange path m)

/-! ### ST_PTabAlignment -/

/-- Go declaration: type ST_PTabAlignment byte. -/
abbrev ST_PTabAlignment : Type := Nat

def ST_PTabAlignmentUnset : ST_PTabAlignment := 0
def ST_PTabAlignmentLeft : ST_PTabAlignment := 1
def ST_PTabAlignmentCenter : ST_PTabAlignment := 2
def ST_PTabAlignmentRight : ST_PTabAlignment := 3

/-- The const block of ST_PTabAlignment, in declaration order. -/
def ST_PTabAlignment.constants : List ST_PTabAlignment :=
  [ST_PTabAlignmentUnset, ST_PTabAlignmentLeft, ST_PTabAlignmentCenter, ST_PTabAlignmentRight]

/-- Method ValidateWithPath of ST_PTabAlignment: nil for the listed labels, the out-of-range error in the default branch. -/
def ST_PTabAlignment.ValidateWithPath (m : ST_PTabAlignment) (path : string) : error :=
  if m ∈ ([0, 1, 2, 3] : List Nat) then none
  else some (errorfOutOfRange path m)

/-! ### ST_PTabRelativeTo -/

/-- Go declaration: type ST_PTabRelativeTo byte. -/
abbrev ST_PTabRelativeTo : Type := Nat

def ST_PTabRelativeToUnset : ST_PTabRelativeTo := 0
def ST_PTabRelativeToMargin : ST_PTabRelativeTo := 1
def ST_PTabRelativeToIndent : ST_PTabRelativeTo := 2

/-- The const block of ST_PTabRelativeTo, in declaration order. -/
def ST_PTabRelativeTo.constants : List ST_PTabRelativeTo :=
  [ST_PTabRelativeToUnset, ST_PTabRelativeToMargin, ST_PTabRelativeToIndent]

/-- Method ValidateWithPath of ST_PTabRelativeTo: nil for the listed labels, the out-of-range error in the default branch. -/
def ST_PTabRelativeTo.ValidateWithPath (m : ST_PTabRelativeTo) (path : string) : error :=
  if m ∈ ([0, 1, 2] : List Nat) then none
  else some (errorfOutOfRange path m)

/-! ### ST_PTabLeader -/

/-- Go declaration: type ST_PTabLeader byte. -/
abbrev ST_PTabLeader : Type := Nat

def ST_PTabLeaderUnset : ST_PTabLeader := 0
def ST_PTabLeaderNone : ST_PTabLeader := 1
def ST_PTabLeaderDot : ST_PTabLeader := 2
def ST_PTabLeaderHyphen : ST_PTabLeader := 3
def ST_PTabLeaderUnderscore : ST_PTabLeader := 4
def ST_PTabLeaderMiddleDot : ST_PTabLeader := 5

/-- The const block of ST_PTabLeader, in declaration order. -/
def ST_PTabLeader.constants : List ST_PTabLeader :=
  [ST_PTabLeaderUnset, ST_PTabLeaderNone, ST_PTabLeaderDot, ST_PTabLeaderHyphen,
   ST_PTabLeaderUnderscore, ST_PTabLeaderMiddleDot]

/-- Method ValidateWithPath of ST_PTabLeader: nil for the listed labels, the out-of-range error in the default branch. -/
def ST_PTabLeader.ValidateWithPath (m : ST_PTabLeader) (path : string) : error :=
  if m ∈ ([0, 1, 2, 3, 4, 5] : List Nat) then none
  else some (errorfOutOfRange path m)

/-! ### ST_ProofErr -/

/-- Go declaration: type ST_ProofErr byte. -/
abbrev ST_ProofErr : Type := Nat

def ST_ProofErrUnset : ST_ProofErr := 0
def ST_ProofErrSpellStart : ST_ProofErr := 1
def ST_ProofErrSpellEnd : ST_ProofErr := 2
def ST_ProofErrGramStart : ST_ProofErr := 3
def ST_ProofErrGramEnd : ST_ProofErr := 4

/-- The const block of ST_ProofErr, in declaration order. -/
def ST_ProofErr.constants : List ST_ProofErr :=
  [ST_ProofErrUnset, ST_ProofErrSpellStart, ST_ProofErrSpellEnd, ST_ProofErrGramStart,
   ST_ProofErrGramEnd]

/-- Method ValidateWithPath of ST_ProofErr: nil for the listed labels, the out-of-range error in the default branch. -/
def ST_ProofErr.ValidateWithPath (m : ST_ProofErr) (path : string) : error :=
  if m ∈ ([0, 1, 2, 3, 4] : List Nat) then none
  else some (errorfOutOfRange path m)

/-! ### ST_EdGrp -/

/-- Go declaration: type ST_EdGrp byte. -/
abbrev ST_EdGrp : Type := Nat

def ST_EdGrpUnset : ST_EdGrp := 0
def ST_EdGrpNone : ST_EdGrp := 1
def ST_EdGrpEveryone : ST_EdGrp := 2
def ST_EdGrpAdministrators : ST_EdGrp := 3
def ST_EdGrpContributors : ST_EdGrp := 4
def ST_EdGrpEditors : ST_EdGrp := 5
def ST_EdGrpOwners : ST_EdGrp := 6
def ST_EdGrpCurrent : ST_EdGrp := 7

/-- The const block of ST_EdGrp, in declaration order. -/
def ST_EdGrp.constants : List ST_EdGrp :=
  [ST_EdGrpUnset, ST_EdGrpNone, ST_EdGrpEveryone, ST_EdGrpAdministrators, ST_EdGrpContributors,
   ST_EdGrpEditors, ST_EdGrpOwners, ST_EdGrpCurrent]

/-- Method ValidateWithPath of ST_EdGrp: nil for the listed labels, the out-of-range error in the default branch. -/
def ST_EdGrp.ValidateWithPath (m : ST_EdGrp) (path : string) : error :=
  if m ∈ ([0, 1, 2, 3, 4, 5, 6, 7] : List Nat) then none
  else some (errorfOutOfRange path m)

/-! ### ST_Hint -/

/-- Go declaration: type ST_Hint byte. -/
abbrev ST_Hint : Type := Nat

def ST_HintUnset : ST_Hint := 0
def ST_HintDefault : ST_Hint := 1
def ST_HintEastAsia : ST_Hint := 2

/-- The const block of ST_Hint, in declaration order. -/
def ST_Hint.constants : List ST_Hint :=
  [ST_HintUnset, ST_HintDefault, ST_HintEastAsia]

/-- Method ValidateWithPath of ST_Hint: nil for the listed labels, the out-of-range error in the default branch. -/
def ST_Hint.ValidateWithPath (m : ST_Hint) (path : string) : error :=
  if m ∈ ([0, 1, 2] : List Nat) then none
  else some (errorfOutOfRange path m)

/-! ### ST_Theme -/

/-- Go declaration: type ST_Theme byte. -/
abbrev ST_Theme : Type := Nat

def ST_ThemeUnset : ST_Theme := 0
def ST_ThemeMajorEastAsia : ST_Theme := 1
def ST_ThemeMajorBidi : ST_Theme := 2
def ST_ThemeMajorAscii : ST_Theme := 3
def ST_ThemeMajorHAnsi : ST_Theme := 4
def ST_ThemeMinorEastAsia : ST_Theme := 5
def ST_ThemeMinorBidi : ST_Theme := 6
def ST_ThemeMinorAscii : ST_Theme := 7
def ST_ThemeMinorHAnsi : ST_Theme := 8

/-- The const block of ST_Theme, in declaration order. -/
def ST_Theme.constants : List ST_Theme :=
  [ST_ThemeUnset, ST_ThemeMajorEastAsia, ST_ThemeMajorBidi, ST_ThemeMajorAscii,
   ST_ThemeMajorHAnsi, ST_ThemeMinorEastAsia, ST_ThemeMinorBidi, ST_ThemeMinorAscii,
   ST_ThemeMinorHAnsi]

/-- Method ValidateWithPath of ST_Theme: nil for the listed labels, the out-of-range error in the default branch. -/
def ST_Theme.ValidateWithPath (m : ST_Theme) (path : string) : error :=
  if m ∈ ([0, 1, 2, 3, 4, 5, 6, 7, 8] : List Nat) then none
  else some (errorfOutOfRange path m)

/-! ### ST_RubyAlign -/

/-- Go declaration: type ST_RubyAlign byte. -/
abbrev ST_RubyAlign : Type := Nat

def ST_RubyAlignUnset : ST_RubyAlign := 0
def ST_RubyAlignCenter : ST_RubyAlign := 1
def ST_RubyAlignDistributeLetter : ST_RubyAlign := 2
def ST_RubyAlignDistributeSpace : ST_RubyAlign := 3
def ST_RubyAlignLeft : ST_RubyAlign := 4
def ST_RubyAlignRight : ST_RubyAlign := 5
def ST_RubyAlignRightVertical : ST_RubyAlign := 6

/-- The const block of ST_RubyAlign, in declaration order. -/
def ST_RubyAlign.constants : List ST_RubyAlign :=
  [ST_RubyAlignUnset, ST_RubyAlignCenter, ST_RubyAlignDistributeLetter,
   ST_RubyAlignDistributeSpace, ST_RubyAlignLeft, ST_RubyAlignRight, ST_RubyAlignRightVertical]

/-- Method ValidateWithPath of ST_RubyAlign: nil for the listed labels, the out-of-range error in the default branch. -/
def ST_RubyAlign.ValidateWithPath (m : ST_RubyAlign) (path : string) : error :=
  if m ∈ ([0, 1, 2, 3, 4, 5, 6] : List Nat) then none
  else some (errorfOutOfRange path m)

/-! ### ST_Lock -/

/-- Go declaration: type ST_Lock byte. -/
abbrev ST_Lock : Type := Nat

def ST_LockUnset : ST_Lock := 0
def ST_LockSdtLocked : ST_Lock := 1
def ST_LockContentLocked : ST_Lock := 2
def ST_LockUnlocked : ST_Lock := 3
def ST_LockSdtContentLocked : ST_Lock := 4

/-- The const block of ST_Lock, in declaration order. -/
def ST_Lock.constants : List ST_Lock :=
  [ST_LockUnset, ST_LockSdtLocked, ST_LockContentLocked, ST_LockUnlocked,
   ST_LockSdtContentLocked]

/-- Method ValidateWithPath of ST_Lock: nil for the listed labels, the out-of-range error in the default branch. -/
def ST_Lock.ValidateWithPath (m : ST_Lock) (path : string) : error :=
  if m ∈ ([0, 1, 2, 3, 4] : List Nat) then none
  else some (errorfOutOfRange path m)

/-! ### ST_SdtDateMappingType -/

/-- Go declaration: type ST_SdtDateMappingType byte. -/
abbrev ST_SdtDateMappingType : Type := Nat

def ST_SdtDateMappingTypeUnset : ST_SdtDateMappingType := 0
def ST_SdtDateMappingTypeText : ST_SdtDateMappingType := 1
def ST_SdtDateMappingTypeDate : ST_SdtDateMappingType := 2
def ST_SdtDateMappingTypeDateTime : ST_SdtDateMappingType := 3

/-- The const block of ST_SdtDateMappingType, in declaration order. -/
def ST_SdtDateMappingType.constants : List ST_SdtDateMappingType :=
  [ST_SdtDateMappingTypeUnset, ST_SdtDateMappingTypeText, ST_SdtDateMappingTypeDate,
   ST_SdtDateMappingTypeDateTime]

/-- Method ValidateWithPath of ST_SdtDateMappingType: nil for the listed labels, the out-of-range error in the default branch. -/
def ST_SdtDateMappingType.ValidateWithPath (m : ST_SdtDateMappingType) (path : string) : error :=
  if m ∈ ([0, 1, 2, 3] : List Nat) then none
  else some (errorfOutOfRange path m)

/-! ### ST_Direction -/

/-- Go declaration: type ST_Direction byte. -/
abbrev ST_Direction : Type := Nat

def ST_DirectionUnset : ST_Direction := 0
def ST_DirectionLtr : ST_Direction := 1
def ST_DirectionRtl : ST_Direction := 2

/-- The const block of ST_Direction, in declaration order. -/
def ST_Direction.constants : List ST_Direction :=
  [ST_DirectionUnset, ST_DirectionLtr, ST_DirectionRtl]

/-- Method ValidateWithPath of ST_Direction: nil for the listed labels, the out-of-range error in the default branch. -/
def ST_Direction.ValidateWithPath (m : ST_Direction) (path : string) : error :=
  if m ∈ ([0, 1, 2] : List Nat) then none
  else some (errorfOutOfRange path m)

/-! ### ST_TblWidth -/

/-- Go declaration: type ST_TblWidth byte. -/
abbrev ST_TblWidth : Type := Nat

def ST_TblWidthUnset : ST_TblWidth := 0
def ST_TblWidthNil : ST_TblWidth := 1
def ST_TblWidthPct : ST_TblWidth := 2
def ST_TblWidthDxa : ST_TblWidth := 3
def ST_TblWidthAuto : ST_TblWidth := 4

/-- The const block of ST_TblWidth, in declaration order. -/
def ST_TblWidth.constants : List ST_TblWidth :=
  [ST_TblWidthUnset, ST_TblWidthNil, ST_TblWidthPct, ST_TblWidthDxa, ST_TblWidthAuto]

/-- Method ValidateWithPath of ST_TblWidth: nil for the listed labels, the out-of-range error in the default branch. -/
def ST_TblWidth.ValidateWithPath (m : ST_TblWidth) (path : string) : error :=
  if m ∈ ([0, 1, 2, 3, 4] : List Nat) then none
  else some (errorfOutOfRange path m)

/-! ### ST_Merge -/

/-- Go declaration: type ST_Merge byte. -/
abbrev ST_Merge : Type := Nat

def ST_MergeUnset : ST_Merge := 0
def ST_MergeContinue : ST_Merge := 1
def ST_MergeRestart : ST_Merge := 2

/-- The const block of ST_Merge, in declaration order. -/
def ST_Merge.constants : List ST_Merge :=
  [ST_MergeUnset, ST_MergeContinue, ST_MergeRestart]

/-- Method ValidateWithPath of ST_Merge: nil for the listed labels, the out-of-range error in the default branch. -/
def ST_Merge.ValidateWithPath (m : ST_Merge) (path : string) : error :=
  if m ∈ ([0, 1, 2] : List Nat) then none
  else some (errorfOutOfRange path m)

/-! ### ST_TblLayoutType -/

/-- Go declaration: type ST_TblLayoutType byte. -/
abbrev ST_TblLayoutType : Type := Nat

def ST_TblLayoutTypeUnset : ST_TblLayoutType := 0
def ST_TblLayoutTypeFixed : ST_TblLayoutType := 1
def ST_TblLayoutTypeAutofit : ST_TblLayoutType := 2

/-- The const block of ST_TblLayoutType, in declaration order. -/
def ST_TblLayoutType.constants : List ST_TblLayoutType :=
  [ST_TblLayoutTypeUnset, ST_TblLayoutTypeFixed, ST_TblLayoutTypeAutofit]

/-- Method ValidateWithPath of ST_TblLayoutType: nil for the listed labels, the out-of-range error in the default branch. -/
def ST_TblLayoutType.ValidateWithPath (m : ST_TblLayoutType) (path : string) : error :=
  if m ∈ ([0, 1, 2] : List Nat) then none
  else some (errorfOutOfRange path m)

/-! ### ST_TblOverlap -/

/-- Go declaration: type ST_TblOverlap byte. -/
abbrev ST_TblOverlap : Type := Nat

def ST_TblOverlapUnset : ST_TblOverlap := 0
def ST_TblOverlapNever : ST_TblOverlap := 1
def ST_TblOverlapOverlap : ST_TblOverlap := 2

/-- The const block of ST_TblOverlap, in declaration order. -/
def ST_TblOverlap.constants : List ST_TblOverlap :=
  [ST_TblOverlapUnset, ST_TblOverlapNever, ST_TblOverlapOverlap]

/-- Method ValidateWithPath of ST_TblOverlap: nil for the listed labels, the out-of-range error in the default branch. -/
def ST_TblOverlap.ValidateWithPath (m : ST_TblOverlap) (path : string) : error :=
  if m ∈ ([0, 1, 2] : List Nat) then none
  else some (errorfOutOfRange path m)

/-! ### ST_FtnPos -/

/-- Go declaration: type ST_FtnPos byte. -/
abbrev ST_FtnPos : Type := Nat

def ST_FtnPosUnset : ST_FtnPos := 0
def ST_FtnPosPageBottom : ST_FtnPos := 1
def ST_FtnPosBeneathText : ST_FtnPos := 2
def ST_FtnPosSectEnd : ST_FtnPos := 3
def ST_FtnPosDocEnd : ST_FtnPos := 4

/-- The const block of ST_FtnPos, in declaration order. -/
def ST_FtnPos.constants : List ST_FtnPos :=
  [ST_FtnPosUnset, ST_FtnPosPageBottom, ST_FtnPosBeneathText, ST_FtnPosSectEnd, ST_FtnPosDocEnd]

/-- Method ValidateWithPath of ST_FtnPos: nil for the listed labels, the out-of-range error in the default branch. -/
def ST_FtnPos.ValidateWithPath (m : ST_FtnPos) (path : string) : error :=
  if m ∈ ([0, 1, 2, 3, 4] : List Nat) then none
  else some (errorfOutOfRange path m)

/-! ### ST_EdnPos -/

/-- Go declaration: type ST_EdnPos byte. -/
abbrev ST_EdnPos : Type := Nat

def ST_EdnPosUnset : ST_EdnPos := 0
def ST_EdnPosSectEnd : ST_EdnPos := 1
def ST_EdnPosDocEnd : ST_EdnPos := 2

/-- The const block of ST_EdnPos, in declaration order. -/
def ST_EdnPos.constants : List ST_EdnPos :=
  [ST_EdnPosUnset, ST_EdnPosSectEnd, ST_EdnPosDocEnd]

/-- Method ValidateWithPath of ST_EdnPos: nil for the listed labels, the out-of-range error in the default branch. -/
def ST_EdnPos.ValidateWithPath (m : ST_EdnPos) (path : string) : error :=
  if m ∈ ([0, 1, 2] : List Nat) then none
  else some (errorfOutOfRange path m)

/-! ### ST_RestartNumber -/

/-- Go declaration: type ST_RestartNumber byte. -/
abbrev ST_RestartNumber : Type := Nat

def ST_RestartNumberUnset : ST_RestartNumber := 0
def ST_RestartNumberContinuous : ST_RestartNumber := 1
def ST_RestartNumberEachSect : ST_RestartNumber := 2
def ST_RestartNumberEachPage : ST_RestartNumber := 3

/-- The const block of ST_RestartNumber, in declaration order. -/
def ST_RestartNumber.constants : List ST_RestartNumber :=
  [ST_RestartNumberUnset, ST_RestartNumberContinuous, ST_RestartNumberEachSect,
   ST_RestartNumberEachPage]

/-- Method ValidateWithPath of ST_RestartNumber: nil for the listed labels, the out-of-range error in the default branch. -/
def ST_RestartNumber.ValidateWithPath (m : ST_RestartNumber) (path : string) : error :=
  if m ∈ ([0, 1, 2, 3] : List Nat) then none
  else some (errorfOutOfRange path m)

/-! ### ST_MailMergeSourceType -/

/-- Go declaration: type ST_MailMergeSourceType byte. -/
abbrev ST_MailMergeSourceType : Type := Nat

def ST_MailMergeSourceTypeUnset : ST_MailMergeSourceType := 0
def ST_MailMergeSourceTypeDatabase : ST_MailMergeSourceType := 1
def ST_MailMergeSourceTypeAddressBook : ST_MailMergeSourceType := 2
def ST_MailMergeSourceTypeDocument1 : ST_MailMergeSourceType := 3
def ST_MailMergeSourceTypeDocument2 : ST_MailMergeSourceType := 4
def ST_MailMergeSourceTypeText : ST_MailMergeSourceType := 5
def ST_MailMergeSourceTypeEmail : ST_MailMergeSourceType := 6
def ST_MailMergeSourceTypeNative : ST_MailMergeSourceType := 7
def ST_MailMergeSourceTypeLegacy : ST_MailMergeSourceType := 8
def ST_MailMergeSourceTypeMaster : ST_MailMergeSourceType := 9

/-- The const block of ST_MailMergeSourceType, in declaration order. -/
def ST_MailMergeSourceType.constants : List ST_MailMergeSourceType :=
  [ST_MailMergeSourceTypeUnset, ST_MailMergeSourceTypeDatabase,
   ST_MailMergeSourceTypeAddressBook, ST_MailMergeSourceTypeDocument1,
   ST_MailMergeSourceTypeDocument2, ST_MailMergeSourceTypeText, ST_MailMergeSourceTypeEmail,
   ST_MailMergeSourceTypeNative, ST_MailMergeSourceTypeLegacy, ST_MailMergeSourceTypeMaster]

/-- Method ValidateWithPath of ST_MailMergeSourceType: nil for the listed labels, the out-of-range error in the default branch. -/
def ST_MailMergeSourceType.ValidateWithPath (m : ST_MailMergeSourceType) (path : string) : error :=
  if m ∈ ([0, 1, 2, 3, 4, 5, 6, 7, 8, 9] : List Nat) then none
  else some (errorfOutOfRange path m)

/-! ### ST_TargetScreenSz -/

/-- Go declaration: type ST_TargetScreenSz byte. -/
abbrev ST_TargetScreenSz : Type := Nat

def ST_TargetScreenSzUnset : ST_TargetScreenSz := 0
def ST_TargetScreenSz544x376 : ST_TargetScreenSz := 1
def ST_TargetScreenSz640x480 : ST_TargetScreenSz := 2
def ST_TargetScreenSz720x512 : ST_TargetScreenSz := 3
def ST_TargetScreenSz800x600 : ST_TargetScreenSz := 4
def ST_TargetScreenSz1024x768 : ST_TargetScreenSz := 5
def ST_TargetScreenSz1152x882 : ST_TargetScreenSz := 6
def ST_TargetScreenSz1152x900 : ST_TargetScreenSz := 7
def ST_TargetScreenSz1280x1024 : ST_TargetScreenSz := 8
def ST_TargetScreenSz1600x1200 : ST_TargetScreenSz := 9
def ST_TargetScreenSz1800x1440 : ST_TargetScreenSz := 10
def ST_TargetScreenSz1920x1200 : ST_TargetScreenSz := 11

/-- The const block of ST_TargetScreenSz, in declaration order. -/
def ST_TargetScreenSz.constants : List ST_TargetScreenSz :=
  [ST_TargetScreenSzUnset, ST_TargetScreenSz544x376, ST_TargetScreenSz640x480,
   ST_TargetScreenSz720x512, ST_TargetScreenSz800x600, ST_TargetScreenSz1024x768,
   ST_TargetScreenSz1152x882, ST_TargetScreenSz1152x900, ST_TargetScreenSz1280x1024,
   ST_TargetScreenSz1600x1200, ST_TargetScreenSz1800x1440, ST_TargetScreenSz1920x1200]

/-- Method ValidateWithPath of ST_TargetScreenSz: nil for the listed labels, the out-of-range error in the default branch. -/
def ST_TargetScreenSz.ValidateWithPath (m : ST_TargetScreenSz) (path : string) : error :=
  if m ∈ ([0, 1, 2, 3, 4, 5, 6, 7, 8, 9, 10, 11] : List Nat) then none
  else some (errorfOutOfRange path m)

/-! ### ST_CharacterSpacing -/

/-- Go declaration: type ST_CharacterSpacing byte. -/
abbrev ST_CharacterSpacing : Type := Nat

def ST_CharacterSpacingUnset : ST_CharacterSpacing := 0
def ST_CharacterSpacingDoNotCompress : ST_CharacterSpacing := 1
def ST_CharacterSpacingCompressPunctuation : ST_CharacterSpacing := 2
def ST_CharacterSpacingCompressPunctuationAndJapaneseKana : ST_CharacterSpacing := 3

/-- The const block of ST_CharacterSpacing, in declaration order. -/
def ST_CharacterSpacing.constants : List ST_CharacterSpacing :=
  [ST_CharacterSpacingUnset, ST_CharacterSpacingDoNotCompress,
   ST_CharacterSpacingCompressPunctuation,
   ST_CharacterSpacingCompressPunctuationAndJapaneseKana]

/-- Method ValidateWithPath of ST_CharacterSpacing: nil for the listed labels, the out-of-range error in the default branch. -/
def ST_CharacterSpacing.ValidateWithPath (m : ST_CharacterSpacing) (path : string) : error :=
  if m ∈ ([0, 1, 2, 3] : List Nat) then none
  else some (errorfOutOfRange path m)

/-! ### ST_WmlColorSchemeIndex -/

/-- Go declaration: type ST_WmlColorSchemeIndex byte. -/
abbrev ST_WmlColorSchemeIndex : Type := Nat

def ST_WmlColorSchemeIndexUnset : ST_WmlColorSchemeIndex := 0
def ST_WmlColorSchemeIndexDark1 : ST_WmlColorSchemeIndex := 1
def ST_WmlColorSchemeIndexLight1 : ST_WmlColorSchemeIndex := 2
def ST_WmlColorSchemeIndexDark2 : ST_WmlColorSchemeIndex := 3
def ST_WmlColorSchemeIndexLight2 : ST_WmlColorSchemeIndex := 4
def ST_WmlColorSchemeIndexAccent1 : ST_WmlColorSchemeIndex := 5
def ST_WmlColorSchemeIndexAccent2 : ST_WmlColorSchemeIndex := 6
def ST_WmlColorSchemeIndexAccent3 : ST_WmlColorSchemeIndex := 7
def ST_WmlColorSchemeIndexAccent4 : ST_WmlColorSchemeIndex := 8
def ST_WmlColorSchemeIndexAccent5 : ST_WmlColorSchemeIndex := 9
def ST_WmlColorSchemeIndexAccent6 : ST_WmlColorSchemeIndex := 10
def ST_WmlColorSchemeIndexHyperlink : ST_WmlColorSchemeIndex := 11
def ST_WmlColorSchemeIndexFollowedHyperlink : ST_WmlColorSchemeIndex := 12

/-- The const block of ST_WmlColorSchemeIndex, in declaration order. -/
def ST_WmlColorSchemeIndex.constants : List ST_WmlColorSchemeIndex :=
  [ST_WmlColorSchemeIndexUnset, ST_WmlColorSchemeIndexDark1, ST_WmlColorSchemeIndexLight1,
   ST_WmlColorSchemeIndexDark2, ST_WmlColorSchemeIndexLight2, ST_WmlColorSchemeIndexAccent1,
   ST_WmlColorSchemeIndexAccent2, ST_WmlColorSchemeIndexAccent3, ST_WmlColorSchemeIndexAccent4,
   ST_WmlColorSchemeIndexAccent5, ST_WmlColorSchemeIndexAccent6,
   ST_WmlColorSchemeIndexHyperlink, ST_WmlColorSchemeIndexFollowedHyperlink]

/-- Method ValidateWithPath of ST_WmlColorSchemeIndex: nil for the listed labels, the out-of-range error in the default branch. -/
def ST_WmlColorSchemeIndex.ValidateWithPath (m : ST_WmlColorSchemeIndex) (path : string) : error :=
  if m ∈ ([0, 1, 2, 3, 4, 5, 6, 7, 8, 9, 10, 11, 12] : List Nat) then none
  else some (errorfOutOfRange path m)

/-! ### ST_StyleSort -/

/-- Go declaration: type ST_StyleSort byte. -/
abbrev ST_StyleSort : Type := Nat

def ST_StyleSortUnset : ST_StyleSort := 0
def ST_StyleSortName : ST_StyleSort := 1
def ST_StyleSortPriority : ST_StyleSort := 2
def ST_StyleSortDefault : ST_StyleSort := 3
def ST_StyleSortFont : ST_StyleSort := 4
def ST_StyleSortBasedOn : ST_StyleSort := 5
def ST_StyleSortType : ST_StyleSort := 6
def ST_StyleSort0000 : ST_StyleSort := 7
def ST_StyleSort0001 : ST_StyleSort := 8
def ST_StyleSort0002 : ST_StyleSort := 9
def ST_StyleSort0003 : ST_StyleSort := 10
def ST_StyleSort0004 : ST_StyleSort := 11
def ST_StyleSort0005 : ST_StyleSort := 12

/-- The const block of ST_StyleSort, in declaration order. -/
def ST_StyleSort.constants : List ST_StyleSort :=
  [ST_StyleSortUnset, ST_StyleSortName, ST_StyleSortPriority, ST_StyleSortDefault,
   ST_StyleSortFont, ST_StyleSortBasedOn, ST_StyleSortType, ST_StyleSort0000, ST_StyleSort0001,
   ST_StyleSort0002, ST_StyleSort0003, ST_StyleSort0004, ST_StyleSort0005]

/-- Method ValidateWithPath of ST_StyleSort: nil for the listed labels, the out-of-range error in the default branch. -/
def ST_StyleSort.ValidateWithPath (m : ST_StyleSort) (path : string) : error :=
  if m ∈ ([0, 1, 2, 3, 4, 5, 6, 7, 8, 9, 10, 11, 12] : List Nat) then none
  else some (errorfOutOfRange path m)

/-! ### ST_FrameScrollbar -/

/-- Go declaration: type ST_FrameScrollbar byte. -/
abbrev ST_FrameScrollbar : Type := Nat

def ST_FrameScrollbarUnset : ST_FrameScrollbar := 0
def ST_FrameScrollbarOn : ST_FrameScrollbar := 1
def ST_FrameScrollbarOff : ST_FrameScrollbar := 2
def ST_FrameScrollbarAuto : ST_FrameScrollbar := 3

/-- The const block of ST_FrameScrollbar, in declaration order. -/
def ST_FrameScrollbar.constants : List ST_FrameScrollbar :=
  [ST_FrameScrollbarUnset, ST_FrameScrollbarOn, ST_FrameScrollbarOff, ST_FrameScrollbarAuto]

/-- Method ValidateWithPath of ST_FrameScrollbar: nil for the listed labels, the out-of-range error in the default branch. -/
def ST_FrameScrollbar.ValidateWithPath (m : ST_FrameScrollbar) (path : string) : error :=
  if m ∈ ([0, 1, 2, 3] : List Nat) then none
  else some (errorfOutOfRange path m)

/-! ### ST_FrameLayout -/

/-- Go declaration: type ST_FrameLayout byte. -/
abbrev ST_FrameLayout : Type := Nat

def ST_FrameLayoutUnset : ST_FrameLayout := 0
def ST_FrameLayoutRows : ST_FrameLayout := 1
def ST_FrameLayoutCols : ST_FrameLayout := 2
def ST_FrameLayoutNone : ST_FrameLayout := 3

/-- The const block of ST_FrameLayout, in declaration order. -/
def ST_FrameLayout.constants : List ST_FrameLayout :=
  [ST_FrameLayoutUnset, ST_FrameLayoutRows, ST_FrameLayoutCols, ST_FrameLayoutNone]

/-- Method ValidateWithPath of ST_FrameLayout: nil for the listed labels, the out-of-range error in the default branch. -/
def ST_FrameLayout.ValidateWithPath (m : ST_FrameLayout) (path : string) : error :=
  if m ∈ ([0, 1, 2, 3] : List Nat) then none
  else some (errorfOutOfRange path m)

/-! ### ST_LevelSuffix -/

/-- Go declaration: type ST_LevelSuffix byte. -/
abbrev ST_LevelSuffix : Type := Nat

def ST_LevelSuffixUnset : ST_LevelSuffix := 0
def ST_LevelSuffixTab : ST_LevelSuffix := 1
def ST_LevelSuffixSpace : ST_LevelSuffix := 2
def ST_LevelSuffixNothing : ST_LevelSuffix := 3

/-- The const block of ST_LevelSuffix, in declaration order. -/
def ST_LevelSuffix.constants : List ST_LevelSuffix :=
  [ST_LevelSuffixUnset, ST_LevelSuffixTab, ST_LevelSuffixSpace, ST_LevelSuffixNothing]

/-- Method ValidateWithPath of ST_LevelSuffix: nil for the listed labels, the out-of-range error in the default branch. -/
def ST_LevelSuffix.ValidateWithPath (m : ST_LevelSuffix) (path : string) : error :=
  if m ∈ ([0, 1, 2, 3] : List Nat) then none
  else some (errorfOutOfRange path m)

/-! ### ST_MultiLevelType -/

/-- Go declaration: type ST_MultiLevelType byte. -/
abbrev ST_MultiLevelType : Type := Nat

def ST_MultiLevelTypeUnset : ST_MultiLevelType := 0
def ST_MultiLevelTypeSingleLevel : ST_MultiLevelType := 1
def ST_MultiLevelTypeMultilevel : ST_MultiLevelType := 2
def ST_MultiLevelTypeHybridMultilevel : ST_MultiLevelType := 3

/-- The const block of ST_MultiLevelType, in declaration order. -/
def ST_MultiLevelType.constants : List ST_MultiLevelType :=
  [ST_MultiLevelTypeUnset, ST_MultiLevelTypeSingleLevel, ST_MultiLevelTypeMultilevel,
   ST_MultiLevelTypeHybridMultilevel]

/-- Method ValidateWithPath of ST_MultiLevelType: nil for the listed labels, the out-of-range error in the default branch. -/
def ST_MultiLevelType.ValidateWithPath (m : ST_MultiLevelType) (path : string) : error :=
  if m ∈ ([0, 1, 2, 3] : List Nat) then none
  else some (errorfOutOfRange path m)

/-! ### ST_TblStyleOverrideType -/

/-- Go declaration: type ST_TblStyleOverrideType byte. -/
abbrev ST_TblStyleOverrideType : Type := Nat

def ST_TblStyleOverrideTypeUnset : ST_TblStyleOverrideType := 0
def ST_TblStyleOverrideTypeWholeTable : ST_TblStyleOverrideType := 1
def ST_TblStyleOverrideTypeFirstRow : ST_TblStyleOverrideType := 2
def ST_TblStyleOverrideTypeLastRow : ST_TblStyleOverrideType := 3
def ST_TblStyleOverrideTypeFirstCol : ST_TblStyleOverrideType := 4
def ST_TblStyleOverrideTypeLastCol : ST_TblStyleOverrideType := 5
def ST_TblStyleOverrideTypeBand1Vert : ST_TblStyleOverrideType := 6
def ST_TblStyleOverrideTypeBand2Vert : ST_TblStyleOverrideType := 7
def ST_TblStyleOverrideTypeBand1Horz : ST_TblStyleOverrideType := 8
def ST_TblStyleOverrideTypeBand2Horz : ST_TblStyleOverrideType := 9
def ST_TblStyleOverrideTypeNeCell : ST_TblStyleOverrideType := 10
def ST_TblStyleOverrideTypeNwCell : ST_TblStyleOverrideType := 11
def ST_TblStyleOverrideTypeSeCell : ST_TblStyleOverrideType := 12
def ST_TblStyleOverrideTypeSwCell : ST_TblStyleOverrideType := 13

/-- The const block of ST_TblStyleOverrideType, in declaration order. -/
def ST_TblStyleOverrideType.constants : List ST_TblStyleOverrideType :=
  [ST_TblStyleOverrideTypeUnset, ST_TblStyleOverrideTypeWholeTable,
   ST_TblStyleOverrideTypeFirstRow, ST_TblStyleOverrideTypeLastRow,
   ST_TblStyleOverrideTypeFirstCol, ST_TblStyleOverrideTypeLastCol,
   ST_TblStyleOverrideTypeBand1Vert, ST_TblStyleOverrideTypeBand2Vert,
   ST_TblStyleOverrideTypeBand1Horz, ST_TblStyleOverrideTypeBand2Horz,
   ST_TblStyleOverrideTypeNeCell, ST_TblStyleOverrideTypeNwCell, ST_TblStyleOverrideTypeSeCell,
   ST_TblStyleOverrideTypeSwCell]

/-- Method ValidateWithPath of ST_TblStyleOverrideType: nil for the listed labels, the out-of-range error in the default branch. -/
def ST_TblStyleOverrideType.ValidateWithPath (m : ST_TblStyleOverrideType) (path : string) : error :=
  if m ∈ ([0, 1, 2, 3, 4, 5, 6, 7, 8, 9, 10, 11, 12, 13] : List Nat) then none
  else some (errorfOutOfRange path m)

/-! ### ST_StyleType -/

/-- Go declaration: type ST_StyleType byte. -/
abbrev ST_StyleType : Type := Nat

def ST_StyleTypeUnset : ST_StyleType := 0
def ST_StyleTypeParagraph : ST_StyleType := 1
def ST_StyleTypeCharacter : ST_StyleType := 2
def ST_StyleTypeTable : ST_StyleType := 3
def ST_StyleTypeNumbering : ST_StyleType := 4

/-- The const block of ST_StyleType, in declaration order. -/
def ST_StyleType.constants : List ST_StyleType :=
  [ST_StyleTypeUnset, ST_StyleTypeParagraph, ST_StyleTypeCharacter, ST_StyleTypeTable,
   ST_StyleTypeNumbering]

/-- Method ValidateWithPath of ST_StyleType: nil for the listed labels, the out-of-range error in the default branch. -/
def ST_StyleType.ValidateWithPath (m : ST_StyleType) (path : string) : error :=
  if m ∈ ([0, 1, 2, 3, 4] : List Nat) then none
  else some (errorfOutOfRange path m)

/-! ### ST_FontFamily -/

/-- Go declaration: type ST_FontFamily byte. -/
abbrev ST_FontFamily : Type := Nat

def ST_FontFamilyUnset : ST_FontFamily := 0
def ST_FontFamilyDecorative : ST_FontFamily := 1
def ST_FontFamilyModern : ST_FontFamily := 2
def ST_FontFamilyRoman : ST_FontFamily := 3
def ST_FontFamilyScript : ST_FontFamily := 4
def ST_FontFamilySwiss : ST_FontFamily := 5
def ST_FontFamilyAuto : ST_FontFamily := 6

/-- The const block of ST_FontFamily, in declaration order. -/
def ST_FontFamily.constants : List ST_FontFamily :=
  [ST_FontFamilyUnset, ST_FontFamilyDecorative, ST_FontFamilyModern, ST_FontFamilyRoman,
   ST_FontFamilyScript, ST_FontFamilySwiss, ST_FontFamilyAuto]

/-- Method ValidateWithPath of ST_FontFamily: nil for the listed labels, the out-of-range error in the default branch. -/
def ST_FontFamily.ValidateWithPath (m : ST_FontFamily) (path : string) : error :=
  if m ∈ ([0, 1, 2, 3, 4, 5, 6] : List Nat) then none
  else some (errorfOutOfRange path m)

/-! ### ST_Pitch -/

/-- Go declaration: type ST_Pitch byte. -/
abbrev ST_Pitch : Type := Nat

def ST_PitchUnset : ST_Pitch := 0
def ST_PitchFixed : ST_Pitch := 1
def ST_PitchVariable : ST_Pitch := 2
def ST_PitchDefault : ST_Pitch := 3

/-- The const block of ST_Pitch, in declaration order. -/
def ST_Pitch.constants : List ST_Pitch :=
  [ST_PitchUnset, ST_PitchFixed, ST_PitchVariable, ST_PitchDefault]

/-- Method ValidateWithPath of ST_Pitch: nil for the listed labels, the out-of-range error in the default branch. -/
def ST_Pitch.ValidateWithPath (m : ST_Pitch) (path : string) : error :=
  if m ∈ ([0, 1, 2, 3] : List Nat) then none
  else some (errorfOutOfRange path m)

/-! ### ST_ThemeColor -/

/-- Go declaration: type ST_ThemeColor byte. -/
abbrev ST_ThemeColor : Type := Nat

def ST_ThemeColorUnset : ST_ThemeColor := 0
def ST_ThemeColorDark1 : ST_ThemeColor := 1
def ST_ThemeColorLight1 : ST_ThemeColor := 2
def ST_ThemeColorDark2 : ST_ThemeColor := 3
def ST_ThemeColorLight2 : ST_ThemeColor := 4
def ST_ThemeColorAccent1 : ST_ThemeColor := 5
def ST_ThemeColorAccent2 : ST_ThemeColor := 6
def ST_ThemeColorAccent3 : ST_ThemeColor := 7
def ST_ThemeColorAccent4 : ST_ThemeColor := 8
def ST_ThemeColorAccent5 : ST_ThemeColor := 9
def ST_ThemeColorAccent6 : ST_ThemeColor := 10
def ST_ThemeColorHyperlink : ST_ThemeColor := 11
def ST_ThemeColorFollowedHyperlink : ST_ThemeColor := 12
def ST_ThemeColorNone : ST_ThemeColor := 13
def ST_ThemeColorBackground1 : ST_ThemeColor := 14
def ST_ThemeColorText1 : ST_ThemeColor := 15
def ST_ThemeColorBackground2 : ST_ThemeColor := 16
def ST_ThemeColorText2 : ST_ThemeColor := 17

/-- The const block of ST_ThemeColor, in declaration order. -/
def ST_ThemeColor.constants : List ST_ThemeColor :=
  [ST_ThemeColorUnset, ST_ThemeColorDark1, ST_ThemeColorLight1, ST_ThemeColorDark2,
   ST_ThemeColorLight2, ST_ThemeColorAccent1, ST_ThemeColorAccent2, ST_ThemeColorAccent3,
   ST_ThemeColorAccent4, ST_ThemeColorAccent5, ST_ThemeColorAccent6, ST_ThemeColorHyperlink,
   ST_ThemeColorFollowedHyperlink, ST_ThemeColorNone, ST_ThemeColorBackground1,
   ST_ThemeColorText1, ST_ThemeColorBackground2, ST_ThemeColorText2]

/-- Method ValidateWithPath of ST_ThemeColor: nil for the listed labels, the out-of-range error in the default branch. -/
def ST_ThemeColor.ValidateWithPath (m : ST_ThemeColor) (path : string) : error :=
  if m ∈ ([0, 1, 2, 3, 4, 5, 6, 7, 8, 9, 10, 11, 12, 13, 14, 15, 16, 17] : List Nat) then none
  else some (errorfOutOfRange path m)

/-! ### ST_DocPartBehavior -/

/-- Go declaration: type ST_DocPartBehavior byte. -/
abbrev ST_DocPartBehavior : Type := Nat

def ST_DocPartBehaviorUnset : ST_DocPartBehavior := 0
def ST_DocPartBehaviorContent : ST_DocPartBehavior := 1
def ST_DocPartBehaviorP : ST_DocPartBehavior := 2
def ST_DocPartBehaviorPg : ST_DocPartBehavior := 3

/-- The const block of ST_DocPartBehavior, in declaration order. -/
def ST_DocPartBehavior.constants : List ST_DocPartBehavior :=
  [ST_DocPartBehaviorUnset, ST_DocPartBehaviorContent, ST_DocPartBehaviorP,
   ST_DocPartBehaviorPg]

/-- Method ValidateWithPath of ST_DocPartBehavior: nil for the listed labels, the out-of-range error in the default branch. -/
def ST_DocPartBehavior.ValidateWithPath (m : ST_DocPartBehavior) (path : string) : error :=
  if m ∈ ([0, 1, 2, 3] : List Nat) then none
  else some (errorfOutOfRange path m)

/-! ### ST_DocPartType -/

/-- Go declaration: type ST_DocPartType byte. -/
abbrev ST_DocPartType : Type := Nat

def ST_DocPartTypeUnset : ST_DocPartType := 0
def ST_DocPartTypeNone : ST_DocPartType := 1
def ST_DocPartTypeNormal : ST_DocPartType := 2
def ST_DocPartTypeAutoExp : ST_DocPartType := 3
def ST_DocPartTypeToolbar : ST_DocPartType := 4
def ST_DocPartTypeSpeller : ST_DocPartType := 5
def ST_DocPartTypeFormFld : ST_DocPartType := 6
def ST_DocPartTypeBbPlcHdr : ST_DocPartType := 7

/-- The const block of ST_DocPartType, in declaration order. -/
def ST_DocPartType.constants : List ST_DocPartType :=
  [ST_DocPartTypeUnset, ST_DocPartTypeNone, ST_DocPartTypeNormal, ST_DocPartTypeAutoExp,
   ST_DocPartTypeToolbar, ST_DocPartTypeSpeller, ST_DocPartTypeFormFld, ST_DocPartTypeBbPlcHdr]

/-- Method ValidateWithPath of ST_DocPartType: nil for the listed labels, the out-of-range error in the default branch. -/
def ST_DocPartType.ValidateWithPath (m : ST_DocPartType) (path : string) : error :=
  if m ∈ ([0, 1, 2, 3, 4, 5, 6, 7] : List Nat) then none
  else some (errorfOutOfRange path m)

/-! ### ST_DocPartGallery -/

/-- Go declaration: type ST_DocPartGallery byte. -/
abbrev ST_DocPartGallery : Type := Nat

def ST_DocPartGalleryUnset : ST_DocPartGallery := 0
def ST_DocPartGalleryPlaceholder : ST_DocPartGallery := 1
def ST_DocPartGalleryAny : ST_DocPartGallery := 2
def ST_DocPartGalleryDefault : ST_DocPartGallery := 3
def ST_DocPartGalleryDocParts : ST_DocPartGallery := 4
def ST_DocPartGalleryCoverPg : ST_DocPartGallery := 5
def ST_DocPartGalleryEq : ST_DocPartGallery := 6
def ST_DocPartGalleryFtrs : ST_DocPartGallery := 7
def ST_DocPartGalleryHdrs : ST_DocPartGallery := 8
def ST_DocPartGalleryPgNum : ST_DocPartGallery := 9
def ST_DocPartGalleryTbls : ST_DocPartGallery := 10
def ST_DocPartGalleryWatermarks : ST_DocPartGallery := 11
def ST_DocPartGalleryAutoTxt : ST_DocPartGallery := 12
def ST_DocPartGalleryTxtBox : ST_DocPartGallery := 13
def ST_DocPartGalleryPgNumT : ST_DocPartGallery := 14
def ST_DocPartGalleryPgNumB : ST_DocPartGallery := 15
def ST_DocPartGalleryPgNumMargins : ST_DocPartGallery := 16
def ST_DocPartGalleryTblOfContents : ST_DocPartGallery := 17
def ST_DocPartGalleryBib : ST_DocPartGallery := 18
def ST_DocPartGalleryCustQuickParts : ST_DocPartGallery := 19
def ST_DocPartGalleryCustCoverPg : ST_DocPartGallery := 20
def ST_DocPartGalleryCustEq : ST_DocPartGallery := 21
def ST_DocPartGalleryCustFtrs : ST_DocPartGallery := 22
def ST_DocPartGalleryCustHdrs : ST_DocPartGallery := 23
def ST_DocPartGalleryCustPgNum : ST_DocPartGallery := 24
def ST_DocPartGalleryCustTbls : ST_DocPartGallery := 25
def ST_DocPartGalleryCustWatermarks : ST_DocPartGallery := 26
def ST_DocPartGalleryCustAutoTxt : ST_DocPartGallery := 27
def ST_DocPartGalleryCustTxtBox : ST_DocPartGallery := 28
def ST_DocPartGalleryCustPgNumT : ST_DocPartGallery := 29
def ST_DocPartGalleryCustPgNumB : ST_DocPartGallery := 30
def ST_DocPartGalleryCustPgNumMargins : ST_DocPartGallery := 31
def ST_DocPartGalleryCustTblOfContents : ST_DocPartGallery := 32
def ST_DocPartGalleryCustBib : ST_DocPartGallery := 33
def ST_DocPartGalleryCustom1 : ST_DocPartGallery := 34
def ST_DocPartGalleryCustom2 : ST_DocPartGallery := 35
def ST_DocPartGalleryCustom3 : ST_DocPartGallery := 36
def ST_DocPartGalleryCustom4 : ST_DocPartGallery := 37
def ST_DocPartGalleryCustom5 : ST_DocPartGallery := 38

/-- The const block of ST_DocPartGallery, in declaration order. -/
def ST_DocPartGallery.constants : List ST_DocPartGallery :=
  [ST_DocPartGalleryUnset, ST_DocPartGalleryPlaceholder, ST_DocPartGalleryAny,
   ST_DocPartGalleryDefault, ST_DocPartGalleryDocParts, ST_DocPartGalleryCoverPg,
   ST_DocPartGalleryEq, ST_DocPartGalleryFtrs, ST_DocPartGalleryHdrs, ST_DocPartGalleryPgNum,
   ST_DocPartGalleryTbls, ST_DocPartGalleryWatermarks, ST_DocPartGalleryAutoTxt,
   ST_DocPartGalleryTxtBox, ST_DocPartGalleryPgNumT, ST_DocPartGalleryPgNumB,
   ST_DocPartGalleryPgNumMargins, ST_DocPartGalleryTblOfContents, ST_DocPartGalleryBib,
   ST_DocPartGalleryCustQuickParts, ST_DocPartGalleryCustCoverPg, ST_DocPartGalleryCustEq,
   ST_DocPartGalleryCustFtrs, ST_DocPartGalleryCustHdrs, ST_DocPartGalleryCustPgNum,
   ST_DocPartGalleryCustTbls, ST_DocPartGalleryCustWatermarks, ST_DocPartGalleryCustAutoTxt,
   ST_DocPartGalleryCustTxtBox, ST_DocPartGalleryCustPgNumT, ST_DocPartGalleryCustPgNumB,
   ST_DocPartGalleryCustPgNumMargins, ST_DocPartGalleryCustTblOfContents,
   ST_DocPartGalleryCustBib, ST_DocPartGalleryCustom1, ST_DocPartGalleryCustom2,
   ST_DocPartGalleryCustom3, ST_DocPartGalleryCustom4, ST_DocPartGalleryCustom5]

/-- Method ValidateWithPath of ST_DocPartGallery: nil for the listed labels, the out-of-range error in the default branch. -/
def ST_DocPartGallery.ValidateWithPath (m : ST_DocPartGallery) (path : string) : error :=
  if m ∈ ([0, 1, 2, 3, 4, 5, 6, 7, 8, 9, 10, 11, 12, 13, 14, 15, 16, 17, 18, 19, 20, 21, 22, 23, 24, 25,
    26, 27, 28, 29, 30, 31, 32, 33, 34, 35, 36, 37, 38] : List Nat) then none
  else some (errorfOutOfRange path m)

/-! ### ST_CaptionPos -/

/-- Go declaration: type ST_CaptionPos byte. -/
abbrev ST_CaptionPos : Type := Nat

def ST_CaptionPosUnset : ST_CaptionPos := 0
def ST_CaptionPosAbove : ST_CaptionPos := 1
def ST_CaptionPosBelow : ST_CaptionPos := 2
def ST_CaptionPosLeft : ST_CaptionPos := 3
def ST_CaptionPosRight : ST_CaptionPos := 4

/-- The const block of ST_CaptionPos, in declaration order. -/
def ST_CaptionPos.constants : List ST_CaptionPos :=
  [ST_CaptionPosUnset, ST_CaptionPosAbove, ST_CaptionPosBelow, ST_CaptionPosLeft,
   ST_CaptionPosRight]

/-- Method ValidateWithPath of ST_CaptionPos: nil for the listed labels, the out-of-range error in the default branch. -/
def ST_CaptionPos.ValidateWithPath (m : ST_CaptionPos) (path : string) : error :=
  if m ∈ ([0, 1, 2, 3, 4] : List Nat) then none
  else some (errorfOutOfRange path m)

/-- The byte-backed enumeration types declared in common.go, in declaration order, each with its const block and its ValidateWithPath method. -/
def enumTypes : List EnumType :=
  [EnumType.mk "ST_HighlightColor" ST_HighlightColor.constants ST_HighlightColor.ValidateWithPath,
   EnumType.mk "ST_HexColorAuto" ST_HexColorAuto.constants ST_HexColorAuto.ValidateWithPath,
   EnumType.mk "ST_Underline" ST_Underline.constants ST_Underline.ValidateWithPath,
   EnumType.mk "ST_TextEffect" ST_TextEffect.constants ST_TextEffect.ValidateWithPath,
   EnumType.mk "ST_Border" ST_Border.constants ST_Border.ValidateWithPath,
   EnumType.mk "ST_Shd" ST_Shd.constants ST_Shd.ValidateWithPath,
   EnumType.mk "ST_Em" ST_Em.constants ST_Em.ValidateWithPath,
   EnumType.mk "ST_CombineBrackets" ST_CombineBrackets.constants ST_CombineBrackets.ValidateWithPath,
   EnumType.mk "ST_HeightRule" ST_HeightRule.constants ST_HeightRule.ValidateWithPath,
   EnumType.mk "ST_Wrap" ST_Wrap.constants ST_Wrap.ValidateWithPath,
   EnumType.mk "ST_VAnchor" ST_VAnchor.constants ST_VAnchor.ValidateWithPath,
   EnumType.mk "ST_HAnchor" ST_HAnchor.constants ST_HAnchor.ValidateWithPath,
   EnumType.mk "ST_DropCap" ST_DropCap.constants ST_DropCap.ValidateWithPath,
   EnumType.mk "ST_TabJc" ST_TabJc.constants ST_TabJc.ValidateWithPath,
   EnumType.mk "ST_TabTlc" ST_TabTlc.constants ST_TabTlc.ValidateWithPath,
   EnumType.mk "ST_LineSpacingRule" ST_LineSpacingRule.constants ST_LineSpacingRule.ValidateWithPath,
   EnumType.mk "ST_Jc" ST_Jc.constants ST_Jc.ValidateWithPath,
   EnumType.mk "ST_JcTable" ST_JcTable.constants ST_JcTable.ValidateWithPath,
   EnumType.mk "ST_View" ST_View.constants ST_View.ValidateWithPath,
   EnumType.mk "ST_Zoom" ST_Zoom.constants ST_Zoom.ValidateWithPath,
   EnumType.mk "ST_Proof" ST_Proof.constants ST_Proof.ValidateWithPath,
   EnumType.mk "ST_DocProtect" ST_DocProtect.constants ST_DocProtect.ValidateWithPath,
   EnumType.mk "ST_MailMergeDocType" ST_MailMergeDocType.constants ST_MailMergeDocType.ValidateWithPath,
   EnumType.mk "ST_MailMergeDest" ST_MailMergeDest.constants ST_MailMergeDest.ValidateWithPath,
   EnumType.mk "ST_MailMergeOdsoFMDFieldType" ST_MailMergeOdsoFMDFieldType.constants ST_MailMergeOdsoFMDFieldType.ValidateWithPath,
   EnumType.mk "ST_TextDirection" ST_TextDirection.constants ST_TextDirection.ValidateWithPath,
   EnumType.mk "ST_TextAlignment" ST_TextAlignment.constants ST_TextAlignment.ValidateWithPath,
   EnumType.mk "ST_DisplacedByCustomXml" ST_DisplacedByCustomXml.constants ST_DisplacedByCustomXml.ValidateWithPath,
   EnumType.mk "ST_AnnotationVMerge" ST_AnnotationVMerge.constants ST_AnnotationVMerge.ValidateWithPath,
   EnumType.mk "ST_TextboxTightWrap" ST_TextboxTightWrap.constants ST_TextboxTightWrap.ValidateWithPath,
   EnumType.mk "ST_ObjectDrawAspect" ST_ObjectDrawAspect.constants ST_ObjectDrawAspect.ValidateWithPath,
   EnumType.mk "ST_ObjectUpdateMode" ST_ObjectUpdateMode.constants ST_ObjectUpdateMode.ValidateWithPath,
   EnumType.mk "ST_FldCharType" ST_FldCharType.constants ST_FldCharType.ValidateWithPath,
   EnumType.mk "ST_InfoTextType" ST_InfoTextType.constants ST_InfoTextType.ValidateWithPath,
   EnumType.mk "ST_FFTextType" ST_FFTextType.constants ST_FFTextType.ValidateWithPath,
   EnumType.mk "ST_SectionMark" ST_SectionMark.constants ST_SectionMark.ValidateWithPath,
   EnumType.mk "ST_NumberFormat" ST_NumberFormat.constants ST_NumberFormat.ValidateWithPath,
   EnumType.mk "ST_PageOrientation" ST_PageOrientation.constants ST_PageOrientation.ValidateWithPath,
   EnumType.mk "ST_PageBorderZOrder" ST_PageBorderZOrder.constants ST_PageBorderZOrder.ValidateWithPath,
   EnumType.mk "ST_PageBorderDisplay" ST_PageBorderDisplay.constants ST_PageBorderDisplay.ValidateWithPath,
   EnumType.mk "ST_PageBorderOffset" ST_PageBorderOffset.constants ST_PageBorderOffset.ValidateWithPath,
   EnumType.mk "ST_ChapterSep" ST_ChapterSep.constants ST_ChapterSep.ValidateWithPath,
   EnumType.mk "ST_LineNumberRestart" ST_LineNumberRestart.constants ST_LineNumberRestart.ValidateWithPath,
   EnumType.mk "ST_VerticalJc" ST_VerticalJc.constants ST_VerticalJc.ValidateWithPath,
   EnumType.mk "ST_DocGrid" ST_DocGrid.constants ST_DocGrid.ValidateWithPath,
   EnumType.mk "ST_HdrFtr" ST_HdrFtr.constants ST_HdrFtr.ValidateWithPath,
   EnumType.mk "ST_FtnEdn" ST_FtnEdn.constants ST_FtnEdn.ValidateWithPath,
   EnumType.mk "ST_BrType" ST_BrType.constants ST_BrType.ValidateWithPath,
   EnumType.mk "ST_BrClear" ST_BrClear.constants ST_BrClear.ValidateWithPath,
   EnumType.mk "ST_PTabAlignment" ST_PTabAlignment.constants ST_PTabAlignment.ValidateWithPath,
   EnumType.mk "ST_PTabRelativeTo" ST_PTabRelativeTo.constants ST_PTabRelativeTo.ValidateWithPath,
   EnumType.mk "ST_PTabLeader" ST_PTabLeader.constants ST_PTabLeader.ValidateWithPath,
   EnumType.mk "ST_ProofErr" ST_ProofErr.constants ST_ProofErr.ValidateWithPath,
   EnumType.mk "ST_EdGrp" ST_EdGrp.constants ST_EdGrp.ValidateWithPath,
   EnumType.mk "ST_Hint" ST_Hint.constants ST_Hint.ValidateWithPath,
   EnumType.mk "ST_Theme" ST_Theme.constants ST_Theme.ValidateWithPath,
   EnumType.mk "ST_RubyAlign" ST_RubyAlign.constants ST_RubyAlign.ValidateWithPath,
   EnumType.mk "ST_Lock" ST_Lock.constants ST_Lock.ValidateWithPath,
   EnumType.mk "ST_SdtDateMappingType" ST_SdtDateMappingType.constants ST_SdtDateMappingType.ValidateWithPath,
   EnumType.mk "ST_Direction" ST_Direction.constants ST_Direction.ValidateWithPath,
   EnumType.mk "ST_TblWidth" ST_TblWidth.constants ST_TblWidth.ValidateWithPath,
   EnumType.mk "ST_Merge" ST_Merge.constants ST_Merge.ValidateWithPath,
   EnumType.mk "ST_TblLayoutType" ST_TblLayoutType.constants ST_TblLayoutType.ValidateWithPath,
   EnumType.mk "ST_TblOverlap" ST_TblOverlap.constants ST_TblOverlap.ValidateWithPath,
   EnumType.mk "ST_FtnPos" ST_FtnPos.constants ST_FtnPos.ValidateWithPath,
   EnumType.mk "ST_EdnPos" ST_EdnPos.constants ST_EdnPos.ValidateWithPath,
   EnumType.mk "ST_RestartNumber" ST_RestartNumber.constants ST_RestartNumber.ValidateWithPath,
   EnumType.mk "ST_MailMergeSourceType" ST_MailMergeSourceType.constants ST_MailMergeSourceType.ValidateWithPath,
   EnumType.mk "ST_TargetScreenSz" ST_TargetScreenSz.constants ST_TargetScreenSz.ValidateWithPath,
   EnumType.mk "ST_CharacterSpacing" ST_CharacterSpacing.constants ST_CharacterSpacing.ValidateWithPath,
   EnumType.mk "ST_WmlColorSchemeIndex" ST_WmlColorSchemeIndex.constants ST_WmlColorSchemeIndex.ValidateWithPath,
   EnumType.mk "ST_StyleSort" ST_StyleSort.constants ST_StyleSort.ValidateWithPath,
   EnumType.mk "ST_FrameScrollbar" ST_FrameScrollbar.constants ST_FrameScrollbar.ValidateWithPath,
   EnumType.mk "ST_FrameLayout" ST_FrameLayout.constants ST_FrameLayout.ValidateWithPath,
   EnumType.mk "ST_LevelSuffix" ST_LevelSuffix.constants ST_LevelSuffix.ValidateWithPath,
   EnumType.mk "ST_MultiLevelType" ST_MultiLevelType.constants ST_MultiLevelType.ValidateWithPath,
   EnumType.mk "ST_TblStyleOverrideType" ST_TblStyleOverrideType.constants ST_TblStyleOverrideType.ValidateWithPath,
   EnumType.mk "ST_StyleType" ST_StyleType.constants ST_StyleType.ValidateWithPath,
   EnumType.mk "ST_FontFamily" ST_FontFamily.constants ST_FontFamily.ValidateWithPath,
   EnumType.mk "ST_Pitch" ST_Pitch.constants ST_Pitch.ValidateWithPath,
   EnumType.mk "ST_ThemeColor" ST_ThemeColor.constants ST_ThemeColor.ValidateWithPath,
   EnumType.mk "ST_DocPartBehavior" ST_DocPartBehavior.constants ST_DocPartBehavior.ValidateWithPath,
   EnumType.mk "ST_DocPartType" ST_DocPartType.constants ST_DocPartType.ValidateWithPath,
   EnumType.mk "ST_DocPartGallery" ST_DocPartGallery.constants ST_DocPartGallery.ValidateWithPath,
   EnumType.mk "ST_CaptionPos" ST_CaptionPos.constants ST_CaptionPos.ValidateWithPath]

end wordprocessingml

/-! ## Structure types and their generated validators -/

/-- A value of one of the structure types that the structures below hold and that are declared
elsewhere in the repository (dml.CT_NonVisualDrawingProps, dml.CT_NonVisualConnectorProperties,
pml.CT_ApplicationNonVisualDrawingProps, the six children of EG_ObjectChoicesChoice,
wml.CT_SectPrBase and vml.CT_Textbox). The validators below use nothing of such a value but its
method ValidateWithPath, so the value is represented by what that method returns for each
path: an arbitrary function, over which the theorems quantify. -/
structure SchemaObject where
  ValidateWithPath : string → error

/-- One invocation of a child's ValidateWithPath: the field of the receiver through which the
method was invoked and the path passed to it. -/
structure Call where
  field : string
  path : string
deriving DecidableEq

/-- How the run of a generated validator ends: it returns an error value (nil or not), or it
invokes ValidateWithPath through a nil pointer, where the run is recorded as stopped: what the
method does with a nil receiver is decided by its body, which is declared elsewhere. -/
inductive Outcome where
  | returned (err : error)
  | nilReceiver
deriving DecidableEq

/-- The run of a generated validator: the invocations of child validators it made, in order,
and how it ended. -/
structure ValidateRun where
  calls : List Call
  outcome : Outcome

/-- Statement return err of a validator. -/
def ValidateRun.ret (err : error) : ValidateRun :=
  { calls := [], outcome := Outcome.returned err }

/-- Statement if err := c.ValidateWithPath(p); err != nil { return err }, where c is the
pointer held in the named field, followed by the rest of the body. -/
def checkChild (field : string) (c : Option SchemaObject) (p : string) (rest : ValidateRun) :
    ValidateRun :=
  match c with
  | none => { calls := [{ field := field, path := p }], outcome := Outcome.nilReceiver }
  | some obj =>
    let err : error := obj.ValidateWithPath p
    let after : ValidateRun := if err ≠ none then ValidateRun.ret err else rest
    { calls := { field := field, path := p } :: after.calls, outcome := after.outcome }

/-- Statement if c != nil { if err := c.ValidateWithPath(p); err != nil { return err } },
followed by the rest of the body. -/
def checkChildIfPresent (field : string) (c : Option SchemaObject) (p : string)
    (rest : ValidateRun) : ValidateRun :=
  if c.isSome then checkChild field c p rest else rest

namespace dml

/-- Type CT_NonVisualDrawingProps of package dml. -/
abbrev CT_NonVisualDrawingProps : Type := SchemaObject

/-- Type CT_NonVisualConnectorProperties of package dml. -/
abbrev CT_NonVisualConnectorProperties : Type := SchemaObject

end dml

namespace pml

/-- Type CT_ApplicationNonVisualDrawingProps of package pml. -/
abbrev CT_ApplicationNonVisualDrawingProps : Type := SchemaObject

/-- Type CT_ConnectorNonVisual: three pointers to child structures. -/
structure CT_ConnectorNonVisual where
  CNvPr : Option dml.CT_NonVisualDrawingProps
  CNvCxnSpPr : Option dml.CT_NonVisualConnectorProperties
  NvPr : Option CT_ApplicationNonVisualDrawingProps

/-- Method ValidateWithPath of CT_ConnectorNonVisual. -/
def CT_ConnectorNonVisual.ValidateWithPath (m : CT_ConnectorNonVisual) (path : string) :
    ValidateRun :=
  checkChild "CNvPr" m.CNvPr (path ++ "/CNvPr") <|
  checkChild "CNvCxnSpPr" m.CNvCxnSpPr (path ++ "/CNvCxnSpPr") <|
  checkChild "NvPr" m.NvPr (path ++ "/NvPr") <|
  ValidateRun.ret none

/-- Method Validate of CT_ConnectorNonVisual. -/
def CT_ConnectorNonVisual.Validate (m : CT_ConnectorNonVisual) : ValidateRun :=
  CT_ConnectorNonVisual.ValidateWithPath m "CT_ConnectorNonVisual"

end pml

namespace spreadsheetDrawing

/-- Type CT_Shape of package spreadsheetDrawing. -/
abbrev CT_Shape : Type := SchemaObject

/-- Type CT_GroupShape of package spreadsheetDrawing. -/
abbrev CT_GroupShape : Type := SchemaObject

/-- Type CT_GraphicalObjectFrame of package spreadsheetDrawing. -/
abbrev CT_GraphicalObjectFrame : Type := SchemaObject

/-- Type CT_Connector of package spreadsheetDrawing. -/
abbrev CT_Connector : Type := SchemaObject

/-- Type CT_Picture of package spreadsheetDrawing. -/
abbrev CT_Picture : Type := SchemaObject

/-- Type CT_Rel of package spreadsheetDrawing. -/
abbrev CT_Rel : Type := SchemaObject

/-- Type EG_ObjectChoicesChoice: six pointers to child structures. -/
structure EG_ObjectChoicesChoice where
  Sp : Option CT_Shape
  GrpSp : Option CT_GroupShape
  GraphicFrame : Option CT_GraphicalObjectFrame
  CxnSp : Option CT_Connector
  Pic : Option CT_Picture
  ContentPart : Option CT_Rel

/-- Function NewEG_ObjectChoicesChoice: the zero value of the structure, every pointer nil. -/
def NewEG_ObjectChoicesChoice : EG_ObjectChoicesChoice :=
  { Sp := none, GrpSp := none, GraphicFrame := none, CxnSp := none, Pic := none,
    ContentPart := none }

/-- Method ValidateWithPath of EG_ObjectChoicesChoice. -/
def EG_ObjectChoicesChoice.ValidateWithPath (m : EG_ObjectChoicesChoice) (path : string) :
    ValidateRun :=
  checkChildIfPresent "Sp" m.Sp (path ++ "/Sp") <|
  checkChildIfPresent "GrpSp" m.GrpSp (path ++ "/GrpSp") <|
  checkChildIfPresent "GraphicFrame" m.GraphicFrame (path ++ "/GraphicFrame") <|
  checkChildIfPresent "CxnSp" m.CxnSp (path ++ "/CxnSp") <|
  checkChildIfPresent "Pic" m.Pic (path ++ "/Pic") <|
  checkChildIfPresent "ContentPart" m.ContentPart (path ++ "/ContentPart") <|
  ValidateRun.ret none

/-- Method Validate of EG_ObjectChoicesChoice. -/
def EG_ObjectChoicesChoice.Validate (m : EG_ObjectChoicesChoice) : ValidateRun :=
  EG_ObjectChoicesChoice.ValidateWithPath m "EG_ObjectChoicesChoice"

end spreadsheetDrawing

namespace time

/-- Type Time of package time, by its three fields; the zero value of the type has wall 0,
ext 0 and a nil location. -/
structure Time where
  wall : Nat
  ext : Int
  loc : Option string
deriving DecidableEq

end time

namespace wml

/-- Type CT_SectPrBase of package wml. -/
abbrev CT_SectPrBase : Type := SchemaObject

/-- Type CT_SectPrChange. -/
structure CT_SectPrChange where
  AuthorAttr : string
  DateAttr : Option time.Time
  IdAttr : Int
  SectPr : Option CT_SectPrBase

/-- Method ValidateWithPath of CT_SectPrChange. -/
def CT_SectPrChange.ValidateWithPath (m : CT_SectPrChange) (path : string) : ValidateRun :=
  checkChildIfPresent "SectPr" m.SectPr (path ++ "/SectPr") <|
  ValidateRun.ret none

/-- Method Validate of CT_SectPrChange. -/
def CT_SectPrChange.Validate (m : CT_SectPrChange) : ValidateRun :=
  CT_SectPrChange.ValidateWithPath m "CT_SectPrChange"

end wml

namespace vml

/-- Type CT_Textbox of package vml. -/
abbrev CT_Textbox : Type := SchemaObject

/-- Type Textbox: a structure embedding a CT_Textbox by value. -/
structure Textbox where
  CT_Textbox : vml.CT_Textbox

/-- Method ValidateWithPath of Textbox; the receiver of the embedded call is the address of the
embedded field, which is never nil. -/
def Textbox.ValidateWithPath (m : Textbox) (path : string) : ValidateRun :=
  checkChild "CT_Textbox" (some m.CT_Textbox) path <|
  ValidateRun.ret none

/-- Method Validate of Textbox. -/
def Textbox.Validate (m : Textbox) : ValidateRun :=
  Textbox.ValidateWithPath m "Textbox"

end vml

/-! ## Package strconv: ParseUint and ParseInt in base 10 -/

namespace strconv

/-- The two error values ErrSyntax and ErrRange a NumError can wrap here. -/
inductive ErrKind where
  | ErrSyntax
  | ErrRange
deriving DecidableEq

/-- Type NumError: the failing function, the input, and the wrapped error. -/
structure NumError where
  Func : string
  Num : string
  Err : ErrKind
deriving DecidableEq

/-- Message of the wrapped error value. -/
def ErrKind.Error : ErrKind → string
  | ErrKind.ErrSyntax => "invalid syntax"
  | ErrKind.ErrRange => "value out of range"

/-- Method Error of NumError: "strconv." + Func + ": parsing " + Quote(Num) + ": " + Err.Error().
The function Quote, which needs the table of printable runes, is taken as a parameter. -/
def NumError.Error (quote : string → string) (e : NumError) : string :=
  "strconv." ++ e.Func ++ ": parsing " ++ quote e.Num ++ ": " ++ e.Err.Error

/-- Function syntaxError. -/
def syntaxError (fn str : string) : NumError :=
  { Func := fn, Num := str, Err := ErrKind.ErrSyntax }

/-- Function rangeError. -/
def rangeError (fn str : string) : NumError :=
  { Func := fn, Num := str, Err := ErrKind.ErrRange }

/-- Constant maxUint64. -/
def maxUint64 : Nat := 18446744073709551615

/-- The loop of ParseUint for base 10 over the characters still to read, n being the value
accumulated so far in a uint64: a character other than a decimal digit stops with a syntax
error (a letter is a digit value of 10 or more, hence not below the base), a value that would
exceed maxVal stops with a range error and the value maxVal. The cutoff is maxUint64/10 + 1. -/
def ParseUint.loop (maxVal : Nat) (s0 : string) : List Char → Nat → Nat × Option NumError
  | [], n => (n, none)
  | c :: cs, n =>
    if '0' ≤ c ∧ c ≤ '9' then
      let d : Nat := c.toNat - '0'.toNat
      if n ≥ maxUint64 / 10 + 1 then (maxVal, some (rangeError "ParseUint" s0))
      else
        let n10 : Nat := (n * 10) % 2 ^ 64
        let n1 : Nat := (n10 + d) % 2 ^ 64
        if n1 < n10 ∨ n1 > maxVal then (maxVal, some (rangeError "ParseUint" s0))
        else ParseUint.loop maxVal s0 cs n1
    else (0, some (syntaxError "ParseUint" s0))

/-- Function ParseUint(s, 10, bitSize) for a bit size from 1 to 64 (the sources pass 64): the
value as a uint64 and the error. -/
def ParseUint (s : string) (bitSize : Nat) : Nat × Option NumError :=
  if s = "" then (0, some (syntaxError "ParseUint" s))
  else ParseUint.loop (2 ^ bitSize - 1) s s.data 0

/-- Function ParseInt(s, 10, bitSize) for a bit size from 1 to 64 (the sources pass 32 and
64): the value as an int64 and the error. -/
def ParseInt (s : string) (bitSize : Nat) : Int × Option NumError :=
  if s = "" then (0, some (syntaxError "ParseInt" s))
  else
    let s0 : string := s
    let neg : Bool := s.data.head? = some '-'
    let s : string :=
      if s.data.head? = some '+' then ⟨s.data.tail⟩
      else if s.data.head? = some '-' then ⟨s.data.tail⟩
      else s
    match ParseUint s bitSize with
    | (_, some { Func := _, Num := _, Err := ErrKind.ErrSyntax }) =>
      (0, some { Func := "ParseInt", Num := s0, Err := ErrKind.ErrSyntax })
    | (un, _) =>
      let cutoff : Nat := 2 ^ (bitSize - 1)
      if !neg ∧ un ≥ cutoff then (Int.ofNat (cutoff - 1), some (rangeError "ParseInt" s0))
      else if neg ∧ un > cutoff then (- Int.ofNat cutoff, some (rangeError "ParseInt" s0))
      else if neg then (- Int.ofNat un, none)
      else (Int.ofNat un, none)

end strconv

/-! ## Base-10 integer literals

What it is for a string to be a base-10 integer and which integer it then stands for, stated
without reference to strconv; the results of strconv.ParseInt are compared with it. -/

/-- The natural number written by a string of decimal digits, read from the left, starting
from the value n of the digits already read. -/
def decimalDigitsValue (n : Nat) (cs : List Char) : Nat :=
  cs.foldl (fun acc c => 10 * acc + (c.toNat - '0'.toNat)) n

/-- The number a base-10 natural literal stands for: the characters are one or more decimal
digits and nothing else. -/
def decimalNatLiteral (cs : List Char) : Option Nat :=
  if cs ≠ [] ∧ ∀ c ∈ cs, '0' ≤ c ∧ c ≤ '9' then some (decimalDigitsValue 0 cs) else none

/-- The integer an optionally signed base-10 integer literal stands for: an optional sign
+ or -, then one or more decimal digits and nothing else. -/
def decimalIntLiteral (s : string) : Option Int :=
  match s.data with
  | '+' :: ds => (decimalNatLiteral ds).map fun n => Int.ofNat n
  | '-' :: ds => (decimalNatLiteral ds).map fun n => - Int.ofNat n
  | ds => (decimalNatLiteral ds).map fun n => Int.ofNat n

/-! ## Package regexp -/

namespace regexp

/-- Type Regexp, a compiled regular expression. The parsers below use nothing of it but the
method MatchString, so it is represented by what that method returns for each string. -/
structure Regexp where
  MatchString : string → Bool

/-- The pattern [...] of a character class, given by the characters of the class: one of
them. -/
def charClass (cs : List Char) : RegularExpression Char :=
  cs.foldr (fun c r => RegularExpression.char c + r) 0

/-- The pattern of a run of literal characters: these characters, in this order. -/
def literal (cs : List Char) : RegularExpression Char :=
  cs.foldr (fun c r => RegularExpression.char c * r) 1

/-- The pattern x?: x or the empty string. -/
def quest (x : RegularExpression Char) : RegularExpression Char :=
  x + 1

/-- Function MustCompile, applied to a pattern given as its syntax tree: the Regexp whose
method MatchString reports whether the string contains any match of the pattern, that is
whether some substring of it (a prefix of one of its suffixes) matches the pattern as a
whole. -/
def MustCompile (expr : RegularExpression Char) : Regexp :=
  { MatchString := fun s => s.data.tails.any fun t => t.inits.any fun u => expr.rmatch u }

end regexp

namespace sharedTypes

/-- Type ST_TwipsMeasure of package sharedTypes, by the fields ParseUnionST_TwipsMeasure
assigns. -/
structure ST_TwipsMeasure where
  ST_UnsignedDecimalNumber : Option Nat
  ST_PositiveUniversalMeasure : Option string
deriving DecidableEq

end sharedTypes

namespace wordprocessingml

/-! ### The parsers of common.go

The compiled patterns ST_UniversalMeasurePatternRe, ST_PositiveUniversalMeasurePatternRe and
ST_PercentagePatternRe of package sharedTypes, the compiled pattern
ST_TextScalePercentPatternRe, and the function strconv.Quote are parameters of the parsers
that use them; the package variable ST_TextScalePercentPatternRe itself is defined here, to
be passed to ParseUnionST_TextScale. The union types are given by the fields the parsers
assign. -/

/-- Go declaration: const ST_TextScalePercentPattern = `0*(600|([0-5]?[0-9]?[0-9]))%`, as the
syntax tree of the pattern: any number of 0, then 600 or up to two optional digits (the first
one of 0 to 5) and one digit, then the percent sign. -/
def ST_TextScalePercentPattern : RegularExpression Char :=
  RegularExpression.star (RegularExpression.char '0')
    * (regexp.literal ['6', '0', '0']
        + regexp.quest (regexp.charClass ['0', '1', '2', '3', '4', '5'])
          * (regexp.quest (regexp.charClass ['0', '1', '2', '3', '4', '5', '6', '7', '8', '9'])
            * regexp.charClass ['0', '1', '2', '3', '4', '5', '6', '7', '8', '9']))
    * RegularExpression.char '%'

/-- Go declaration: var ST_TextScalePercentPatternRe =
regexp.MustCompile(ST_TextScalePercentPattern). -/
def ST_TextScalePercentPatternRe : regexp.Regexp :=
  regexp.MustCompile ST_TextScalePercentPattern

/-- Method Validate of ST_HighlightColor. -/
def ST_HighlightColor.Validate (m : ST_HighlightColor) : error :=
  ST_HighlightColor.ValidateWithPath m ""

/-- Type ST_SignedTwipsMeasure. -/
structure ST_SignedTwipsMeasure where
  Int64 : Option Int
  ST_UniversalMeasure : Option string
deriving DecidableEq

/-- Type ST_HexColor. -/
structure ST_HexColor where
  ST_HexColorAuto : wordprocessingml.ST_HexColorAuto
  ST_HexColorRGB : Option string
deriving DecidableEq

/-- Type ST_DecimalNumberOrPercent. -/
structure ST_DecimalNumberOrPercent where
  ST_UnqualifiedPercentage : Option Int
  ST_Percentage : Option string
deriving DecidableEq

/-- Type ST_MeasurementOrPercent. -/
structure ST_MeasurementOrPercent where
  ST_DecimalNumberOrPercent : Option wordprocessingml.ST_DecimalNumberOrPercent
  ST_UniversalMeasure : Option string
deriving DecidableEq

/-- Type ST_HpsMeasure. -/
structure ST_HpsMeasure where
  ST_UnsignedDecimalNumber : Option Nat
  ST_PositiveUniversalMeasure : Option string
deriving DecidableEq

/-- Type ST_SignedHpsMeasure. -/
structure ST_SignedHpsMeasure where
  Int64 : Option Int
  ST_UniversalMeasure : Option string
deriving DecidableEq

/-- Type ST_TextScale. -/
structure ST_TextScale where
  ST_TextScalePercent : Option string
  ST_TextScaleDecimal : Option Int
deriving DecidableEq

/-- Message of fmt.Errorf("parsing %s as int: %s", s, err) for an error err of strconv. -/
def errorfParsingInt (quote : string → string) (s : string) (err : strconv.NumError) : string :=
  "parsing " ++ s ++ " as int: " ++ err.Error quote

/-- Message of fmt.Errorf("parsing %s as uint: %s", s, err) for an error err of strconv. -/
def errorfParsingUint (quote : string → string) (s : string) (err : strconv.NumError) : string :=
  "parsing " ++ s ++ " as uint: " ++ err.Error quote

/-- Function ParseUnionST_SignedTwipsMeasure. -/
def ParseUnionST_SignedTwipsMeasure (ST_UniversalMeasurePatternRe : regexp.Regexp)
    (quote : string → string) (s : string) : ST_SignedTwipsMeasure × error :=
  let r : ST_SignedTwipsMeasure := { Int64 := none, ST_UniversalMeasure := none }
  if ST_UniversalMeasurePatternRe.MatchString s then
    ({ r with ST_UniversalMeasure := some s }, none)
  else
    match strconv.ParseInt s 32 with
    | (_, some err) => (r, some (errorfParsingInt quote s err))
    | (v, none) => ({ r with Int64 := some v }, none)

/-- Function ParseUnionST_TwipsMeasure. -/
def ParseUnionST_TwipsMeasure (ST_PositiveUniversalMeasurePatternRe : regexp.Regexp)
    (quote : string → string) (s : string) : sharedTypes.ST_TwipsMeasure × error :=
  let ret : sharedTypes.ST_TwipsMeasure :=
    { ST_UnsignedDecimalNumber := none, ST_PositiveUniversalMeasure := none }
  if ST_PositiveUniversalMeasurePatternRe.MatchString s then
    ({ ret with ST_PositiveUniversalMeasure := some s }, none)
  else
    match strconv.ParseUint s 64 with
    | (_, some err) => (ret, some (errorfParsingUint quote s err))
    | (v, none) => ({ ret with ST_UnsignedDecimalNumber := some v }, none)

/-- Function ParseUnionST_HexColor. -/
def ParseUnionST_HexColor (s : string) : ST_HexColor × error :=
  let r : ST_HexColor := { ST_HexColorAuto := 0, ST_HexColorRGB := none }
  if s = "auto" then ({ r with ST_HexColorAuto := ST_HexColorAutoAuto }, none)
  else ({ r with ST_HexColorRGB := some s }, none)

/-- Function ParseStdlibTime: the zero value of time.Time and a nil error. -/
def ParseStdlibTime (_s : string) : time.Time × error :=
  ({ wall := 0, ext := 0, loc := none }, none)

/-- Function ParseUnionST_DecimalNumberOrPercent. -/
def ParseUnionST_DecimalNumberOrPercent (ST_PercentagePatternRe : regexp.Regexp)
    (quote : string → string) (s : string) : ST_DecimalNumberOrPercent × error :=
  let ret : ST_DecimalNumberOrPercent :=
    { ST_UnqualifiedPercentage := none, ST_Percentage := none }
  if ST_PercentagePatternRe.MatchString s then
    ({ ret with ST_Percentage := some s }, none)
  else
    match strconv.ParseInt s 32 with
    | (_, some err) => (ret, some (errorfParsingInt quote s err))
    | (v, none) => ({ ret with ST_UnqualifiedPercentage := some v }, none)

/-- Function ParseUnionST_MeasurementOrPercent. The pointer r.ST_DecimalNumberOrPercent is
set to the address of a fresh structure; the assignments made through it afterwards change the
structure it points to (target). -/
def ParseUnionST_MeasurementOrPercent (ST_UniversalMeasurePatternRe : regexp.Regexp)
    (ST_PercentagePatternRe : regexp.Regexp) (quote : string → string) (s : string) :
    ST_MeasurementOrPercent × error :=
  let r : ST_MeasurementOrPercent :=
    { ST_DecimalNumberOrPercent := none, ST_UniversalMeasure := none }
  if ST_UniversalMeasurePatternRe.MatchString s then
    ({ r with ST_UniversalMeasure := some s }, none)
  else
    let fresh : ST_DecimalNumberOrPercent :=
      { ST_UnqualifiedPercentage := none, ST_Percentage := none }
    let r : ST_MeasurementOrPercent := { r with ST_DecimalNumberOrPercent := some fresh }
    if ST_PercentagePatternRe.MatchString s then
      let target : Option ST_DecimalNumberOrPercent :=
        r.ST_DecimalNumberOrPercent.map fun p => { p with ST_Percentage := some s }
      ({ r with ST_DecimalNumberOrPercent := target }, none)
    else
      match strconv.ParseInt s 32 with
      | (_, some err) => (r, some (errorfParsingInt quote s err))
      | (v, none) =>
        let target : Option ST_DecimalNumberOrPercent :=
          r.ST_DecimalNumberOrPercent.map fun p => { p with ST_UnqualifiedPercentage := some v }
        ({ r with ST_DecimalNumberOrPercent := target }, none)

/-- Function ParseUnionST_HpsMeasure. -/
def ParseUnionST_HpsMeasure (ST_PositiveUniversalMeasurePatternRe : regexp.Regexp)
    (quote : string → string) (s : string) : ST_HpsMeasure × error :=
  let r : ST_HpsMeasure :=
    { ST_UnsignedDecimalNumber := none, ST_PositiveUniversalMeasure := none }
  if ST_PositiveUniversalMeasurePatternRe.MatchString s then
    ({ r with ST_PositiveUniversalMeasure := some s }, none)
  else
    match strconv.ParseUint s 64 with
    | (_, some err) => (r, some (errorfParsingUint quote s err))
    | (v, none) => ({ r with ST_UnsignedDecimalNumber := some v }, none)

/-- Function ParseUnionST_SignedHpsMeasure. -/
def ParseUnionST_SignedHpsMeasure (ST_UniversalMeasurePatternRe : regexp.Regexp)
    (quote : string → string) (s : string) : ST_SignedHpsMeasure × error :=
  let r : ST_SignedHpsMeasure := { Int64 := none, ST_UniversalMeasure := none }
  if ST_UniversalMeasurePatternRe.MatchString s then
    ({ r with ST_UniversalMeasure := some s }, none)
  else
    match strconv.ParseInt s 32 with
    | (_, some err) => (r, some (errorfParsingInt quote s err))
    | (v, none) => ({ r with Int64 := some v }, none)

/-- Function ParseUnionST_TextScale. -/
def ParseUnionST_TextScale (ST_TextScalePercentPatternRe : regexp.Regexp)
    (quote : string → string) (s : string) : ST_TextScale × error :=
  let r : ST_TextScale := { ST_TextScalePercent := none, ST_TextScaleDecimal := none }
  if ST_TextScalePercentPatternRe.MatchString s then
    ({ r with ST_TextScalePercent := some s }, none)
  else
    match strconv.ParseInt s 32 with
    | (_, some err) => (r, some (errorfParsingInt quote s err))
    | (v, none) => ({ r with ST_TextScaleDecimal := some v }, none)

end wordprocessingml

/-! ## Decoding and encoding of structures -/

namespace xml

/-- The loop of method Skip of Decoder, depth being the number of start elements read whose
closing element has not been read yet: tokens are read until the closing element of the
element already open when Skip was called. Returns the error and the number of tokens read; at
the end of the input the error is the one Token returns there. -/
def Decoder.Skip.loop : Nat → Decoder → error × Nat
  | _, [] => (some "EOF", 0)
  | depth, xml.Token.StartElement _ :: rest =>
    ((Decoder.Skip.loop (depth + 1) rest).1, (Decoder.Skip.loop (depth + 1) rest).2 + 1)
  | depth, xml.Token.EndElement _ :: rest =>
    if depth = 0 then (none, 1)
    else ((Decoder.Skip.loop (depth - 1) rest).1, (Decoder.Skip.loop (depth - 1) rest).2 + 1)
  | depth, _ :: rest =>
    ((Decoder.Skip.loop depth rest).1, (Decoder.Skip.loop depth rest).2 + 1)

/-- Method Skip of Decoder: the error and the decoder past the tokens read. -/
def Decoder.Skip (d : Decoder) : error × Decoder :=
  ((Decoder.Skip.loop 0 d).1, d.drop (Decoder.Skip.loop 0 d).2)

end xml

/-- What the UnmarshalXML method of a structure declared elsewhere does when DecodeElement
runs it on the content of an element: the structure as the call leaves it, the number of
tokens the call reads from the decoder, and the error it returns. -/
structure DecodeResult where
  value : SchemaObject
  consumed : Nat
  err : error

/-- The UnmarshalXML method of a structure type declared elsewhere, as a function of the
structure, the start element and the tokens the decoder has still to deliver: an arbitrary
function, over which the theorems quantify. -/
abbrev ChildUnmarshaler : Type := SchemaObject → xml.StartElement → xml.Decoder → DecodeResult

namespace xml

/-- Method DecodeElement of Decoder for a pointer v to a structure declared elsewhere, whose
UnmarshalXML method is unmarshal. A nil pointer is refused with an error. Otherwise the method
of the structure is run: the pointer stays the same, the structure it points to is the one the
method leaves, and the decoder has advanced by the tokens the method read. Returns the pointer
with its target, the decoder and the error. -/
def Decoder.DecodeElement (unmarshal : ChildUnmarshaler) (d : Decoder)
    (v : Option SchemaObject) (start : StartElement) : Option SchemaObject × Decoder × error :=
  match v with
  | none => (none, d, some "nil pointer passed to Unmarshal")
  | some obj =>
    let r : DecodeResult := unmarshal obj start d
    (some r.value, d.drop r.consumed, r.err)

/-- One call on an Encoder made by a generated MarshalXML: EncodeToken with a token, or
EncodeElement with a pointer to a structure declared elsewhere and a start element. -/
inductive EncoderCall where
  | EncodeToken (t : xml.Token)
  | EncodeElement (v : Option SchemaObject) (start : xml.StartElement)

end xml

namespace pml

/-- What CT_ConnectorNonVisual.go uses of declarations made elsewhere in the repository: the
structures that the constructors of the three child types return the address of, and the
UnmarshalXML methods of the three child types. -/
structure Imports where
  NewCT_NonVisualDrawingProps : dml.CT_NonVisualDrawingProps
  NewCT_NonVisualConnectorProperties : dml.CT_NonVisualConnectorProperties
  NewCT_ApplicationNonVisualDrawingProps : CT_ApplicationNonVisualDrawingProps
  UnmarshalCT_NonVisualDrawingProps : ChildUnmarshaler
  UnmarshalCT_NonVisualConnectorProperties : ChildUnmarshaler
  UnmarshalCT_ApplicationNonVisualDrawingProps : ChildUnmarshaler

/-- Function NewCT_ConnectorNonVisual: the structure whose address it returns. -/
def NewCT_ConnectorNonVisual (env : Imports) : CT_ConnectorNonVisual :=
  let ret : CT_ConnectorNonVisual := { CNvPr := none, CNvCxnSpPr := none, NvPr := none }
  let ret : CT_ConnectorNonVisual := { ret with CNvPr := some env.NewCT_NonVisualDrawingProps }
  let ret : CT_ConnectorNonVisual :=
    { ret with CNvCxnSpPr := some env.NewCT_NonVisualConnectorProperties }
  let ret : CT_ConnectorNonVisual :=
    { ret with NvPr := some env.NewCT_ApplicationNonVisualDrawingProps }
  ret

/-- Method MarshalXML of CT_ConnectorNonVisual: the calls it makes on the encoder, in order,
and the error it returns. -/
def CT_ConnectorNonVisual.MarshalXML (m : CT_ConnectorNonVisual) (start : xml.StartElement) :
    List xml.EncoderCall × error :=
  ([xml.EncoderCall.EncodeToken (xml.Token.StartElement start),
    xml.EncoderCall.EncodeElement m.CNvPr { Name := { Space := "", Local := "p:cNvPr" }, Attr := [] },
    xml.EncoderCall.EncodeElement m.CNvCxnSpPr
      { Name := { Space := "", Local := "p:cNvCxnSpPr" }, Attr := [] },
    xml.EncoderCall.EncodeElement m.NvPr { Name := { Space := "", Local := "p:nvPr" }, Attr := [] },
    xml.EncoderCall.EncodeToken (xml.Token.EndElement { Name := start.Name })],
   none)

set_option linter.unusedVariables false in
/-- The loop labelled lCT_ConnectorNonVisual of UnmarshalXML, from the state of the receiver
and of the decoder at the start of an iteration, up to the return of the method. The call of
gooxml.Log in the default case writes a log line and is left out. -/
def CT_ConnectorNonVisual.UnmarshalXML.loop (env : Imports) (m : CT_ConnectorNonVisual)
    (d : xml.Decoder) : CT_ConnectorNonVisual × xml.Decoder × error :=
  match hTok : xml.Decoder.Token d with
  | (_, some err, d₁) => (m, d₁, some err)
  | (tok, none, d₁) =>
    match tok with
    | some (xml.Token.StartElement el) =>
      if el.Name = { Space := "http://schemas.openxmlformats.org/presentationml/2006/main",
                     Local := "cNvPr" } ∨
         el.Name = { Space := "http://purl.oclc.org/ooxml/presentationml/main",
                     Local := "cNvPr" } then
        match hDec : xml.Decoder.DecodeElement env.UnmarshalCT_NonVisualDrawingProps d₁
            m.CNvPr el with
        | (v, d₂, some err) => ({ m with CNvPr := v }, d₂, some err)
        | (v, d₂, none) => CT_ConnectorNonVisual.UnmarshalXML.loop env { m with CNvPr := v } d₂
      else if
         el.Name = { Space := "http://schemas.openxmlformats.org/presentationml/2006/main",
                     Local := "cNvCxnSpPr" } ∨
         el.Name = { Space := "http://purl.oclc.org/ooxml/presentationml/main",
                     Local := "cNvCxnSpPr" } then
        match hDec : xml.Decoder.DecodeElement env.UnmarshalCT_NonVisualConnectorProperties d₁
            m.CNvCxnSpPr el with
        | (v, d₂, some err) => ({ m with CNvCxnSpPr := v }, d₂, some err)
        | (v, d₂, none) =>
          CT_ConnectorNonVisual.UnmarshalXML.loop env { m with CNvCxnSpPr := v } d₂
      else if
         el.Name = { Space := "http://schemas.openxmlformats.org/presentationml/2006/main",
                     Local := "nvPr" } ∨
         el.Name = { Space := "http://purl.oclc.org/ooxml/presentationml/main",
                     Local := "nvPr" } then
        match hDec : xml.Decoder.DecodeElement env.UnmarshalCT_ApplicationNonVisualDrawingProps
            d₁ m.NvPr el with
        | (v, d₂, some err) => ({ m with NvPr := v }, d₂, some err)
        | (v, d₂, none) => CT_ConnectorNonVisual.UnmarshalXML.loop env { m with NvPr := v } d₂
      else
        match hSkip : xml.Decoder.Skip d₁ with
        | (some err, d₂) => (m, d₂, some err)
        | (none, d₂) => CT_ConnectorNonVisual.UnmarshalXML.loop env m d₂
    | some (xml.Token.EndElement _) => (m, d₁, none)
    | some (xml.Token.CharData _) => CT_ConnectorNonVisual.UnmarshalXML.loop env m d₁
    | _ => CT_ConnectorNonVisual.UnmarshalXML.loop env m d₁
termination_by d.length
decreasing_by
  all_goals simp_wf
  all_goals
    cases d with
    | nil => simp [xml.Decoder.Token] at hTok
    | cons t r =>
      simp only [xml.Decoder.Token, Prod.mk.injEq] at hTok
      obtain ⟨-, -, rfl⟩ := hTok
      first
        | exact Nat.lt_succ_self _
        | (unfold xml.Decoder.DecodeElement at hDec
           split at hDec
           · simp at hDec
           · simp only [Prod.mk.injEq] at hDec
             obtain ⟨-, rfl, -⟩ := hDec
             simp only [List.length_drop, List.length_cons]
             omega)
        | (simp only [xml.Decoder.Skip, Prod.mk.injEq] at hSkip
           obtain ⟨-, rfl⟩ := hSkip
           simp only [List.length_drop, List.length_cons]
           omega)

/-- Method UnmarshalXML of CT_ConnectorNonVisual (pointer receiver): takes the structure the
receiver points to before the call and the decoder, returns the structure afterwards, the
decoder as the call leaves it, and the error. -/
def CT_ConnectorNonVisual.UnmarshalXML (env : Imports) (m : CT_ConnectorNonVisual)
    (d : xml.Decoder) (_start : xml.StartElement) :
    CT_ConnectorNonVisual × xml.Decoder × error :=
  let m : CT_ConnectorNonVisual := { m with CNvPr := some env.NewCT_NonVisualDrawingProps }
  let m : CT_ConnectorNonVisual :=
    { m with CNvCxnSpPr := some env.NewCT_NonVisualConnectorProperties }
  let m : CT_ConnectorNonVisual :=
    { m with NvPr := some env.NewCT_ApplicationNonVisualDrawingProps }
  CT_ConnectorNonVisual.UnmarshalXML.loop env m d

end pml

namespace wml

/-- What CT_SectPrChange.go uses of declarations made elsewhere: the structure that
NewCT_SectPrBase returns the address of, the UnmarshalXML method of CT_SectPrBase, the
function ParseStdlibTime of package wml, and the function strconv.Quote. -/
structure Imports where
  NewCT_SectPrBase : CT_SectPrBase
  UnmarshalCT_SectPrBase : ChildUnmarshaler
  ParseStdlibTime : string → time.Time × error
  Quote : string → string

/-- The loop over start.Attr of CT_SectPrChange.UnmarshalXML, from the attributes still to
visit: the receiver after the loop, and the error when the loop returns from the method. -/
def CT_SectPrChange.UnmarshalXML.attrs (env : Imports) (m : CT_SectPrChange) :
    List xml.Attr → CT_SectPrChange × error
  | [] => (m, none)
  | attr :: rest =>
    if attr.Name.Local = "author" then
      match ((attr.Value, none) : string × error) with
      | (_, some err) => (m, some err)
      | (parsed, none) =>
        CT_SectPrChange.UnmarshalXML.attrs env { m with AuthorAttr := parsed } rest
    else if attr.Name.Local = "date" then
      match env.ParseStdlibTime attr.Value with
      | (_, some err) => (m, some err)
      | (parsed, none) =>
        CT_SectPrChange.UnmarshalXML.attrs env { m with DateAttr := some parsed } rest
    else if attr.Name.Local = "id" then
      match strconv.ParseInt attr.Value 64 with
      | (_, some err) => (m, some (err.Error env.Quote))
      | (parsed, none) =>
        CT_SectPrChange.UnmarshalXML.attrs env { m with IdAttr := parsed } rest
    else CT_SectPrChange.UnmarshalXML.attrs env m rest

set_option linter.unusedVariables false in
/-- The loop labelled lCT_SectPrChange of UnmarshalXML, from the state of the receiver and of
the decoder at the start of an iteration, up to the return of the method. The call of
gooxml.Log in the default case writes a log line and is left out. -/
def CT_SectPrChange.UnmarshalXML.loop (env : Imports) (m : CT_SectPrChange)
    (d : xml.Decoder) : CT_SectPrChange × xml.Decoder × error :=
  match hTok : xml.Decoder.Token d with
  | (_, some err, d₁) => (m, d₁, some err)
  | (tok, none, d₁) =>
    match tok with
    | some (xml.Token.StartElement el) =>
      if el.Name = { Space := "http://schemas.openxmlformats.org/wordprocessingml/2006/main",
                     Local := "sectPr" } ∨
         el.Name = { Space := "http://purl.oclc.org/ooxml/wordprocessingml/main",
                     Local := "sectPr" } then
        let m₁ : CT_SectPrChange := { m with SectPr := some env.NewCT_SectPrBase }
        match hDec : xml.Decoder.DecodeElement env.UnmarshalCT_SectPrBase d₁ m₁.SectPr el with
        | (v, d₂, some err) => ({ m₁ with SectPr := v }, d₂, some err)
        | (v, d₂, none) => CT_SectPrChange.UnmarshalXML.loop env { m₁ with SectPr := v } d₂
      else
        match hSkip : xml.Decoder.Skip d₁ with
        | (some err, d₂) => (m, d₂, some err)
        | (none, d₂) => CT_SectPrChange.UnmarshalXML.loop env m d₂
    | some (xml.Token.EndElement _) => (m, d₁, none)
    | some (xml.Token.CharData _) => CT_SectPrChange.UnmarshalXML.loop env m d₁
    | _ => CT_SectPrChange.UnmarshalXML.loop env m d₁
termination_by d.length
decreasing_by
  all_goals simp_wf
  all_goals
    cases d with
    | nil => simp [xml.Decoder.Token] at hTok
    | cons t r =>
      simp only [xml.Decoder.Token, Prod.mk.injEq] at hTok
      obtain ⟨-, -, rfl⟩ := hTok
      first
        | exact Nat.lt_succ_self _
        | (simp only [xml.Decoder.DecodeElement, Prod.mk.injEq] at hDec
           obtain ⟨-, rfl, -⟩ := hDec
           simp only [List.length_drop, List.length_cons]
           omega)
        | (simp only [xml.Decoder.Skip, Prod.mk.injEq] at hSkip
           obtain ⟨-, rfl⟩ := hSkip
           simp only [List.length_drop, List.length_cons]
           omega)

/-- Method UnmarshalXML of CT_SectPrChange (pointer receiver): takes the structure the
receiver points to before the call and the decoder, returns the structure afterwards, the
decoder as the call leaves it, and the error. -/
def CT_SectPrChange.UnmarshalXML (env : Imports) (m : CT_SectPrChange) (d : xml.Decoder)
    (start : xml.StartElement) : CT_SectPrChange × xml.Decoder × error :=
  match CT_SectPrChange.UnmarshalXML.attrs env m start.Attr with
  | (m, some err) => (m, d, some err)
  | (m, none) => CT_SectPrChange.UnmarshalXML.loop env m d

end wml

namespace wordprocessingml

/-! ## Lemmas on the switch embedding -/

/-- A switch none of whose labels equals the tag selects no case. -/
theorem switchCase_eq_none {α β : Type} [DecidableEq α] (tag : α) (cases : List (α × β))
    (h : tag ∉ cases.map Prod.fst) : switchCase tag cases = none := by
  induction cases with
  | nil => rfl
  | cons c rest ih =>
    obtain ⟨label, body⟩ := c
    simp only [List.map_cons, List.mem_cons, not_or] at h
    simp only [switchCase, if_neg h.1]
    exact ih h.2

/-- A switch on a number whose labels are 0, 1, ..., n - 1 selects no case for a tag from n on. -/
theorem switchCase_range_none {β : Type} (cases : List (Nat × β)) (n : Nat)
    (hk : cases.map Prod.fst = List.range n) (b : Nat) (hb : n ≤ b) :
    switchCase b cases = none := by
  apply switchCase_eq_none
  rw [hk, List.mem_range]
  omega

/-- The body shared by the generated ValidateWithPath methods accepts exactly the labels
when these are 0, 1, ..., n. -/
theorem validate_none_iff (labels : List Nat) (n : Nat) (h : labels = List.range (n + 1))
    (m : Nat) (path : string) :
    (if m ∈ labels then (none : error) else some (errorfOutOfRange path m)) = none ↔ m ≤ n := by
  subst h
  by_cases hm : m ∈ List.range (n + 1)
  · simp only [if_pos hm, true_iff]
    exact Nat.lt_succ_iff.1 (List.mem_range.1 hm)
  · rw [if_neg hm]
    constructor
    · intro hsome
      cases hsome
    · intro hle
      exact absurd (List.mem_range.2 (Nat.lt_succ_iff.2 hle)) hm

/-- A generated ValidateWithPath whose labels are 0, 1, ..., k for k + 1 the number of labels
accepts exactly the values up to k, among them 0 and any constants below the number of labels. -/
theorem validate_contiguous (labels consts : List Nat)
    (hl : labels = List.range labels.length) (hpos : 0 < labels.length)
    (hc : ∀ c ∈ consts, c < labels.length) :
    ∃ n : Nat,
      (∀ (v : Nat) (path : string),
        (if v ∈ labels then (none : error) else some (errorfOutOfRange path v)) = none ↔ v ≤ n) ∧
      (∀ path : string,
        (if 0 ∈ labels then (none : error) else some (errorfOutOfRange path 0)) = none) ∧
      (∀ c ∈ consts, ∀ path : string,
        (if c ∈ labels then (none : error) else some (errorfOutOfRange path c)) = none) := by
  obtain ⟨k, hk⟩ : ∃ k, labels.length = k + 1 := ⟨labels.length - 1, by omega⟩
  have key := validate_none_iff labels k (by rw [← hk]; exact hl)
  refine ⟨k, key, fun path => (key 0 path).2 (Nat.zero_le k), fun c hmem path => ?_⟩
  have hlt := hc c hmem
  exact (key c path).2 (by omega)

/-! ## Facts about the case tables, by evaluation -/

/-- Each ST_Border label of MarshalXMLAttr selects a token that UnmarshalXMLAttr maps back. -/
theorem ST_Border_attr_cases_inverse :
    ∀ o, o < 194 → ∃ tok ∈ switchCase o ST_Border.MarshalXMLAttr.cases,
      switchCase tok ST_Border.UnmarshalXMLAttr.cases = some o := by
  decide!

/-- The labels of the switch in ST_Border.MarshalXMLAttr are 0, ..., 193 in order. -/
theorem ST_Border_marshal_labels :
    ST_Border.MarshalXMLAttr.cases.map Prod.fst = List.range 194 := by
  decide!

/-- The labels of the switch in ST_Border.String are 0, ..., 193 in order. -/
theorem ST_Border_string_labels :
    ST_Border.String.cases.map Prod.fst = List.range 194 := by
  decide!

/-- Among the ST_Border labels of MarshalXMLAttr only 0 selects the empty string. -/
theorem ST_Border_marshal_tokens :
    ∀ o, o < 194 → ∃ tok ∈ switchCase o ST_Border.MarshalXMLAttr.cases, (tok = "" ↔ o = 0) := by
  decide!

/-- Among the ST_Border labels of String only 0 returns the empty string. -/
theorem ST_Border_string_tokens :
    ∀ o, o < 194 → ∃ tok ∈ switchCase o ST_Border.String.cases, (tok = "" ↔ o = 0) := by
  decide!

/-- Each label of ST_NumberFormat.UnmarshalXMLAttr stores an ordinal that MarshalXMLAttr
maps back to the label. -/
theorem ST_NumberFormat_attr_cases_inverse :
    ∀ s ∈ ST_NumberFormat.UnmarshalXMLAttr.cases.map Prod.fst,
      ∃ o ∈ switchCase s ST_NumberFormat.UnmarshalXMLAttr.cases,
        switchCase o ST_NumberFormat.MarshalXMLAttr.cases = some s := by
  decide!

/-- A case selected by a switch is one of its cases. -/
theorem switchCase_some_mem {α β : Type} [DecidableEq α] (tag : α) (cases : List (α × β))
    (v : β) (h : switchCase tag cases = some v) : (tag, v) ∈ cases := by
  induction cases with
  | nil => cases h
  | cons c rest ih =>
    obtain ⟨label, body⟩ := c
    by_cases hl : tag = label
    · simp only [switchCase, if_pos hl, Option.some.injEq] at h
      rw [hl, h]
      exact List.mem_cons_self _ _
    · simp only [switchCase, if_neg hl] at h
      exact List.mem_cons_of_mem _ (ih h)

/-- Every value stored by a case of ST_Border.UnmarshalXMLAttr is at most 193. -/
theorem ST_Border_unmarshal_values :
    ∀ c ∈ ST_Border.UnmarshalXMLAttr.cases, c.2 ≤ 193 := by
  decide!

/-- The switch of ST_Border.UnmarshalXML has the cases of the switch of UnmarshalXMLAttr. -/
theorem ST_Border_element_cases :
    ST_Border.UnmarshalXML.cases = ST_Border.UnmarshalXMLAttr.cases := by
  decide!

/-! ## Claims -/

/-- C1: for every ST_Border ordinal o in 0..193, every prior receiver value r and every
attribute name, UnmarshalXMLAttr applied to the attribute returned by MarshalXMLAttr of o
leaves the receiver equal to o and returns no error. -/
theorem ST_Border_unmarshal_marshal_attr (o r : ST_Border) (name : xml.Name) (h : o ≤ 193) :
    ST_Border.UnmarshalXMLAttr r (ST_Border.MarshalXMLAttr o name).1 = (o, none) := by
  obtain ⟨tok, h1, h2⟩ := ST_Border_attr_cases_inverse o (Nat.lt_succ_of_le h)
  simp only [ST_Border.MarshalXMLAttr, ST_Border.UnmarshalXMLAttr, Option.mem_def.1 h1, h2]

/-- Witness for C1 at the ordinal 193 with the receiver holding 7 before the call. -/
theorem ST_Border_unmarshal_marshal_attr_witness :
    (193 : ST_Border) ≤ 193 ∧
    ST_Border.UnmarshalXMLAttr 7 (ST_Border.MarshalXMLAttr 193 ⟨"w", "val"⟩).1 = (193, none) :=
  ⟨Nat.le_refl 193, ST_Border_unmarshal_marshal_attr 193 7 ⟨"w", "val"⟩ (Nat.le_refl 193)⟩

/-- C2: for every string s among the labels of ST_NumberFormat.UnmarshalXMLAttr (the empty
string and the 63 named tokens), decoding s from any prior receiver value and encoding the
resulting ordinal with MarshalXMLAttr gives an attribute whose Value is s. -/
theorem ST_NumberFormat_marshal_unmarshal_attr (s : string) (r : ST_NumberFormat)
    (inName outName : xml.Name)
    (h : s ∈ ST_NumberFormat.UnmarshalXMLAttr.cases.map Prod.fst) :
    (ST_NumberFormat.MarshalXMLAttr
      (ST_NumberFormat.UnmarshalXMLAttr r ⟨inName, s⟩).1 outName).1.Value = s := by
  obtain ⟨o, h1, h2⟩ := ST_NumberFormat_attr_cases_inverse s h
  simp only [ST_NumberFormat.MarshalXMLAttr, ST_NumberFormat.UnmarshalXMLAttr,
    Option.mem_def.1 h1, h2]

/-- Witness for C2 at the token "decimalZero", the receiver holding 9 before the call. -/
theorem ST_NumberFormat_marshal_unmarshal_attr_witness :
    "decimalZero" ∈ ST_NumberFormat.UnmarshalXMLAttr.cases.map Prod.fst ∧
    (ST_NumberFormat.MarshalXMLAttr
      (ST_NumberFormat.UnmarshalXMLAttr 9 ⟨⟨"", "fmt"⟩, "decimalZero"⟩).1 ⟨"", "fmt"⟩).1.Value
      = "decimalZero" :=
  ⟨by decide, ST_NumberFormat_marshal_unmarshal_attr "decimalZero" 9 ⟨"", "fmt"⟩ ⟨"", "fmt"⟩
    (by decide)⟩

/-- C3: ST_HeightRule implements the table 0 "", 1 "auto", 2 "exact", 3 "atLeast": from any
prior receiver value UnmarshalXMLAttr maps each token to its ordinal (in particular "exact" to
2 and "" to 0), MarshalXMLAttr maps each ordinal to its token (in particular 2 to "exact" and 0
to ""), Validate accepts exactly 0..3 (in particular 2), and Validate of 4 returns the
out-of-range error that reports the value 4. -/
theorem ST_HeightRule_table (r : ST_HeightRule) (name : xml.Name) :
    (ST_HeightRule.UnmarshalXMLAttr r ⟨name, "exact"⟩ = (2, none) ∧
     ST_HeightRule.UnmarshalXMLAttr r ⟨name, ""⟩ = (0, none) ∧
     ST_HeightRule.UnmarshalXMLAttr r ⟨name, "auto"⟩ = (1, none) ∧
     ST_HeightRule.UnmarshalXMLAttr r ⟨name, "atLeast"⟩ = (3, none)) ∧
    ((ST_HeightRule.MarshalXMLAttr 2 name).1.Value = "exact" ∧
     (ST_HeightRule.MarshalXMLAttr 0 name).1.Value = "" ∧
     (ST_HeightRule.MarshalXMLAttr 1 name).1.Value = "auto" ∧
     (ST_HeightRule.MarshalXMLAttr 3 name).1.Value = "atLeast") ∧
    (ST_HeightRule.Validate 2 = none ∧
     ST_HeightRule.Validate 4 = some ": out of range value 4" ∧
     ∀ m : ST_HeightRule, ST_HeightRule.Validate m = none ↔ m ≤ 3) := by
  refine ⟨⟨rfl, rfl, rfl, rfl⟩, ⟨rfl, rfl, rfl, rfl⟩, by decide, by decide, fun m => ?_⟩
  exact validate_none_iff _ 3 (by decide) m ""

/-- C4: for every value v and every path, ST_Underline.ValidateWithPath returns nil if and
only if v is at most 18; the declared constants are exactly 0..18, and 255 is rejected. -/
theorem ST_Underline_validate_iff (v : ST_Underline) (path : string) :
    (ST_Underline.ValidateWithPath v path = none ↔ v ≤ 18) ∧
    ST_Underline.constants = List.range 19 ∧
    ST_Underline.ValidateWithPath 255 path ≠ none := by
  have key : ∀ w : ST_Underline, ST_Underline.ValidateWithPath w path = none ↔ w ≤ 18 :=
    fun w => validate_none_iff _ 18 (by decide) w path
  refine ⟨key v, by decide, fun h255 => ?_⟩
  exact absurd ((key 255).1 h255) (by decide)

/-- C5: for every path p and every ST_Border value v from 194 on (the byte values 194..255),
ValidateWithPath returns an error whose text is p, then ": out of range value ", then v in
decimal: the reported value is the input and the path is the prefix, verbatim. -/
theorem ST_Border_validate_out_of_range (p : string) (v : ST_Border) (hlo : 194 ≤ v) :
    ST_Border.ValidateWithPath v p = some (p ++ ": out of range value " ++ Nat.repr v) := by
  have hv : v ∉ List.range (193 + 1) := by
    intro hmem
    exact absurd (List.mem_range.1 hmem) (Nat.not_lt.2 hlo)
  have hrange : ST_Border.ValidateWithPath v p
      = if v ∈ List.range (193 + 1) then none else some (errorfOutOfRange p v) := by
    unfold ST_Border.ValidateWithPath
    exact congrArg (fun l : List Nat => if v ∈ l then (none : error) else some (errorfOutOfRange p v))
      (by decide!)
  rw [hrange, if_neg hv]
  rfl

/-- Witness for C5 at the value 200 and the path "Body/P/PPr". -/
theorem ST_Border_validate_out_of_range_witness :
    (194 : ST_Border) ≤ 200 ∧
    ST_Border.ValidateWithPath 200 "Body/P/PPr" = some "Body/P/PPr: out of range value 200" :=
  ⟨by decide, (ST_Border_validate_out_of_range "Body/P/PPr" 200 (by decide)).trans (by decide)⟩

/-- C6, the claim as stated fails: with the receiver holding 2 (exact) before the call and the
unrecognised text "bogus", UnmarshalXMLAttr returns no error and the receiver still holds 2,
not the unset ordinal 0. -/
theorem ST_HeightRule_unmarshal_unknown_counterexample :
    ("bogus" ≠ "" ∧ "bogus" ≠ "auto" ∧ "bogus" ≠ "exact" ∧ "bogus" ≠ "atLeast") ∧
    ST_HeightRule.UnmarshalXMLAttr 2 ⟨⟨"", "hRule"⟩, "bogus"⟩ = (2, none) ∧
    (ST_HeightRule.UnmarshalXMLAttr 2 ⟨⟨"", "hRule"⟩, "bogus"⟩).1 ≠ 0 := by
  decide

/-- C6 as amended: for every string s that is not one of the tokens "", "auto", "exact",
"atLeast" and every value r the receiver held before the call, UnmarshalXMLAttr with Value s
returns no error and leaves the receiver equal to r; the receiver is therefore the unset
ordinal 0 afterwards exactly when it was 0 before. -/
theorem ST_HeightRule_unmarshal_unknown (s : string) (r : ST_HeightRule) (name : xml.Name)
    (h0 : s ≠ "") (h1 : s ≠ "auto") (h2 : s ≠ "exact") (h3 : s ≠ "atLeast") :
    ST_HeightRule.UnmarshalXMLAttr r ⟨name, s⟩ = (r, none) ∧
    ((ST_HeightRule.UnmarshalXMLAttr r ⟨name, s⟩).1 = 0 ↔ r = 0) := by
  have hnone : switchCase s ST_HeightRule.UnmarshalXMLAttr.cases = none := by
    apply switchCase_eq_none
    simp only [ST_HeightRule.UnmarshalXMLAttr.cases, List.map_cons, List.map_nil,
      List.mem_cons, List.mem_nil_iff, or_false, not_or]
    exact ⟨h0, h1, h2, h3⟩
  have hres : ST_HeightRule.UnmarshalXMLAttr r ⟨name, s⟩ = (r, none) := by
    simp only [ST_HeightRule.UnmarshalXMLAttr, hnone]
  exact ⟨hres, by rw [hres]⟩

/-- Witness for amended C6 at the text "bogus", once from a fresh receiver. -/
theorem ST_HeightRule_unmarshal_unknown_witness :
    ("bogus" ≠ "" ∧ "bogus" ≠ "auto" ∧ "bogus" ≠ "exact" ∧ "bogus" ≠ "atLeast") ∧
    ST_HeightRule.UnmarshalXMLAttr 0 ⟨⟨"", "hRule"⟩, "bogus"⟩ = (0, none) :=
  ⟨by decide, (ST_HeightRule_unmarshal_unknown "bogus" 0 ⟨"", "hRule"⟩
    (by decide) (by decide) (by decide) (by decide)).1⟩

/-- C7: for every value b, ST_Border.String of b, and likewise the Value of the attribute
MarshalXMLAttr returns for b, is the empty string if and only if b is the unset ordinal 0 or b
exceeds 193; so each of the 193 named members 1..193 has a non-empty token. -/
theorem ST_Border_empty_token_iff (b : ST_Border) (name : xml.Name) :
    (ST_Border.String b = "" ↔ (b = 0 ∨ 193 < b)) ∧
    ((ST_Border.MarshalXMLAttr b name).1.Value = "" ↔ (b = 0 ∨ 193 < b)) := by
  by_cases hb : b < 194
  · obtain ⟨tokS, hS, hSiff⟩ := ST_Border_string_tokens b hb
    obtain ⟨tokM, hM, hMiff⟩ := ST_Border_marshal_tokens b hb
    have hnot : ¬ 193 < b := Nat.not_lt.2 (Nat.le_of_lt_succ hb)
    constructor
    · simp only [ST_Border.String, Option.mem_def.1 hS, hSiff, hnot, or_false]
    · simp only [ST_Border.MarshalXMLAttr, Option.mem_def.1 hM, hMiff, hnot, or_false]
  · have hge : 194 ≤ b := Nat.le_of_not_lt hb
    have hS := switchCase_range_none _ 194 ST_Border_string_labels b hge
    have hM := switchCase_range_none _ 194 ST_Border_marshal_labels b hge
    have hgt : 193 < b := hge
    constructor
    · simp only [ST_Border.String, hS, hgt, or_true]
    · simp only [ST_Border.MarshalXMLAttr, hM, xml.Attr.zero, hgt, or_true]

/-- C8: for every value b and every name n, ST_Underline.MarshalXMLAttr returns a nil error
and an attribute whose Name is n. -/
theorem ST_Underline_marshal_attr_infallible (b : ST_Underline) (n : xml.Name) :
    (ST_Underline.MarshalXMLAttr b n).2 = none ∧ (ST_Underline.MarshalXMLAttr b n).1.Name = n := by
  refine ⟨rfl, ?_⟩
  unfold ST_Underline.MarshalXMLAttr
  cases switchCase b ST_Underline.MarshalXMLAttr.cases <;> rfl

/-- C10: for every string s, every prior receiver value r and every attribute name,
ST_Border.UnmarshalXMLAttr returns a nil error. -/
theorem ST_Border_unmarshal_attr_no_error (s : string) (r : ST_Border) (name : xml.Name) :
    (ST_Border.UnmarshalXMLAttr r ⟨name, s⟩).2 = none :=
  rfl

/-- C9: the registry lists the 85 byte-backed enumeration types of common.go, under 85 distinct
names, and for each of them the values accepted by ValidateWithPath are exactly 0, 1, ..., n for some n (whatever the
path), so that 0 is accepted; every constant declared for the type is accepted. -/
theorem enum_validate_contiguous :
    enumTypes.length = 85 ∧ (enumTypes.map EnumType.name).Nodup ∧
    ∀ t ∈ enumTypes, ∃ n : Nat,
      (∀ (v : Nat) (path : string), t.ValidateWithPath v path = none ↔ v ≤ n) ∧
      (∀ path : string, t.ValidateWithPath 0 path = none) ∧
      (∀ c ∈ t.constants, ∀ path : string, t.ValidateWithPath c path = none) := by
  refine ⟨by decide, by decide!, ?_⟩
  unfold enumTypes
  iterate 85
    refine List.forall_mem_cons.2 ⟨?_, ?_⟩
    · exact validate_contiguous _ _ (by decide!) (by decide!) (by decide!)
  intro t ht
  cases ht

/-- C11: for every string s, if the ST_Border receiver holds a value accepted by Validate
before UnmarshalXMLAttr, then the value it holds afterwards is accepted by Validate and is at
most 193. -/
theorem ST_Border_unmarshal_attr_preserves_valid (s : string) (r : ST_Border) (name : xml.Name)
    (h : ST_Border.Validate r = none) :
    ST_Border.Validate (ST_Border.UnmarshalXMLAttr r ⟨name, s⟩).1 = none ∧
    (ST_Border.UnmarshalXMLAttr r ⟨name, s⟩).1 ≤ 193 := by
  have hvalid : ∀ w : ST_Border, ST_Border.Validate w = none ↔ w ≤ 193 :=
    fun w => validate_none_iff _ 193 (by decide!) w ""
  have hle : (ST_Border.UnmarshalXMLAttr r ⟨name, s⟩).1 ≤ 193 := by
    cases hsw : switchCase s ST_Border.UnmarshalXMLAttr.cases with
    | none =>
      simp only [ST_Border.UnmarshalXMLAttr, hsw]
      exact (hvalid r).1 h
    | some v =>
      simp only [ST_Border.UnmarshalXMLAttr, hsw]
      exact ST_Border_unmarshal_values (s, v) (switchCase_some_mem _ _ _ hsw)
  exact ⟨(hvalid _).2 hle, hle⟩

/-- Witness for C11: a fresh receiver (zero value) decoding an unrecognised text. -/
theorem ST_Border_unmarshal_attr_preserves_valid_witness :
    ST_Border.Validate 0 = none ∧
    ST_Border.Validate (ST_Border.UnmarshalXMLAttr 0 ⟨⟨"", "val"⟩, "no such border"⟩).1 = none :=
  ⟨by decide, (ST_Border_unmarshal_attr_preserves_valid "no such border" 0 ⟨"", "val"⟩
    (by decide)).1⟩

/-- C12: for each ST_HeightRule token t among "auto", "exact", "atLeast", every prior receiver
value, every start element st and every remaining stream rest, UnmarshalXML on the stream
CharData(t), EndElement(st.Name), rest returns nil, leaves the receiver at the ordinal of t and
leaves the decoder at rest. -/
theorem ST_HeightRule_unmarshal_element (r : ST_HeightRule) (st : xml.StartElement)
    (rest : xml.Decoder) :
    ST_HeightRule.UnmarshalXML r
      (xml.Token.CharData "auto" :: xml.Token.EndElement ⟨st.Name⟩ :: rest) st = (1, rest, none) ∧
    ST_HeightRule.UnmarshalXML r
      (xml.Token.CharData "exact" :: xml.Token.EndElement ⟨st.Name⟩ :: rest) st = (2, rest, none) ∧
    ST_HeightRule.UnmarshalXML r
      (xml.Token.CharData "atLeast" :: xml.Token.EndElement ⟨st.Name⟩ :: rest) st
        = (3, rest, none) := by
  refine ⟨?_, ?_, ?_⟩ <;>
    simp [ST_HeightRule.UnmarshalXML, xml.Decoder.Token, ST_HeightRule.UnmarshalXML.cases,
      switchCase]

/-- C13: for every stream whose first token is not a CharData, ST_HeightRule.UnmarshalXML
returns the error "expected char data, got T" with T the type of the token, leaves the receiver
unchanged and leaves the decoder just past that token. -/
theorem ST_HeightRule_unmarshal_element_not_chardata (r : ST_HeightRule)
    (st : xml.StartElement) (tok : xml.Token) (rest : xml.Decoder)
    (h : ∀ cd : string, tok ≠ xml.Token.CharData cd) :
    ST_HeightRule.UnmarshalXML r (tok :: rest) st
      = (r, rest, some ("expected char data, got " ++ fmt.tokenT (some tok))) := by
  cases tok with
  | CharData cd => exact absurd rfl (h cd)
  | StartElement e => rfl
  | EndElement e => rfl
  | Comment data => rfl
  | ProcInst p => rfl
  | Directive data => rfl

/-- Witness for C13: the content of tag is a nested element child. -/
theorem ST_HeightRule_unmarshal_element_not_chardata_witness :
    (∀ cd : string, xml.Token.StartElement ⟨⟨"", "child"⟩, []⟩ ≠ xml.Token.CharData cd) ∧
    ST_HeightRule.UnmarshalXML 2
      [xml.Token.StartElement ⟨⟨"", "child"⟩, []⟩, xml.Token.EndElement ⟨⟨"", "child"⟩⟩,
       xml.Token.EndElement ⟨⟨"", "tag"⟩⟩] ⟨⟨"", "tag"⟩, []⟩
      = (2, [xml.Token.EndElement ⟨⟨"", "child"⟩⟩, xml.Token.EndElement ⟨⟨"", "tag"⟩⟩],
         some "expected char data, got xml.StartElement") :=
  ⟨fun _ hEq => xml.Token.noConfusion hEq,
   (ST_HeightRule_unmarshal_element_not_chardata 2 ⟨⟨"", "tag"⟩, []⟩
      (xml.Token.StartElement ⟨⟨"", "child"⟩, []⟩) _
      (fun _ hEq => xml.Token.noConfusion hEq)).trans (by decide)⟩

/-- C14: on a stream CharData(c), tok, rest the method ST_HeightRule.UnmarshalXML returns nil
if and only if tok is an EndElement whose Name has the Space and the Local of start.Name; when
the stream ends after the character data it returns a non-nil error. -/
theorem ST_HeightRule_unmarshal_element_close_tag (r : ST_HeightRule) (st : xml.StartElement)
    (c : string) (tok : xml.Token) (rest : xml.Decoder) :
    ((ST_HeightRule.UnmarshalXML r (xml.Token.CharData c :: tok :: rest) st).2.2 = none ↔
      ∃ el : xml.EndElement, tok = xml.Token.EndElement el ∧
        el.Name.Space = st.Name.Space ∧ el.Name.Local = st.Name.Local) ∧
    (ST_HeightRule.UnmarshalXML r [xml.Token.CharData c] st).2.2 ≠ none := by
  constructor
  · cases tok with
    | EndElement e =>
      by_cases hn : e.Name = st.Name
      · simp only [ST_HeightRule.UnmarshalXML, xml.Decoder.Token, if_pos hn, true_iff]
        exact ⟨e, rfl, by rw [hn], by rw [hn]⟩
      · simp only [ST_HeightRule.UnmarshalXML, xml.Decoder.Token, if_neg hn]
        constructor
        · intro hnone
          cases hnone
        · rintro ⟨el, hel, hs, hl⟩
          cases hel
          apply absurd _ hn
          cases hname : e.Name
          cases hst : st.Name
          rw [hname, hst] at hs hl
          simp only at hs hl
          rw [hs, hl]
    | StartElement e =>
      simp only [ST_HeightRule.UnmarshalXML, xml.Decoder.Token]
      constructor
      · intro hnone
        cases hnone
      · rintro ⟨el, hel, -⟩
        cases hel
    | CharData data =>
      simp only [ST_HeightRule.UnmarshalXML, xml.Decoder.Token]
      constructor
      · intro hnone
        cases hnone
      · rintro ⟨el, hel, -⟩
        cases hel
    | Comment data =>
      simp only [ST_HeightRule.UnmarshalXML, xml.Decoder.Token]
      constructor
      · intro hnone
        cases hnone
      · rintro ⟨el, hel, -⟩
        cases hel
    | ProcInst p =>
      simp only [ST_HeightRule.UnmarshalXML, xml.Decoder.Token]
      constructor
      · intro hnone
        cases hnone
      · rintro ⟨el, hel, -⟩
        cases hel
    | Directive data =>
      simp only [ST_HeightRule.UnmarshalXML, xml.Decoder.Token]
      constructor
      · intro hnone
        cases hnone
      · rintro ⟨el, hel, -⟩
        cases hel
  · simp [ST_HeightRule.UnmarshalXML, xml.Decoder.Token]

/-- C15: for every string s, every prior receiver value r, every start element st and every
attribute name, ST_Border.UnmarshalXML on the stream CharData(s), EndElement(st.Name) returns a
nil error, consumes both tokens, and leaves the receiver at the value that
ST_Border.UnmarshalXMLAttr with Value s leaves it at when started from the same r. -/
theorem ST_Border_unmarshal_element_eq_attr (s : string) (r : ST_Border)
    (st : xml.StartElement) (name : xml.Name) :
    ST_Border.UnmarshalXML r [xml.Token.CharData s, xml.Token.EndElement ⟨st.Name⟩] st
      = ((ST_Border.UnmarshalXMLAttr r ⟨name, s⟩).1, [], none) := by
  simp only [ST_Border.UnmarshalXML, ST_Border.UnmarshalXMLAttr, xml.Decoder.Token,
    ST_Border_element_cases, if_true]

/-- C16, evaluated: MarshalXML of the unset member 0 emits an element without content, and
UnmarshalXML applied to the tokens after the start tag returns the error "expected char data,
got xml.EndElement" with the receiver unchanged; for the named members 1, 2, 3 the same round
trip returns nil and leaves the receiver at the member. -/
theorem ST_HeightRule_element_round_trip (r : ST_HeightRule) (start : xml.StartElement) :
    (ST_HeightRule.MarshalXML 0 start).1
      = [xml.Token.StartElement start, xml.Token.EndElement ⟨start.Name⟩] ∧
    ST_HeightRule.UnmarshalXML r (ST_HeightRule.MarshalXML 0 start).1.tail start
      = (r, [], some "expected char data, got xml.EndElement") ∧
    ST_HeightRule.UnmarshalXML r (ST_HeightRule.MarshalXML 1 start).1.tail start
      = (1, [], none) ∧
    ST_HeightRule.UnmarshalXML r (ST_HeightRule.MarshalXML 2 start).1.tail start
      = (2, [], none) ∧
    ST_HeightRule.UnmarshalXML r (ST_HeightRule.MarshalXML 3 start).1.tail start
      = (3, [], none) := by
  refine ⟨rfl, rfl, ?_, ?_, ?_⟩ <;>
    simp [ST_HeightRule.UnmarshalXML, ST_HeightRule.MarshalXML, xml.EncodeElement,
      ST_HeightRule.String, ST_HeightRule.String.cases, xml.Decoder.Token,
      ST_HeightRule.UnmarshalXML.cases, switchCase]

end wordprocessingml

/-! ## Lemmas on the validator statements -/

/-- Outcome of a child check through a non-nil pointer: the error of the child when it is not
nil, the outcome of the rest of the body otherwise. -/
theorem checkChild_some_outcome (field : string) (obj : SchemaObject) (p : string)
    (rest : ValidateRun) (e : error) (h : rest.outcome = Outcome.returned e) :
    (checkChild field (some obj) p rest).outcome
      = Outcome.returned (obj.ValidateWithPath p <|> e) := by
  cases hv : obj.ValidateWithPath p with
  | none => simp [checkChild, hv, h]
  | some msg => simp [checkChild, hv, ValidateRun.ret]

/-- Outcome of a guarded child check: a nil pointer contributes nothing. -/
theorem checkChildIfPresent_outcome (field : string) (c : Option SchemaObject) (p : string)
    (rest : ValidateRun) (e : error) (h : rest.outcome = Outcome.returned e) :
    (checkChildIfPresent field c p rest).outcome
      = Outcome.returned ((c.bind fun obj => obj.ValidateWithPath p) <|> e) := by
  cases c with
  | none => simp [checkChildIfPresent, h]
  | some obj =>
    simp only [checkChildIfPresent, Option.isSome_some, if_true, Option.some_bind]
    exact checkChild_some_outcome field obj p rest e h

/-- A guarded check of a present child reports no error exactly when the child reports none. -/
theorem bind_validate_eq_none (c : Option SchemaObject) (p : string) :
    (c.bind fun obj => obj.ValidateWithPath p) = none ↔
      ∀ obj : SchemaObject, c = some obj → obj.ValidateWithPath p = none := by
  cases c with
  | none => simp
  | some obj => simp

namespace pml

/-- C17: with the three children of a CT_ConnectorNonVisual non-nil and their validators
arbitrary, ValidateWithPath(p) returns the first non-nil result, in this order, of the CNvPr
validator on p/CNvPr, the CNvCxnSpPr validator on p/CNvCxnSpPr and the NvPr validator on
p/NvPr; it returns nil iff all three are nil; the validators invoked are those up to and
including the first that fails, on exactly these paths; Validate() is
ValidateWithPath("CT_ConnectorNonVisual"). -/
theorem CT_ConnectorNonVisual_validate_first_error (c₁ : dml.CT_NonVisualDrawingProps)
    (c₂ : dml.CT_NonVisualConnectorProperties) (c₃ : CT_ApplicationNonVisualDrawingProps)
    (p : string) :
    (CT_ConnectorNonVisual.ValidateWithPath ⟨some c₁, some c₂, some c₃⟩ p).outcome
      = Outcome.returned
          (if c₁.ValidateWithPath (p ++ "/CNvPr") ≠ none then c₁.ValidateWithPath (p ++ "/CNvPr")
           else if c₂.ValidateWithPath (p ++ "/CNvCxnSpPr") ≠ none
             then c₂.ValidateWithPath (p ++ "/CNvCxnSpPr")
           else c₃.ValidateWithPath (p ++ "/NvPr")) ∧
    ((CT_ConnectorNonVisual.ValidateWithPath ⟨some c₁, some c₂, some c₃⟩ p).outcome
        = Outcome.returned none ↔
      c₁.ValidateWithPath (p ++ "/CNvPr") = none ∧
      c₂.ValidateWithPath (p ++ "/CNvCxnSpPr") = none ∧
      c₃.ValidateWithPath (p ++ "/NvPr") = none) ∧
    (CT_ConnectorNonVisual.ValidateWithPath ⟨some c₁, some c₂, some c₃⟩ p).calls
      = (if c₁.ValidateWithPath (p ++ "/CNvPr") ≠ none then [⟨"CNvPr", p ++ "/CNvPr"⟩]
         else if c₂.ValidateWithPath (p ++ "/CNvCxnSpPr") ≠ none
           then [⟨"CNvPr", p ++ "/CNvPr"⟩, ⟨"CNvCxnSpPr", p ++ "/CNvCxnSpPr"⟩]
         else [⟨"CNvPr", p ++ "/CNvPr"⟩, ⟨"CNvCxnSpPr", p ++ "/CNvCxnSpPr"⟩,
               ⟨"NvPr", p ++ "/NvPr"⟩]) ∧
    CT_ConnectorNonVisual.Validate ⟨some c₁, some c₂, some c₃⟩
      = CT_ConnectorNonVisual.ValidateWithPath ⟨some c₁, some c₂, some c₃⟩
          "CT_ConnectorNonVisual" := by
  refine ⟨?_, ?_, ?_, rfl⟩
  · cases h₁ : c₁.ValidateWithPath (p ++ "/CNvPr") <;>
      cases h₂ : c₂.ValidateWithPath (p ++ "/CNvCxnSpPr") <;>
      cases h₃ : c₃.ValidateWithPath (p ++ "/NvPr") <;>
      simp [CT_ConnectorNonVisual.ValidateWithPath, checkChild, ValidateRun.ret, h₁, h₂, h₃]
  · cases h₁ : c₁.ValidateWithPath (p ++ "/CNvPr") <;>
      cases h₂ : c₂.ValidateWithPath (p ++ "/CNvCxnSpPr") <;>
      cases h₃ : c₃.ValidateWithPath (p ++ "/NvPr") <;>
      simp [CT_ConnectorNonVisual.ValidateWithPath, checkChild, ValidateRun.ret, h₁, h₂, h₃]
  · cases h₁ : c₁.ValidateWithPath (p ++ "/CNvPr") <;>
      cases h₂ : c₂.ValidateWithPath (p ++ "/CNvCxnSpPr") <;>
      cases h₃ : c₃.ValidateWithPath (p ++ "/NvPr") <;>
      simp [CT_ConnectorNonVisual.ValidateWithPath, checkChild, ValidateRun.ret, h₁, h₂, h₃]

end pml

namespace spreadsheetDrawing

/-- C18: for every EG_ObjectChoicesChoice and every path p, ValidateWithPath(p) never invokes a
validator through a nil pointer and returns the error of the first present child, in the order
Sp, GrpSp, GraphicFrame, CxnSp, Pic, ContentPart, whose validator fails on p/field, nil when
there is none; so it returns nil iff every present child returns nil, and the value built by
NewEG_ObjectChoicesChoice validates successfully without invoking any validator. -/
theorem EG_ObjectChoicesChoice_validate_present (m : EG_ObjectChoicesChoice) (p : string) :
    (EG_ObjectChoicesChoice.ValidateWithPath m p).outcome
      = Outcome.returned
          ((m.Sp.bind fun c => c.ValidateWithPath (p ++ "/Sp")) <|>
           ((m.GrpSp.bind fun c => c.ValidateWithPath (p ++ "/GrpSp")) <|>
            ((m.GraphicFrame.bind fun c => c.ValidateWithPath (p ++ "/GraphicFrame")) <|>
             ((m.CxnSp.bind fun c => c.ValidateWithPath (p ++ "/CxnSp")) <|>
              ((m.Pic.bind fun c => c.ValidateWithPath (p ++ "/Pic")) <|>
               (m.ContentPart.bind fun c => c.ValidateWithPath (p ++ "/ContentPart"))))))) ∧
    ((EG_ObjectChoicesChoice.ValidateWithPath m p).outcome = Outcome.returned none ↔
      (∀ c : CT_Shape, m.Sp = some c → c.ValidateWithPath (p ++ "/Sp") = none) ∧
      (∀ c : CT_GroupShape, m.GrpSp = some c → c.ValidateWithPath (p ++ "/GrpSp") = none) ∧
      (∀ c : CT_GraphicalObjectFrame, m.GraphicFrame = some c →
        c.ValidateWithPath (p ++ "/GraphicFrame") = none) ∧
      (∀ c : CT_Connector, m.CxnSp = some c → c.ValidateWithPath (p ++ "/CxnSp") = none) ∧
      (∀ c : CT_Picture, m.Pic = some c → c.ValidateWithPath (p ++ "/Pic") = none) ∧
      (∀ c : CT_Rel, m.ContentPart = some c →
        c.ValidateWithPath (p ++ "/ContentPart") = none)) ∧
    EG_ObjectChoicesChoice.ValidateWithPath NewEG_ObjectChoicesChoice p
      = { calls := [], outcome := Outcome.returned none } ∧
    EG_ObjectChoicesChoice.Validate NewEG_ObjectChoicesChoice
      = { calls := [], outcome := Outcome.returned none } := by
  have hout : (EG_ObjectChoicesChoice.ValidateWithPath m p).outcome
      = Outcome.returned
          ((m.Sp.bind fun c => c.ValidateWithPath (p ++ "/Sp")) <|>
           ((m.GrpSp.bind fun c => c.ValidateWithPath (p ++ "/GrpSp")) <|>
            ((m.GraphicFrame.bind fun c => c.ValidateWithPath (p ++ "/GraphicFrame")) <|>
             ((m.CxnSp.bind fun c => c.ValidateWithPath (p ++ "/CxnSp")) <|>
              ((m.Pic.bind fun c => c.ValidateWithPath (p ++ "/Pic")) <|>
               ((m.ContentPart.bind fun c => c.ValidateWithPath (p ++ "/ContentPart")) <|>
                none)))))) := by
    unfold EG_ObjectChoicesChoice.ValidateWithPath
    apply checkChildIfPresent_outcome
    apply checkChildIfPresent_outcome
    apply checkChildIfPresent_outcome
    apply checkChildIfPresent_outcome
    apply checkChildIfPresent_outcome
    apply checkChildIfPresent_outcome
    rfl
  have hnone : ∀ x : error, (x <|> none) = x := by
    intro x
    cases x <;> rfl
  rw [hnone] at hout
  refine ⟨hout, ?_, rfl, rfl⟩
  rw [hout]
  simp only [Outcome.returned.injEq, Option.orElse_eq_none, ← bind_validate_eq_none]

end spreadsheetDrawing

namespace wml

/-- C19: CT_SectPrChange.ValidateWithPath(p) returns nil, invoking nothing, when SectPr is nil,
whatever AuthorAttr, DateAttr and IdAttr hold; otherwise it invokes the validator of SectPr on
p/SectPr, once, and returns exactly its result. Validate() is
ValidateWithPath("CT_SectPrChange"), which invokes the child on CT_SectPrChange/SectPr. -/
theorem CT_SectPrChange_validate_sectPr (author : string) (date : Option time.Time) (id : Int)
    (c : CT_SectPrBase) (sectPr : Option CT_SectPrBase) (p : string) :
    CT_SectPrChange.ValidateWithPath ⟨author, date, id, none⟩ p
      = { calls := [], outcome := Outcome.returned none } ∧
    CT_SectPrChange.ValidateWithPath ⟨author, date, id, some c⟩ p
      = { calls := [⟨"SectPr", p ++ "/SectPr"⟩],
          outcome := Outcome.returned (c.ValidateWithPath (p ++ "/SectPr")) } ∧
    CT_SectPrChange.Validate ⟨author, date, id, sectPr⟩
      = CT_SectPrChange.ValidateWithPath ⟨author, date, id, sectPr⟩ "CT_SectPrChange" ∧
    CT_SectPrChange.Validate ⟨author, date, id, some c⟩
      = { calls := [⟨"SectPr", "CT_SectPrChange/SectPr"⟩],
          outcome := Outcome.returned (c.ValidateWithPath "CT_SectPrChange/SectPr") } := by
  have hsome : ∀ q : string, CT_SectPrChange.ValidateWithPath ⟨author, date, id, some c⟩ q
      = { calls := [⟨"SectPr", q ++ "/SectPr"⟩],
          outcome := Outcome.returned (c.ValidateWithPath (q ++ "/SectPr")) } := by
    intro q
    cases hv : c.ValidateWithPath (q ++ "/SectPr") <;>
      simp [CT_SectPrChange.ValidateWithPath, checkChildIfPresent, checkChild,
        ValidateRun.ret, hv]
  exact ⟨rfl, hsome p, rfl, hsome "CT_SectPrChange"⟩

end wml

namespace vml

/-- C20: Textbox.ValidateWithPath(p) invokes the validator of the embedded CT_Textbox once, on
the path p itself, and returns exactly its result; Textbox.Validate() returns what the embedded
validator returns on the path "Textbox". -/
theorem Textbox_validate_embedded (m : Textbox) (p : string) :
    Textbox.ValidateWithPath m p
      = { calls := [⟨"CT_Textbox", p⟩],
          outcome := Outcome.returned (m.CT_Textbox.ValidateWithPath p) } ∧
    Textbox.Validate m
      = { calls := [⟨"CT_Textbox", "Textbox"⟩],
          outcome := Outcome.returned (m.CT_Textbox.ValidateWithPath "Textbox") } := by
  have hrun : ∀ q : string, Textbox.ValidateWithPath m q
      = { calls := [⟨"CT_Textbox", q⟩],
          outcome := Outcome.returned (m.CT_Textbox.ValidateWithPath q) } := by
    intro q
    cases hv : m.CT_Textbox.ValidateWithPath q <;>
      simp [Textbox.ValidateWithPath, checkChild, ValidateRun.ret, hv]
  exact ⟨hrun p, hrun "Textbox"⟩

end vml

/-! ## Lemmas on strconv.ParseUint and strconv.ParseInt -/

namespace strconv

theorem digit_value_le (c : Char) (h : '0' ≤ c ∧ c ≤ '9') : c.toNat - '0'.toNat ≤ 9 := by
  have h9 : c.toNat ≤ '9'.toNat := h.2
  have e9 : '9'.toNat = 57 := by decide
  have e0 : '0'.toNat = 48 := by decide
  omega

theorem decimalDigitsValue_cons (n : Nat) (c : Char) (cs : List Char) :
    decimalDigitsValue n (c :: cs) = decimalDigitsValue (10 * n + (c.toNat - '0'.toNat)) cs :=
  rfl

theorem le_decimalDigitsValue (cs : List Char) (n : Nat) : n ≤ decimalDigitsValue n cs := by
  induction cs generalizing n with
  | nil => exact Nat.le_refl n
  | cons c cs ih =>
    rw [decimalDigitsValue_cons]
    have := ih (10 * n + (c.toNat - '0'.toNat))
    omega

/-- The loop of ParseUint returns the value of the digits when all characters are digits and
the value does not exceed maxVal. -/
theorem ParseUint_loop_ok (maxVal : Nat) (s0 : string) (hmax : maxVal ≤ maxUint64)
    (cs : List Char) (n : Nat) (hd : ∀ c ∈ cs, '0' ≤ c ∧ c ≤ '9')
    (hv : decimalDigitsValue n cs ≤ maxVal) :
    ParseUint.loop maxVal s0 cs n = (decimalDigitsValue n cs, none) := by
  induction cs generalizing n with
  | nil => rfl
  | cons c cs ih =>
    have hc := hd c (List.mem_cons_self _ _)
    have hd9 := digit_value_le c hc
    rw [decimalDigitsValue_cons] at hv ⊢
    have hge := le_decimalDigitsValue cs (10 * n + (c.toNat - '0'.toNat))
    have hmu : maxUint64 = 18446744073709551615 := rfl
    have hn : ¬ n ≥ maxUint64 / 10 + 1 := by
      rw [hmu]
      omega
    have h10 : (n * 10) % 2 ^ 64 = n * 10 := by
      apply Nat.mod_eq_of_lt
      rw [hmu] at hmax
      omega
    have h1 : (n * 10 + (c.toNat - '0'.toNat)) % 2 ^ 64 = 10 * n + (c.toNat - '0'.toNat) := by
      rw [Nat.mul_comm]
      apply Nat.mod_eq_of_lt
      rw [hmu] at hmax
      omega
    have hnot : ¬ (10 * n + (c.toNat - '0'.toNat) < n * 10 ∨
        10 * n + (c.toNat - '0'.toNat) > maxVal) := by
      omega
    simp only [ParseUint.loop, hc, and_self, if_true, hn, if_false, h10, h1, hnot]
    exact ih (10 * n + (c.toNat - '0'.toNat)) (fun x hx => hd x (List.mem_cons_of_mem _ hx)) hv

/-- The loop of ParseUint returns an error when some character is not a digit or the value
exceeds maxVal; with a range error the value returned is maxVal. -/
theorem ParseUint_loop_err (maxVal : Nat) (s0 : string) (cs : List Char) (n : Nat)
    (h : ¬ ((∀ c ∈ cs, '0' ≤ c ∧ c ≤ '9') ∧ decimalDigitsValue n cs ≤ maxVal))
    (hn : n ≤ maxVal) :
    ∃ e : NumError, (ParseUint.loop maxVal s0 cs n).2 = some e ∧
      (e.Err = ErrKind.ErrRange → (ParseUint.loop maxVal s0 cs n).1 = maxVal) := by
  induction cs generalizing n with
  | nil =>
    exfalso
    apply h
    exact ⟨fun c hc => absurd hc (List.not_mem_nil c), hn⟩
  | cons c cs ih =>
    by_cases hc : '0' ≤ c ∧ c ≤ '9'
    · have hd9 := digit_value_le c hc
      have hmu : maxUint64 = 18446744073709551615 := rfl
      by_cases hcut : n ≥ maxUint64 / 10 + 1
      · simp only [ParseUint.loop, hc, and_self, if_true, hcut]
        exact ⟨_, rfl, fun _ => by trivial⟩
      · have h10 : (n * 10) % 2 ^ 64 = n * 10 := by
          apply Nat.mod_eq_of_lt
          rw [hmu] at hcut
          omega
        by_cases hov : (n * 10 + (c.toNat - '0'.toNat)) % 2 ^ 64 < n * 10 ∨
            (n * 10 + (c.toNat - '0'.toNat)) % 2 ^ 64 > maxVal
        · simp only [ParseUint.loop, hc, and_self, if_true, hcut, if_false, h10, hov]
          exact ⟨_, rfl, fun _ => by trivial⟩
        · simp only [ParseUint.loop, hc, and_self, if_true, hcut, if_false, h10, hov]
          have hlt : n * 10 + (c.toNat - '0'.toNat) < 2 ^ 64 := by
            by_contra hge
            apply hov
            left
            have hsub : (n * 10 + (c.toNat - '0'.toNat)) % 2 ^ 64
                = n * 10 + (c.toNat - '0'.toNat) - 2 ^ 64 := by
              rw [Nat.mod_eq_sub_mod (Nat.le_of_not_lt hge)]
              apply Nat.mod_eq_of_lt
              rw [hmu] at hcut
              omega
            rw [hsub]
            rw [hmu] at hcut
            omega
          have h1 : (n * 10 + (c.toNat - '0'.toNat)) % 2 ^ 64
              = 10 * n + (c.toNat - '0'.toNat) := by
            rw [Nat.mod_eq_of_lt hlt, Nat.mul_comm]
          rw [h1] at hov ⊢
          apply ih
          · intro hall
            apply h
            refine ⟨?_, ?_⟩
            · intro x hx
              rcases List.mem_cons.1 hx with rfl | hx
              · exact hc
              · exact hall.1 x hx
            · rw [decimalDigitsValue_cons]
              exact hall.2
          · omega
    · simp only [ParseUint.loop, hc, if_false]
      exact ⟨_, rfl, fun hk => by cases hk⟩

theorem pow_bitSize_le (b : Nat) (hb : b ≤ 64) : 2 ^ b - 1 ≤ maxUint64 := by
  have h : 2 ^ b ≤ 2 ^ 64 := Nat.pow_le_pow_right (by decide) hb
  have hmu : maxUint64 = 18446744073709551615 := rfl
  have h64 : (2 : Nat) ^ 64 = 18446744073709551616 := by norm_num
  omega

theorem string_eq_empty_iff (s : string) : s = "" ↔ s.data = [] := by
  constructor
  · intro h
    rw [h]
  · intro h
    cases s
    simp only at h
    rw [h]

/-- ParseUint succeeds on a natural literal whose value fits the bit size. -/
theorem ParseUint_ok (s : string) (b : Nat) (hb : b ≤ 64) (v : Nat)
    (hlit : decimalNatLiteral s.data = some v) (hv : v ≤ 2 ^ b - 1) :
    ParseUint s b = (v, none) := by
  unfold decimalNatLiteral at hlit
  split at hlit
  · rename_i hcond
    simp only [Option.some.injEq] at hlit
    have hne : ¬ s = "" := fun h => hcond.1 ((string_eq_empty_iff s).1 h)
    rw [ParseUint, if_neg hne, ← hlit]
    apply ParseUint_loop_ok _ _ (pow_bitSize_le b hb) _ _ hcond.2
    rw [hlit]
    exact hv
  · cases hlit

/-- ParseUint fails on anything else; with a range error it returns the largest value of the
bit size. -/
theorem ParseUint_err (s : string) (b : Nat)
    (h : ¬ ∃ v, decimalNatLiteral s.data = some v ∧ v ≤ 2 ^ b - 1) :
    ∃ e : NumError, (ParseUint s b).2 = some e ∧
      (e.Err = ErrKind.ErrRange → (ParseUint s b).1 = 2 ^ b - 1) := by
  by_cases hs : s = ""
  · rw [ParseUint, if_pos hs]
    exact ⟨_, rfl, fun hk => by cases hk⟩
  · rw [ParseUint, if_neg hs]
    apply ParseUint_loop_err
    · intro hall
      apply h
      refine ⟨decimalDigitsValue 0 s.data, ?_, hall.2⟩
      unfold decimalNatLiteral
      rw [if_pos]
      exact ⟨fun hnil => hs ((string_eq_empty_iff s).2 hnil), hall.1⟩
    · exact Nat.zero_le _

end strconv

namespace strconv

/-- What ParseInt makes of the result of ParseUint on the digits: the case analysis at its
end, for a negative (neg) or non-negative input. -/
theorem ParseInt_cons (c : Char) (ds : List Char) (b : Nat) :
    ParseInt ⟨c :: ds⟩ b =
      (match ParseUint (if c = '+' then ⟨ds⟩ else if c = '-' then ⟨ds⟩ else ⟨c :: ds⟩) b with
       | (_, some { Func := _, Num := _, Err := ErrKind.ErrSyntax }) =>
         (0, some { Func := "ParseInt", Num := ⟨c :: ds⟩, Err := ErrKind.ErrSyntax })
       | (un, _) =>
         if !(decide (c = '-')) ∧ un ≥ 2 ^ (b - 1) then
           (Int.ofNat (2 ^ (b - 1) - 1), some (rangeError "ParseInt" ⟨c :: ds⟩))
         else if decide (c = '-') ∧ un > 2 ^ (b - 1) then
           (- Int.ofNat (2 ^ (b - 1)), some (rangeError "ParseInt" ⟨c :: ds⟩))
         else if decide (c = '-') then (- Int.ofNat un, none)
         else (Int.ofNat un, none)) := by
  have hne : ¬ (⟨c :: ds⟩ : string) = "" := by
    intro h
    have := (string_eq_empty_iff _).1 h
    cases this
  simp only [ParseInt, if_neg hne, List.head?_cons, Option.some.injEq, List.tail_cons]

/-- The end of ParseInt when ParseUint succeeded with the value un. -/
theorem ParseInt_cons_of_ok (c : Char) (ds : List Char) (b un : Nat)
    (h : ParseUint (if c = '+' then ⟨ds⟩ else if c = '-' then ⟨ds⟩ else ⟨c :: ds⟩) b
      = (un, none)) :
    ParseInt ⟨c :: ds⟩ b =
      (if !(decide (c = '-')) ∧ un ≥ 2 ^ (b - 1) then
         (Int.ofNat (2 ^ (b - 1) - 1), some (rangeError "ParseInt" ⟨c :: ds⟩))
       else if decide (c = '-') ∧ un > 2 ^ (b - 1) then
         (- Int.ofNat (2 ^ (b - 1)), some (rangeError "ParseInt" ⟨c :: ds⟩))
       else if decide (c = '-') then (- Int.ofNat un, none)
       else (Int.ofNat un, none)) := by
  rw [ParseInt_cons, h]

/-- The end of ParseInt when ParseUint failed: ParseInt fails too. -/
theorem ParseInt_cons_of_err (c : Char) (ds : List Char) (b : Nat) (hb : 2 ≤ b) (e : NumError)
    (h : (ParseUint (if c = '+' then ⟨ds⟩ else if c = '-' then ⟨ds⟩ else ⟨c :: ds⟩) b).2
      = some e)
    (hr : e.Err = ErrKind.ErrRange →
      (ParseUint (if c = '+' then ⟨ds⟩ else if c = '-' then ⟨ds⟩ else ⟨c :: ds⟩) b).1
        = 2 ^ b - 1) :
    (ParseInt ⟨c :: ds⟩ b).2 ≠ none := by
  rw [ParseInt_cons]
  cases hpu : ParseUint (if c = '+' then ⟨ds⟩ else if c = '-' then ⟨ds⟩ else ⟨c :: ds⟩) b with
  | mk un oe =>
    rw [hpu] at h hr
    simp only at h hr
    subst h
    obtain ⟨f, num, k⟩ := e
    cases k with
    | ErrSyntax =>
      simp only
      intro hnone
      cases hnone
    | ErrRange =>
      have hun : un = 2 ^ b - 1 := hr rfl
      have hpow : 2 ^ b = 2 * 2 ^ (b - 1) := by
        obtain ⟨k, rfl⟩ : ∃ k, b = k + 1 := ⟨b - 1, by omega⟩
        rw [Nat.add_sub_cancel, Nat.pow_succ, Nat.mul_comm]
      have hP : 2 ≤ 2 ^ (b - 1) := by
        obtain ⟨k, rfl⟩ : ∃ k, b = k + 2 := ⟨b - 2, by omega⟩
        have : 2 ^ (k + 2 - 1) = 2 * 2 ^ k := by
          rw [show k + 2 - 1 = k + 1 from rfl, Nat.pow_succ, Nat.mul_comm]
        have hk : 1 ≤ 2 ^ k := Nat.one_le_two_pow
        omega
      simp only
      by_cases hneg : c = '-'
      · have h2 : un > 2 ^ (b - 1) := by omega
        simp [hneg, h2]
      · have h1 : un ≥ 2 ^ (b - 1) := by omega
        simp [hneg, h1]

theorem decimalIntLiteral_plus (ds : List Char) :
    decimalIntLiteral ⟨'+' :: ds⟩ = (decimalNatLiteral ds).map fun n => Int.ofNat n := rfl

theorem decimalIntLiteral_minus (ds : List Char) :
    decimalIntLiteral ⟨'-' :: ds⟩ = (decimalNatLiteral ds).map fun n => - Int.ofNat n := rfl

theorem decimalIntLiteral_unsigned (c : Char) (ds : List Char) (hp : c ≠ '+') (hm : c ≠ '-') :
    decimalIntLiteral ⟨c :: ds⟩ = (decimalNatLiteral (c :: ds)).map fun n => Int.ofNat n := by
  unfold decimalIntLiteral
  split
  · rename_i heq
    simp only [List.cons.injEq] at heq
    exact absurd heq.1 hp
  · rename_i heq
    simp only [List.cons.injEq] at heq
    exact absurd heq.1 hm
  · rfl

theorem two_pow_pred (b : Nat) (hb : 2 ≤ b) : 2 ^ b = 2 * 2 ^ (b - 1) := by
  obtain ⟨k, rfl⟩ : ∃ k, b = k + 1 := ⟨b - 1, by omega⟩
  rw [Nat.add_sub_cancel, Nat.pow_succ, Nat.mul_comm]

/-- The three shapes of a non-empty input: the digits ParseInt hands to ParseUint, whether the
input is negative, and the literal value in terms of the natural literal of the digits. -/
theorem ParseInt_shape (c : Char) (ds : List Char) :
    ∃ (digits : List Char) (neg : Bool),
      (if c = '+' then (⟨ds⟩ : string) else if c = '-' then ⟨ds⟩ else ⟨c :: ds⟩) = ⟨digits⟩ ∧
      decide (c = '-') = neg ∧
      decimalIntLiteral ⟨c :: ds⟩
        = (decimalNatLiteral digits).map fun n => if neg then - Int.ofNat n else Int.ofNat n := by
  by_cases hp : c = '+'
  · subst hp
    exact ⟨ds, false, by simp, by decide, decimalIntLiteral_plus ds⟩
  · by_cases hm : c = '-'
    · subst hm
      exact ⟨ds, true, by simp, by decide, decimalIntLiteral_minus ds⟩
    · refine ⟨c :: ds, false, by simp [hp, hm], by simp [hm], ?_⟩
      exact decimalIntLiteral_unsigned c ds hp hm

/-- ParseInt succeeds with the value of the literal when the input is an optionally signed
base-10 integer literal whose value fits the signed bit size. -/
theorem ParseInt_ok (s : string) (b : Nat) (hb : 2 ≤ b) (hb64 : b ≤ 64) (v : Int)
    (hlit : decimalIntLiteral s = some v)
    (hlo : - (2 ^ (b - 1) : Int) ≤ v) (hhi : v < (2 ^ (b - 1) : Int)) :
    ParseInt s b = (v, none) := by
  obtain ⟨data⟩ := s
  cases data with
  | nil => cases hlit
  | cons c ds =>
    obtain ⟨digits, neg, hstrip, hneg, hshape⟩ := ParseInt_shape c ds
    rw [hshape] at hlit
    cases hnat : decimalNatLiteral digits with
    | none =>
      rw [hnat] at hlit
      cases hlit
    | some n =>
      rw [hnat] at hlit
      simp only [Option.map_some', Option.some.injEq] at hlit
      have hpow := two_pow_pred b hb
      have hcast : ((2 ^ (b - 1) : Nat) : Int) = (2 ^ (b - 1) : Int) := by push_cast; rfl
      have hn : n ≤ 2 ^ b - 1 := by
        cases neg <;> simp only [Bool.false_eq_true, if_false, if_true] at hlit <;>
          subst hlit <;> simp only [Int.ofNat_eq_coe] at hlo hhi <;> omega
      have hpu := ParseUint_ok ⟨digits⟩ b hb64 n hnat hn
      rw [← hstrip] at hpu
      rw [ParseInt_cons_of_ok c ds b n hpu, hneg]
      cases neg
      · simp only [Bool.false_eq_true, if_false] at hlit
        subst hlit
        simp only [Int.ofNat_eq_coe] at hhi
        have h1 : ¬ n ≥ 2 ^ (b - 1) := by omega
        simp [h1]
      · simp only [if_true] at hlit
        subst hlit
        simp only [Int.ofNat_eq_coe] at hlo
        have h1 : ¬ n > 2 ^ (b - 1) := by omega
        simp [h1]

/-- ParseInt fails on every input that is not an optionally signed base-10 integer literal
whose value fits the signed bit size. -/
theorem ParseInt_err (s : string) (b : Nat) (hb : 2 ≤ b) (hb64 : b ≤ 64)
    (h : ¬ ∃ v : Int, decimalIntLiteral s = some v ∧
      - (2 ^ (b - 1) : Int) ≤ v ∧ v < (2 ^ (b - 1) : Int)) :
    (ParseInt s b).2 ≠ none := by
  obtain ⟨data⟩ := s
  cases data with
  | nil =>
    intro hnone
    cases hnone
  | cons c ds =>
    obtain ⟨digits, neg, hstrip, hneg, hshape⟩ := ParseInt_shape c ds
    rw [hshape] at h
    have hpow := two_pow_pred b hb
    have hcast : ((2 ^ (b - 1) : Nat) : Int) = (2 ^ (b - 1) : Int) := by push_cast; rfl
    have hpos : 1 ≤ 2 ^ (b - 1) := Nat.one_le_two_pow
    by_cases hfit : ∃ n, decimalNatLiteral digits = some n ∧ n ≤ 2 ^ b - 1
    · obtain ⟨n, hnat, hn⟩ := hfit
      have hpu := ParseUint_ok ⟨digits⟩ b hb64 n hnat hn
      rw [← hstrip] at hpu
      rw [ParseInt_cons_of_ok c ds b n hpu, hneg]
      rw [hnat] at h
      simp only [Option.map_some', Option.some.injEq, exists_eq_left'] at h
      cases neg
      · simp only [Bool.false_eq_true, if_false, Int.ofNat_eq_coe] at h
        have h1 : n ≥ 2 ^ (b - 1) := by
          by_contra hlt
          apply h
          constructor <;> omega
        simp [h1]
      · simp only [if_true, Int.ofNat_eq_coe] at h
        have h1 : n > 2 ^ (b - 1) := by
          by_contra hle
          apply h
          constructor <;> omega
        simp [h1]
    · have hdigits : (⟨digits⟩ : string).data = digits := rfl
      obtain ⟨e, he, hr⟩ := ParseUint_err ⟨digits⟩ b (by rw [hdigits]; exact hfit)
      rw [← hstrip] at he hr
      exact ParseInt_cons_of_err c ds b hb e he hr

/-- ParseInt returns a nil error exactly on the optionally signed base-10 integer literals
whose value fits the signed bit size, and then returns that value. -/
theorem ParseInt_eq_none_iff (s : string) (b : Nat) (hb : 2 ≤ b) (hb64 : b ≤ 64) :
    (ParseInt s b).2 = none ↔
      ∃ v : Int, decimalIntLiteral s = some v ∧
        - (2 ^ (b - 1) : Int) ≤ v ∧ v < (2 ^ (b - 1) : Int) ∧ (ParseInt s b).1 = v := by
  constructor
  · intro hnone
    by_contra hno
    apply ParseInt_err s b hb hb64 _ hnone
    rintro ⟨v, hlit, hlo, hhi⟩
    apply hno
    refine ⟨v, hlit, hlo, hhi, ?_⟩
    rw [ParseInt_ok s b hb hb64 v hlit hlo hhi]
  · rintro ⟨v, hlit, hlo, hhi, -⟩
    rw [ParseInt_ok s b hb hb64 v hlit hlo hhi]

end strconv

namespace wordprocessingml

/-! ## Claims on the enumeration codecs, continued -/

/-- The switch of ST_Border.MarshalXMLAttr and the switch of ST_Border.String have the same
cases in the same order. -/
theorem ST_Border_marshal_cases_eq_string_cases :
    ST_Border.MarshalXMLAttr.cases = ST_Border.String.cases := by
  decide!

/-- C21: for every value m of ST_HighlightColor, Validate returns what ValidateWithPath returns
for the empty path; it returns nil exactly when ValidateWithPath returns nil for any path, and
an error it returns has the message ": out of range value " followed by m in base 10. -/
theorem ST_HighlightColor_validate_empty_path (m : ST_HighlightColor) (path : string) :
    ST_HighlightColor.Validate m = ST_HighlightColor.ValidateWithPath m "" ∧
    (ST_HighlightColor.Validate m = none ↔ ST_HighlightColor.ValidateWithPath m path = none) ∧
    (ST_HighlightColor.Validate m ≠ none →
      ST_HighlightColor.Validate m = some (": out of range value " ++ Nat.repr m)) := by
  refine ⟨rfl, ?_, ?_⟩
  · unfold ST_HighlightColor.Validate ST_HighlightColor.ValidateWithPath
    rw [validate_none_iff _ 17 (by decide) m "", validate_none_iff _ 17 (by decide) m path]
  · unfold ST_HighlightColor.Validate ST_HighlightColor.ValidateWithPath
    split_ifs with hmem
    · intro hne
      exact absurd rfl hne
    · intro _
      simp only [errorfOutOfRange, String.append_assoc, String.empty_append]

/-- C22: the switch of ST_Border.UnmarshalXMLAttr has 194 labels, and for every string s that
is none of them, every prior receiver value r and every attribute name, UnmarshalXMLAttr on an
attribute with Value s leaves the receiver at r and returns nil. -/
theorem ST_Border_unmarshal_attr_frame (s : string) (r : ST_Border) (name : xml.Name)
    (h : s ∉ ST_Border.UnmarshalXMLAttr.cases.map Prod.fst) :
    (ST_Border.UnmarshalXMLAttr.cases.map Prod.fst).length = 194 ∧
    (ST_Border.UnmarshalXMLAttr.cases.map Prod.fst).Nodup ∧
    ST_Border.UnmarshalXMLAttr r ⟨name, s⟩ = (r, none) := by
  refine ⟨by decide!, by decide!, ?_⟩
  unfold ST_Border.UnmarshalXMLAttr
  simp only [switchCase_eq_none s _ h]

/-- Witness for C22: the string "Single" differs from the token "single" in case only; the
receiver holds 7 before and after. -/
theorem ST_Border_unmarshal_attr_frame_witness :
    "Single" ∉ ST_Border.UnmarshalXMLAttr.cases.map Prod.fst ∧
    (ST_Border.UnmarshalXMLAttr 7 ⟨⟨"", "val"⟩, "Single"⟩).1 = 7 :=
  ⟨by decide!,
   congrArg Prod.fst
    (ST_Border_unmarshal_attr_frame "Single" 7 ⟨"", "val"⟩ (by decide!)).2.2⟩

/-- C23: for every case (t, o) of the switch of ST_HeightRule.UnmarshalXML, every prior
receiver value r and every stream CharData(t), tok, rest where tok is not the EndElement
named start.Name, UnmarshalXML returns the error "expected end element, got " followed by the
token, and the receiver holds o, the ordinal of t, not r. -/
theorem ST_HeightRule_unmarshal_element_not_atomic (r : ST_HeightRule) (st : xml.StartElement)
    (t : string) (o : ST_HeightRule) (tok : xml.Token) (rest : xml.Decoder)
    (ht : (t, o) ∈ ST_HeightRule.UnmarshalXML.cases)
    (htok : tok ≠ xml.Token.EndElement ⟨st.Name⟩) :
    ST_HeightRule.UnmarshalXML r (xml.Token.CharData t :: tok :: rest) st
      = (o, rest, some ("expected end element, got " ++ fmt.tokenV (some tok))) := by
  have hsw : switchCase t ST_HeightRule.UnmarshalXML.cases = some o := by
    simp only [ST_HeightRule.UnmarshalXML.cases, List.mem_cons, Prod.mk.injEq,
      List.mem_singleton, List.not_mem_nil, or_false] at ht
    rcases ht with ⟨rfl, rfl⟩ | ⟨rfl, rfl⟩ | ⟨rfl, rfl⟩ | ⟨rfl, rfl⟩ <;> decide
  cases tok with
  | EndElement e =>
    have hn : e.Name ≠ st.Name := by
      intro hEq
      apply htok
      cases e
      simp only at hEq
      rw [hEq]
    simp only [ST_HeightRule.UnmarshalXML, xml.Decoder.Token, hsw, if_neg hn]
  | StartElement e => simp only [ST_HeightRule.UnmarshalXML, xml.Decoder.Token, hsw]
  | CharData cd => simp only [ST_HeightRule.UnmarshalXML, xml.Decoder.Token, hsw]
  | Comment data => simp only [ST_HeightRule.UnmarshalXML, xml.Decoder.Token, hsw]
  | ProcInst p => simp only [ST_HeightRule.UnmarshalXML, xml.Decoder.Token, hsw]
  | Directive data => simp only [ST_HeightRule.UnmarshalXML, xml.Decoder.Token, hsw]

/-- Witness for C23: the receiver holds 1 (auto) before the call, the stream is the
character data "exact" followed by the end tag of another element; the call fails and the
receiver holds 2 (exact). -/
theorem ST_HeightRule_unmarshal_element_not_atomic_witness :
    ("exact", 2) ∈ ST_HeightRule.UnmarshalXML.cases ∧
    xml.Token.EndElement ⟨⟨"", "other"⟩⟩ ≠ xml.Token.EndElement ⟨⟨"", "hRule"⟩⟩ ∧
    ST_HeightRule.UnmarshalXML 1
      [xml.Token.CharData "exact", xml.Token.EndElement ⟨⟨"", "other"⟩⟩] ⟨⟨"", "hRule"⟩, []⟩
      = (2, [], some "expected end element, got \x7b\x7b other\x7d\x7d") :=
  ⟨by decide, by decide,
   (ST_HeightRule_unmarshal_element_not_atomic 1 ⟨⟨"", "hRule"⟩, []⟩ "exact" 2
      (xml.Token.EndElement ⟨⟨"", "other"⟩⟩) [] (by decide) (by decide)).trans (by decide)⟩

/-- C24: for every value b and every attribute name n, the Value of the attribute that
ST_Border.MarshalXMLAttr returns is the string ST_Border.String returns, and the element
ST_Border.MarshalXML writes has that same string as its character data. -/
theorem ST_Border_marshal_attr_value_eq_string (b : ST_Border) (n : xml.Name)
    (start : xml.StartElement) :
    (ST_Border.MarshalXMLAttr b n).1.Value = ST_Border.String b ∧
    (ST_Border.MarshalXML b start).1
      = xml.EncodeElement (ST_Border.MarshalXMLAttr b n).1.Value start := by
  have hval : (ST_Border.MarshalXMLAttr b n).1.Value = ST_Border.String b := by
    unfold ST_Border.MarshalXMLAttr ST_Border.String
    rw [ST_Border_marshal_cases_eq_string_cases]
    cases switchCase b ST_Border.String.cases <;> rfl
  refine ⟨hval, ?_⟩
  rw [hval]
  rfl

end wordprocessingml

/-! ## Claims on the constructors and decoders of the structure types -/

namespace pml

/-- The loop of UnmarshalXML keeps the three child pointers non-nil. -/
theorem CT_ConnectorNonVisual_loop_non_nil (env : Imports) :
    ∀ (n : Nat) (d : xml.Decoder) (a b c : SchemaObject), d.length ≤ n →
      ∃ a₁ b₁ c₁ : SchemaObject,
        (CT_ConnectorNonVisual.UnmarshalXML.loop env
          { CNvPr := some a, CNvCxnSpPr := some b, NvPr := some c } d).1
          = { CNvPr := some a₁, CNvCxnSpPr := some b₁, NvPr := some c₁ } := by
  intro n
  induction n with
  | zero =>
    intro d a b c hlen
    have hd : d = [] := List.length_eq_zero.1 (Nat.le_zero.1 hlen)
    subst hd
    rw [CT_ConnectorNonVisual.UnmarshalXML.loop]
    exact ⟨a, b, c, rfl⟩
  | succ n ih =>
    intro d a b c hlen
    cases d with
    | nil =>
      rw [CT_ConnectorNonVisual.UnmarshalXML.loop]
      exact ⟨a, b, c, rfl⟩
    | cons t r =>
      have hr : r.length ≤ n := Nat.le_of_succ_le_succ hlen
      have hdrop : ∀ k : Nat, (r.drop k).length ≤ n := by
        intro k
        rw [List.length_drop]
        omega
      rw [CT_ConnectorNonVisual.UnmarshalXML.loop]
      simp only [xml.Decoder.Token]
      cases t with
      | StartElement el =>
        simp only
        split_ifs
        · split
          · rename_i heq
            simp only [xml.Decoder.DecodeElement, Prod.mk.injEq] at heq
            obtain ⟨rfl, -, -⟩ := heq
            exact ⟨_, _, _, rfl⟩
          · rename_i heq
            simp only [xml.Decoder.DecodeElement, Prod.mk.injEq] at heq
            obtain ⟨rfl, rfl, -⟩ := heq
            exact ih _ _ _ _ (hdrop _)
        · split
          · rename_i heq
            simp only [xml.Decoder.DecodeElement, Prod.mk.injEq] at heq
            obtain ⟨rfl, -, -⟩ := heq
            exact ⟨_, _, _, rfl⟩
          · rename_i heq
            simp only [xml.Decoder.DecodeElement, Prod.mk.injEq] at heq
            obtain ⟨rfl, rfl, -⟩ := heq
            exact ih _ _ _ _ (hdrop _)
        · split
          · rename_i heq
            simp only [xml.Decoder.DecodeElement, Prod.mk.injEq] at heq
            obtain ⟨rfl, -, -⟩ := heq
            exact ⟨_, _, _, rfl⟩
          · rename_i heq
            simp only [xml.Decoder.DecodeElement, Prod.mk.injEq] at heq
            obtain ⟨rfl, rfl, -⟩ := heq
            exact ih _ _ _ _ (hdrop _)
        · split
          · exact ⟨a, b, c, rfl⟩
          · rename_i heq
            simp only [xml.Decoder.Skip, Prod.mk.injEq] at heq
            obtain ⟨-, rfl⟩ := heq
            exact ih _ _ _ _ (hdrop _)
      | EndElement e => exact ⟨a, b, c, rfl⟩
      | CharData data => exact ih r a b c hr
      | Comment data => exact ih r a b c hr
      | ProcInst p => exact ih r a b c hr
      | Directive data => exact ih r a b c hr

/-- C25: the structure built by NewCT_ConnectorNonVisual, and the receiver after any call of
UnmarshalXML (whatever it held before, whatever the decoder delivers, whether the call returns
nil or an error), has CNvPr, CNvCxnSpPr and NvPr non-nil; so ValidateWithPath on such a value
never invokes a validator through a nil pointer and every EncodeElement call of MarshalXML
passes a non-nil child. -/
theorem CT_ConnectorNonVisual_children_non_nil (env : Imports) (m : CT_ConnectorNonVisual)
    (d : xml.Decoder) (start st : xml.StartElement) (p : string) :
    ((NewCT_ConnectorNonVisual env).CNvPr ≠ none ∧
      (NewCT_ConnectorNonVisual env).CNvCxnSpPr ≠ none ∧
      (NewCT_ConnectorNonVisual env).NvPr ≠ none) ∧
    ((CT_ConnectorNonVisual.UnmarshalXML env m d start).1.CNvPr ≠ none ∧
      (CT_ConnectorNonVisual.UnmarshalXML env m d start).1.CNvCxnSpPr ≠ none ∧
      (CT_ConnectorNonVisual.UnmarshalXML env m d start).1.NvPr ≠ none) ∧
    ((CT_ConnectorNonVisual.ValidateWithPath (NewCT_ConnectorNonVisual env) p).outcome
        ≠ Outcome.nilReceiver ∧
      (CT_ConnectorNonVisual.ValidateWithPath
          (CT_ConnectorNonVisual.UnmarshalXML env m d start).1 p).outcome
        ≠ Outcome.nilReceiver) ∧
    ((∀ (v : Option SchemaObject) (s : xml.StartElement),
        xml.EncoderCall.EncodeElement v s
          ∈ (CT_ConnectorNonVisual.MarshalXML (NewCT_ConnectorNonVisual env) st).1 →
        v ≠ none) ∧
      (∀ (v : Option SchemaObject) (s : xml.StartElement),
        xml.EncoderCall.EncodeElement v s
          ∈ (CT_ConnectorNonVisual.MarshalXML
              (CT_ConnectorNonVisual.UnmarshalXML env m d start).1 st).1 →
        v ≠ none)) := by
  have hvalid : ∀ a b c : SchemaObject,
      (CT_ConnectorNonVisual.ValidateWithPath
        { CNvPr := some a, CNvCxnSpPr := some b, NvPr := some c } p).outcome
        ≠ Outcome.nilReceiver := by
    intro a b c
    unfold CT_ConnectorNonVisual.ValidateWithPath
    rw [checkChild_some_outcome _ _ _ _ _
      (checkChild_some_outcome _ _ _ _ _
        (checkChild_some_outcome _ _ _ _ none rfl))]
    intro hEq
    cases hEq
  have hmarshal : ∀ (a b c : SchemaObject) (v : Option SchemaObject) (s : xml.StartElement),
      xml.EncoderCall.EncodeElement v s
        ∈ (CT_ConnectorNonVisual.MarshalXML
            { CNvPr := some a, CNvCxnSpPr := some b, NvPr := some c } st).1 →
      v ≠ none := by
    intro a b c v s hmem
    simp only [CT_ConnectorNonVisual.MarshalXML, List.mem_cons, List.mem_singleton,
      xml.EncoderCall.EncodeElement.injEq, List.not_mem_nil, or_false] at hmem
    rcases hmem with h | h | h | h | h
    · cases h
    · rw [h.1]
      exact Option.some_ne_none a
    · rw [h.1]
      exact Option.some_ne_none b
    · rw [h.1]
      exact Option.some_ne_none c
    · cases h
  obtain ⟨a₁, b₁, c₁, hres⟩ := CT_ConnectorNonVisual_loop_non_nil env d.length d
    env.NewCT_NonVisualDrawingProps env.NewCT_NonVisualConnectorProperties
    env.NewCT_ApplicationNonVisualDrawingProps (Nat.le_refl _)
  have hun : (CT_ConnectorNonVisual.UnmarshalXML env m d start).1
      = { CNvPr := some a₁, CNvCxnSpPr := some b₁, NvPr := some c₁ } := hres
  have hnew : NewCT_ConnectorNonVisual env
      = { CNvPr := some env.NewCT_NonVisualDrawingProps,
          CNvCxnSpPr := some env.NewCT_NonVisualConnectorProperties,
          NvPr := some env.NewCT_ApplicationNonVisualDrawingProps } := rfl
  rw [hun, hnew]
  exact ⟨⟨Option.some_ne_none _, Option.some_ne_none _, Option.some_ne_none _⟩,
    ⟨Option.some_ne_none _, Option.some_ne_none _, Option.some_ne_none _⟩,
    ⟨hvalid _ _ _, hvalid _ _ _⟩, ⟨hmarshal _ _ _, hmarshal _ _ _⟩⟩

end pml

namespace wml

/-- The loop of CT_SectPrChange.UnmarshalXML changes no field but SectPr. -/
theorem CT_SectPrChange_loop_frame (env : Imports) :
    ∀ (n : Nat) (d : xml.Decoder) (m : CT_SectPrChange), d.length ≤ n →
      ∃ sp : Option CT_SectPrBase,
        (CT_SectPrChange.UnmarshalXML.loop env m d).1 = { m with SectPr := sp } := by
  intro n
  induction n with
  | zero =>
    intro d m hlen
    have hd : d = [] := List.length_eq_zero.1 (Nat.le_zero.1 hlen)
    subst hd
    rw [CT_SectPrChange.UnmarshalXML.loop]
    exact ⟨m.SectPr, rfl⟩
  | succ n ih =>
    intro d m hlen
    cases d with
    | nil =>
      rw [CT_SectPrChange.UnmarshalXML.loop]
      exact ⟨m.SectPr, rfl⟩
    | cons t r =>
      have hr : r.length ≤ n := Nat.le_of_succ_le_succ hlen
      have hdrop : ∀ k : Nat, (r.drop k).length ≤ n := by
        intro k
        rw [List.length_drop]
        omega
      rw [CT_SectPrChange.UnmarshalXML.loop]
      simp only [xml.Decoder.Token]
      cases t with
      | StartElement el =>
        simp only
        split_ifs
        · split
          · exact ⟨_, rfl⟩
          · rename_i heq
            simp only [xml.Decoder.DecodeElement, Prod.mk.injEq] at heq
            obtain ⟨rfl, rfl, -⟩ := heq
            obtain ⟨sp, hsp⟩ := ih (r.drop _) _ (hdrop _)
            exact ⟨sp, hsp⟩
        · split
          · exact ⟨m.SectPr, rfl⟩
          · rename_i heq
            simp only [xml.Decoder.Skip, Prod.mk.injEq] at heq
            obtain ⟨-, rfl⟩ := heq
            exact ih _ _ (hdrop _)
      | EndElement e => exact ⟨m.SectPr, rfl⟩
      | CharData data => exact ih r m hr
      | Comment data => exact ih r m hr
      | ProcInst p => exact ih r m hr
      | Directive data => exact ih r m hr

/-- The value an elimination over the last element of a list takes when an element is put in
front of the list. -/
theorem getLast_elim_cons {α β : Type} (a : α) (l : List α) (dflt : β) (f : α → β) :
    ((a :: l).getLast?).elim dflt f = (l.getLast?).elim (f a) f := by
  cases l with
  | nil => rfl
  | cons b l =>
    rw [List.getLast?_cons_cons]
    cases h : (b :: l).getLast? with
    | none => exact absurd (List.getLast?_eq_none_iff.1 h) (List.cons_ne_nil b l)
    | some x => rfl

/-- The loop over the attributes fails when some attribute named id has a value that ParseInt
rejects, and then the receiver keeps the SectPr it had. -/
theorem CT_SectPrChange_attrs_err (env : Imports)
    (hparse : env.ParseStdlibTime = wordprocessingml.ParseStdlibTime) (attrs : List xml.Attr) :
    ∀ m : CT_SectPrChange,
      (∃ x ∈ attrs, x.Name.Local = "id" ∧ (strconv.ParseInt x.Value 64).2 ≠ none) →
      (CT_SectPrChange.UnmarshalXML.attrs env m attrs).2 ≠ none := by
  induction attrs with
  | nil =>
    rintro m ⟨x, hx, -⟩
    cases hx
  | cons a rest ih =>
    rintro m ⟨x, hx, hid, hbad⟩
    have hrest : x ≠ a → ∃ y ∈ rest, y.Name.Local = "id" ∧ (strconv.ParseInt y.Value 64).2 ≠ none := by
      intro hne
      rcases List.mem_cons.1 hx with h | h
      · exact absurd h hne
      · exact ⟨x, h, hid, hbad⟩
    by_cases hauthor : a.Name.Local = "author"
    · have hxa : x ≠ a := by
        intro h
        rw [h, hauthor] at hid
        exact absurd hid (by decide)
      simp only [CT_SectPrChange.UnmarshalXML.attrs, if_pos hauthor]
      exact ih _ (hrest hxa)
    · by_cases hdate : a.Name.Local = "date"
      · have hxa : x ≠ a := by
          intro h
          rw [h, hdate] at hid
          exact absurd hid (by decide)
        simp only [CT_SectPrChange.UnmarshalXML.attrs, if_neg hauthor, if_pos hdate,
          hparse, wordprocessingml.ParseStdlibTime]
        exact ih _ (hrest hxa)
      · by_cases hida : a.Name.Local = "id"
        · simp only [CT_SectPrChange.UnmarshalXML.attrs, if_neg hauthor, if_neg hdate,
            if_pos hida]
          cases hp : strconv.ParseInt a.Value 64 with
          | mk v oe =>
            cases oe with
            | some e =>
              simp only
              intro hnone
              cases hnone
            | none =>
              simp only
              apply ih
              apply hrest
              intro h
              rw [h, hp] at hbad
              exact hbad rfl
        · have hxa : x ≠ a := by
            intro h
            rw [h] at hid
            exact hida hid
          simp only [CT_SectPrChange.UnmarshalXML.attrs, if_neg hauthor, if_neg hdate,
            if_neg hida]
          exact ih _ (hrest hxa)

/-- The loop over the attributes, when ParseInt accepts the value of every attribute named id:
no error; AuthorAttr is the value of the last attribute named author, IdAttr the parsed value of
the last attribute named id, DateAttr points to the zero time if an attribute is named date;
a field without such an attribute keeps its value, and so does SectPr. -/
theorem CT_SectPrChange_attrs_ok (env : Imports)
    (hparse : env.ParseStdlibTime = wordprocessingml.ParseStdlibTime) (attrs : List xml.Attr) :
    ∀ m : CT_SectPrChange,
      (∀ x ∈ attrs, x.Name.Local = "id" → (strconv.ParseInt x.Value 64).2 = none) →
      CT_SectPrChange.UnmarshalXML.attrs env m attrs =
        ({ AuthorAttr :=
             ((attrs.filter fun x => decide (x.Name.Local = "author")).getLast?).elim
               m.AuthorAttr fun x => x.Value,
           DateAttr :=
             ((attrs.filter fun x => decide (x.Name.Local = "date")).getLast?).elim
               m.DateAttr fun _ => some { wall := 0, ext := 0, loc := none },
           IdAttr :=
             ((attrs.filter fun x => decide (x.Name.Local = "id")).getLast?).elim
               m.IdAttr fun x => (strconv.ParseInt x.Value 64).1,
           SectPr := m.SectPr }, none) := by
  induction attrs with
  | nil =>
    intro m _
    rfl
  | cons a rest ih =>
    intro m hok
    have hrest : ∀ x ∈ rest, x.Name.Local = "id" → (strconv.ParseInt x.Value 64).2 = none :=
      fun x hx => hok x (List.mem_cons_of_mem _ hx)
    by_cases hauthor : a.Name.Local = "author"
    · have hd : ¬ a.Name.Local = "date" := by rw [hauthor]; decide
      have hi : ¬ a.Name.Local = "id" := by rw [hauthor]; decide
      simp only [CT_SectPrChange.UnmarshalXML.attrs, if_pos hauthor]
      rw [ih _ hrest]
      simp [List.filter_cons, hauthor, getLast_elim_cons]
    · by_cases hdate : a.Name.Local = "date"
      · have hi : ¬ a.Name.Local = "id" := by rw [hdate]; decide
        simp only [CT_SectPrChange.UnmarshalXML.attrs, if_neg hauthor, if_pos hdate,
          hparse, wordprocessingml.ParseStdlibTime]
        rw [ih _ hrest]
        simp [List.filter_cons, hdate, getLast_elim_cons]
      · by_cases hida : a.Name.Local = "id"
        · have hp := hok a (List.mem_cons_self _ _) hida
          simp only [CT_SectPrChange.UnmarshalXML.attrs, if_neg hauthor, if_neg hdate,
            if_pos hida]
          cases hpi : strconv.ParseInt a.Value 64 with
          | mk v oe =>
            rw [hpi] at hp
            simp only at hp
            subst hp
            simp only
            rw [ih _ hrest]
            simp [List.filter_cons, hida, getLast_elim_cons, hpi]
        · simp only [CT_SectPrChange.UnmarshalXML.attrs, if_neg hauthor, if_neg hdate,
            if_neg hida]
          rw [ih _ hrest]
          simp [List.filter_cons, hauthor, hdate, hida]

end wml

namespace wml

/-- Once DateAttr points to the zero time, the loop over the attributes leaves it so. -/
theorem CT_SectPrChange_attrs_date_fixed (env : Imports)
    (hparse : env.ParseStdlibTime = wordprocessingml.ParseStdlibTime) (attrs : List xml.Attr) :
    ∀ m : CT_SectPrChange, m.DateAttr = some { wall := 0, ext := 0, loc := none } →
      (CT_SectPrChange.UnmarshalXML.attrs env m attrs).1.DateAttr
        = some { wall := 0, ext := 0, loc := none } := by
  induction attrs with
  | nil =>
    intro m hm
    exact hm
  | cons a rest ih =>
    intro m hm
    by_cases hauthor : a.Name.Local = "author"
    · simp only [CT_SectPrChange.UnmarshalXML.attrs, if_pos hauthor]
      exact ih _ hm
    · by_cases hdate : a.Name.Local = "date"
      · simp only [CT_SectPrChange.UnmarshalXML.attrs, if_neg hauthor, if_pos hdate,
          hparse, wordprocessingml.ParseStdlibTime]
        exact ih _ rfl
      · by_cases hida : a.Name.Local = "id"
        · simp only [CT_SectPrChange.UnmarshalXML.attrs, if_neg hauthor, if_neg hdate,
            if_pos hida]
          cases hp : strconv.ParseInt a.Value 64 with
          | mk v oe =>
            cases oe with
            | some e => exact hm
            | none => exact ih _ hm
        · simp only [CT_SectPrChange.UnmarshalXML.attrs, if_neg hauthor, if_neg hdate,
            if_neg hida]
          exact ih _ hm

/-- The loop over the attributes runs through a prefix whose id values ParseInt accepts and
goes on with the rest. -/
theorem CT_SectPrChange_attrs_append (env : Imports)
    (hparse : env.ParseStdlibTime = wordprocessingml.ParseStdlibTime) (pre rest : List xml.Attr) :
    ∀ m : CT_SectPrChange,
      (∀ x ∈ pre, x.Name.Local = "id" → (strconv.ParseInt x.Value 64).2 = none) →
      CT_SectPrChange.UnmarshalXML.attrs env m (pre ++ rest)
        = CT_SectPrChange.UnmarshalXML.attrs env
            (CT_SectPrChange.UnmarshalXML.attrs env m pre).1 rest := by
  induction pre with
  | nil =>
    intro m _
    rfl
  | cons a pre ih =>
    intro m hok
    have hpre : ∀ x ∈ pre, x.Name.Local = "id" → (strconv.ParseInt x.Value 64).2 = none :=
      fun x hx => hok x (List.mem_cons_of_mem _ hx)
    by_cases hauthor : a.Name.Local = "author"
    · simp only [List.cons_append, CT_SectPrChange.UnmarshalXML.attrs, if_pos hauthor]
      exact ih _ hpre
    · by_cases hdate : a.Name.Local = "date"
      · simp only [List.cons_append, CT_SectPrChange.UnmarshalXML.attrs, if_neg hauthor,
          if_pos hdate, hparse, wordprocessingml.ParseStdlibTime]
        exact ih _ hpre
      · by_cases hida : a.Name.Local = "id"
        · have hp := hok a (List.mem_cons_self _ _) hida
          simp only [List.cons_append, CT_SectPrChange.UnmarshalXML.attrs, if_neg hauthor,
            if_neg hdate, if_pos hida]
          cases hpi : strconv.ParseInt a.Value 64 with
          | mk v oe =>
            rw [hpi] at hp
            simp only at hp
            subst hp
            exact ih _ hpre
        · simp only [List.cons_append, CT_SectPrChange.UnmarshalXML.attrs, if_neg hauthor,
            if_neg hdate, if_neg hida]
          exact ih _ hpre

/-- The fields of the receiver other than SectPr after UnmarshalXML are those the loop over
the attributes leaves. -/
theorem CT_SectPrChange_unmarshal_frame (env : Imports) (m : CT_SectPrChange)
    (d : xml.Decoder) (start : xml.StartElement) :
    ∃ sp : Option CT_SectPrBase,
      (CT_SectPrChange.UnmarshalXML env m d start).1
        = { (CT_SectPrChange.UnmarshalXML.attrs env m start.Attr).1 with SectPr := sp } := by
  unfold CT_SectPrChange.UnmarshalXML
  cases h : CT_SectPrChange.UnmarshalXML.attrs env m start.Attr with
  | mk m₁ oe =>
    cases oe with
    | some e => exact ⟨m₁.SectPr, rfl⟩
    | none => exact CT_SectPrChange_loop_frame env d.length d m₁ (Nat.le_refl _)

/-- While the attributes visited hold no date and every id among them parses, the loop over
the attributes leaves DateAttr as it was. -/
theorem CT_SectPrChange_attrs_no_date (env : Imports)
    (hparse : env.ParseStdlibTime = wordprocessingml.ParseStdlibTime) (pre : List xml.Attr)
    (m : CT_SectPrChange)
    (hok : ∀ x ∈ pre, x.Name.Local = "id" → (strconv.ParseInt x.Value 64).2 = none)
    (hno : ∀ y ∈ pre, y.Name.Local ≠ "date") :
    (CT_SectPrChange.UnmarshalXML.attrs env m pre).1.DateAttr = m.DateAttr := by
  rw [CT_SectPrChange_attrs_ok env hparse pre m hok]
  have hnil : (pre.filter fun x => decide (x.Name.Local = "date")) = [] := by
    rw [List.filter_eq_nil_iff]
    intro y hy hdec
    exact hno y hy (of_decide_eq_true hdec)
  simp only [hnil, List.getLast?_nil, Option.elim]

/-- An attribute named id whose value ParseInt rejects ends the loop over the attributes with
the error of ParseInt and the receiver as it was. -/
theorem CT_SectPrChange_attrs_id_err (env : Imports) (m : CT_SectPrChange) (x : xml.Attr)
    (post : List xml.Attr) (hid : x.Name.Local = "id") (err : strconv.NumError)
    (herr : (strconv.ParseInt x.Value 64).2 = some err) :
    CT_SectPrChange.UnmarshalXML.attrs env m (x :: post) = (m, some (err.Error env.Quote)) := by
  have hauthor : ¬ x.Name.Local = "author" := by rw [hid]; decide
  have hdate : ¬ x.Name.Local = "date" := by rw [hid]; decide
  cases hp : strconv.ParseInt x.Value 64 with
  | mk v oe =>
    rw [hp] at herr
    simp only at herr
    subst herr
    simp only [CT_SectPrChange.UnmarshalXML.attrs, if_neg hauthor, if_neg hdate, if_pos hid, hp]

/-- C26, the claim as stated fails: the start element carries an attribute named date, but the
attribute named id in front of it has the value x, so UnmarshalXML returns the error of
strconv.ParseInt before it reaches the date, and DateAttr is still nil. -/
theorem CT_SectPrChange_unmarshal_date_counterexample :
    (∃ a ∈ [({ Name := { Space := "", Local := "id" }, Value := "x" } : xml.Attr),
            { Name := { Space := "", Local := "date" }, Value := "2020-01-01T00:00:00Z" }],
        a.Name.Local = "date") ∧
    (CT_SectPrChange.UnmarshalXML
      { NewCT_SectPrBase := { ValidateWithPath := fun _ => none },
        UnmarshalCT_SectPrBase := fun obj _ _ => { value := obj, consumed := 0, err := none },
        ParseStdlibTime := wordprocessingml.ParseStdlibTime,
        Quote := fun s => "\x22" ++ s ++ "\x22" }
      { AuthorAttr := "", DateAttr := none, IdAttr := 0, SectPr := none }
      [xml.Token.EndElement { Name := { Space := "", Local := "sectPrChange" } }]
      { Name := { Space := "", Local := "sectPrChange" },
        Attr := [{ Name := { Space := "", Local := "id" }, Value := "x" },
                 { Name := { Space := "", Local := "date" },
                   Value := "2020-01-01T00:00:00Z" }] }).1.DateAttr = none ∧
    (CT_SectPrChange.UnmarshalXML
      { NewCT_SectPrBase := { ValidateWithPath := fun _ => none },
        UnmarshalCT_SectPrBase := fun obj _ _ => { value := obj, consumed := 0, err := none },
        ParseStdlibTime := wordprocessingml.ParseStdlibTime,
        Quote := fun s => "\x22" ++ s ++ "\x22" }
      { AuthorAttr := "", DateAttr := none, IdAttr := 0, SectPr := none }
      [xml.Token.EndElement { Name := { Space := "", Local := "sectPrChange" } }]
      { Name := { Space := "", Local := "sectPrChange" },
        Attr := [{ Name := { Space := "", Local := "id" }, Value := "x" },
                 { Name := { Space := "", Local := "date" },
                   Value := "2020-01-01T00:00:00Z" }] }).2.2
      = some "strconv.ParseInt: parsing \x22x\x22: invalid syntax" := by
  refine ⟨⟨_, List.mem_cons_of_mem _ (List.mem_cons_self _ _), rfl⟩, ?_, ?_⟩
  · decide
  · decide

/-- C26 as amended: ParseStdlibTime of common.go returns the zero time and a nil error for
every string, and so does, being that function, the ParseStdlibTime that CT_SectPrChange.go
calls. When the start element carries an attribute named date, and the value of every
attribute named id in front of it is a base-10 integer in the signed 64-bit range, UnmarshalXML
leaves DateAttr pointing to the zero time, whatever the value of the date attribute, the
attributes behind it, the prior receiver and the decoder are. When an attribute named id whose
value is not such an integer has in front of it no attribute named date and no other attribute
named id whose value is not such an integer, UnmarshalXML returns the error of strconv.ParseInt
for that value, leaves the decoder as it was, and DateAttr keeps the value it had before the
call. -/
theorem CT_SectPrChange_unmarshal_date (env : Imports)
    (hparse : env.ParseStdlibTime = wordprocessingml.ParseStdlibTime) (m : CT_SectPrChange)
    (d : xml.Decoder) (start : xml.StartElement) (s : string) :
    wordprocessingml.ParseStdlibTime s = ({ wall := 0, ext := 0, loc := none }, none) ∧
    env.ParseStdlibTime s = ({ wall := 0, ext := 0, loc := none }, none) ∧
    (∀ (pre post : List xml.Attr) (a : xml.Attr),
      start.Attr = pre ++ a :: post → a.Name.Local = "date" →
      (∀ x ∈ pre, x.Name.Local = "id" →
        ∃ v : Int, decimalIntLiteral x.Value = some v ∧
          - (2 ^ 63 : Int) ≤ v ∧ v < (2 ^ 63 : Int)) →
      (CT_SectPrChange.UnmarshalXML env m d start).1.DateAttr
        = some { wall := 0, ext := 0, loc := none }) ∧
    (∀ (pre post : List xml.Attr) (x : xml.Attr),
      start.Attr = pre ++ x :: post → x.Name.Local = "id" →
      (¬ ∃ v : Int, decimalIntLiteral x.Value = some v ∧
          - (2 ^ 63 : Int) ≤ v ∧ v < (2 ^ 63 : Int)) →
      (∀ y ∈ pre, y.Name.Local ≠ "date") →
      (∀ y ∈ pre, y.Name.Local = "id" →
        ∃ v : Int, decimalIntLiteral y.Value = some v ∧
          - (2 ^ 63 : Int) ≤ v ∧ v < (2 ^ 63 : Int)) →
      (∃ err : strconv.NumError, (strconv.ParseInt x.Value 64).2 = some err ∧
        (CT_SectPrChange.UnmarshalXML env m d start).2.2 = some (err.Error env.Quote)) ∧
      (CT_SectPrChange.UnmarshalXML env m d start).2.1 = d ∧
      (CT_SectPrChange.UnmarshalXML env m d start).1.DateAttr = m.DateAttr) := by
  refine ⟨rfl, by rw [hparse]; rfl, ?_, ?_⟩
  · intro pre post a hattr ha hpre
    have hok : ∀ x ∈ pre, x.Name.Local = "id" → (strconv.ParseInt x.Value 64).2 = none := by
      intro x hx hid
      obtain ⟨v, hlit, hlo, hhi⟩ := hpre x hx hid
      rw [strconv.ParseInt_ok x.Value 64 (by decide) (by decide) v hlit hlo hhi]
    obtain ⟨sp, hsp⟩ := CT_SectPrChange_unmarshal_frame env m d start
    rw [hsp, hattr, CT_SectPrChange_attrs_append env hparse pre (a :: post) m hok]
    have hauthor : ¬ a.Name.Local = "author" := by rw [ha]; decide
    simp only [CT_SectPrChange.UnmarshalXML.attrs, if_neg hauthor, if_pos ha, hparse,
      wordprocessingml.ParseStdlibTime]
    exact CT_SectPrChange_attrs_date_fixed env hparse post _ rfl
  · intro pre post x hattr hid hbad hno hpre
    have hok : ∀ y ∈ pre, y.Name.Local = "id" → (strconv.ParseInt y.Value 64).2 = none := by
      intro y hy hyid
      obtain ⟨v, hlit, hlo, hhi⟩ := hpre y hy hyid
      rw [strconv.ParseInt_ok y.Value 64 (by decide) (by decide) v hlit hlo hhi]
    have hbad64 : (strconv.ParseInt x.Value 64).2 ≠ none :=
      strconv.ParseInt_err x.Value 64 (by decide) (by decide) hbad
    obtain ⟨err, herr⟩ := Option.ne_none_iff_exists'.1 hbad64
    have hattrs : CT_SectPrChange.UnmarshalXML.attrs env m start.Attr
        = ((CT_SectPrChange.UnmarshalXML.attrs env m pre).1, some (err.Error env.Quote)) := by
      rw [hattr, CT_SectPrChange_attrs_append env hparse pre (x :: post) m hok,
        CT_SectPrChange_attrs_id_err env _ x post hid err herr]
    have hres : CT_SectPrChange.UnmarshalXML env m d start
        = ((CT_SectPrChange.UnmarshalXML.attrs env m pre).1, d,
            some (err.Error env.Quote)) := by
      unfold CT_SectPrChange.UnmarshalXML
      rw [hattrs]
    rw [hres]
    exact ⟨⟨err, herr, rfl⟩, rfl, CT_SectPrChange_attrs_no_date env hparse pre m hok hno⟩

/-- Witness for amended C26: with an id that parses in front of the date and one that does not
behind it, DateAttr points to the zero time; with an id that does not parse in front of the
date and an author in front of that, the call returns the error of strconv.ParseInt and
DateAttr keeps the non-zero time (ext 5) it pointed to before. -/
theorem CT_SectPrChange_unmarshal_date_witness :
    (CT_SectPrChange.UnmarshalXML
      { NewCT_SectPrBase := { ValidateWithPath := fun _ => none },
        UnmarshalCT_SectPrBase := fun obj _ _ => { value := obj, consumed := 0, err := none },
        ParseStdlibTime := wordprocessingml.ParseStdlibTime,
        Quote := fun s => "\x22" ++ s ++ "\x22" }
      { AuthorAttr := "", DateAttr := none, IdAttr := 0, SectPr := none }
      [xml.Token.EndElement { Name := { Space := "", Local := "sectPrChange" } }]
      { Name := { Space := "", Local := "sectPrChange" },
        Attr := [{ Name := { Space := "", Local := "id" }, Value := "12" },
                 { Name := { Space := "", Local := "date" }, Value := "not a date" },
                 { Name := { Space := "", Local := "id" }, Value := "x" }] }).1.DateAttr
      = some { wall := 0, ext := 0, loc := none } ∧
    (CT_SectPrChange.UnmarshalXML
      { NewCT_SectPrBase := { ValidateWithPath := fun _ => none },
        UnmarshalCT_SectPrBase := fun obj _ _ => { value := obj, consumed := 0, err := none },
        ParseStdlibTime := wordprocessingml.ParseStdlibTime,
        Quote := fun s => "\x22" ++ s ++ "\x22" }
      { AuthorAttr := "", DateAttr := some { wall := 0, ext := 5, loc := none }, IdAttr := 0,
        SectPr := none }
      [xml.Token.EndElement { Name := { Space := "", Local := "sectPrChange" } }]
      { Name := { Space := "", Local := "sectPrChange" },
        Attr := [{ Name := { Space := "", Local := "author" }, Value := "a" },
                 { Name := { Space := "", Local := "id" }, Value := "x" },
                 { Name := { Space := "", Local := "date" },
                   Value := "2020-01-01T00:00:00Z" }] }).1.DateAttr
      = some { wall := 0, ext := 5, loc := none } :=
  ⟨(CT_SectPrChange_unmarshal_date _ rfl _ _ _ "").2.2.1
    [{ Name := { Space := "", Local := "id" }, Value := "12" }]
    [{ Name := { Space := "", Local := "id" }, Value := "x" }]
    { Name := { Space := "", Local := "date" }, Value := "not a date" } rfl rfl
    (by
      intro x hx _
      obtain rfl := List.mem_singleton.1 hx
      exact ⟨12, by decide, by decide, by decide⟩),
   ((CT_SectPrChange_unmarshal_date _ rfl _ _ _ "").2.2.2
    [{ Name := { Space := "", Local := "author" }, Value := "a" }]
    [{ Name := { Space := "", Local := "date" }, Value := "2020-01-01T00:00:00Z" }]
    { Name := { Space := "", Local := "id" }, Value := "x" } rfl rfl
    (by decide)
    (by
      intro y hy
      obtain rfl := List.mem_singleton.1 hy
      decide)
    (by
      intro y hy hid
      obtain rfl := List.mem_singleton.1 hy
      exact absurd hid (by decide))).2.2⟩

/-- C27: UnmarshalXML scans start.Attr in order and matches on the local name; the date
attributes parse, ParseStdlibTime being the function of common.go, so an attribute that fails
to parse is one named id. If some attribute named id has a value that is not a base-10 integer
in the signed 64-bit range, UnmarshalXML returns a non-nil error and leaves the decoder as it
was. If the value of every attribute named id is such an integer, then afterwards IdAttr is the
integer value of the last attribute named id and AuthorAttr is the value of the last attribute
named author. -/
theorem CT_SectPrChange_unmarshal_id (env : Imports)
    (hparse : env.ParseStdlibTime = wordprocessingml.ParseStdlibTime) (m : CT_SectPrChange)
    (d : xml.Decoder) (start : xml.StartElement) :
    ((∃ x ∈ start.Attr, x.Name.Local = "id" ∧
        ¬ ∃ v : Int, decimalIntLiteral x.Value = some v ∧
          - (2 ^ 63 : Int) ≤ v ∧ v < (2 ^ 63 : Int)) →
      (CT_SectPrChange.UnmarshalXML env m d start).2.2 ≠ none ∧
      (CT_SectPrChange.UnmarshalXML env m d start).2.1 = d) ∧
    ((∀ x ∈ start.Attr, x.Name.Local = "id" →
        ∃ v : Int, decimalIntLiteral x.Value = some v ∧
          - (2 ^ 63 : Int) ≤ v ∧ v < (2 ^ 63 : Int)) →
      (∀ x : xml.Attr,
        (start.Attr.filter fun y => decide (y.Name.Local = "id")).getLast? = some x →
        decimalIntLiteral x.Value
          = some (CT_SectPrChange.UnmarshalXML env m d start).1.IdAttr) ∧
      (∀ x : xml.Attr,
        (start.Attr.filter fun y => decide (y.Name.Local = "author")).getLast? = some x →
        (CT_SectPrChange.UnmarshalXML env m d start).1.AuthorAttr = x.Value)) := by
  constructor
  · rintro ⟨x, hx, hid, hbad⟩
    have hbad64 : (strconv.ParseInt x.Value 64).2 ≠ none :=
      strconv.ParseInt_err x.Value 64 (by decide) (by decide) hbad
    have herr := CT_SectPrChange_attrs_err env hparse start.Attr m ⟨x, hx, hid, hbad64⟩
    unfold CT_SectPrChange.UnmarshalXML
    cases h : CT_SectPrChange.UnmarshalXML.attrs env m start.Attr with
    | mk m₁ oe =>
      rw [h] at herr
      cases oe with
      | some e => exact ⟨(fun hnone => by cases hnone), rfl⟩
      | none => exact absurd rfl herr
  · intro hall
    have hok : ∀ x ∈ start.Attr, x.Name.Local = "id" →
        (strconv.ParseInt x.Value 64).2 = none := by
      intro x hx hid
      obtain ⟨v, hlit, hlo, hhi⟩ := hall x hx hid
      rw [strconv.ParseInt_ok x.Value 64 (by decide) (by decide) v hlit hlo hhi]
    obtain ⟨sp, hsp⟩ := CT_SectPrChange_unmarshal_frame env m d start
    rw [hsp, CT_SectPrChange_attrs_ok env hparse start.Attr m hok]
    constructor
    · intro x hx
      have hmem : x ∈ start.Attr.filter fun y => decide (y.Name.Local = "id") :=
        List.mem_of_mem_getLast? hx
      rw [List.mem_filter] at hmem
      obtain ⟨v, hlit, hlo, hhi⟩ := hall x hmem.1 (of_decide_eq_true hmem.2)
      simp only [hx, Option.elim]
      rw [strconv.ParseInt_ok x.Value 64 (by decide) (by decide) v hlit hlo hhi]
      exact hlit
    · intro x hx
      simp only [hx, Option.elim]

/-- Witness for C27: an id that is no integer stops the call before a token is read; with two
ids and two authors that parse, the last id and the last author are the ones kept. -/
theorem CT_SectPrChange_unmarshal_id_witness :
    ((CT_SectPrChange.UnmarshalXML
        { NewCT_SectPrBase := { ValidateWithPath := fun _ => none },
          UnmarshalCT_SectPrBase := fun obj _ _ => { value := obj, consumed := 0, err := none },
          ParseStdlibTime := wordprocessingml.ParseStdlibTime,
          Quote := fun s => "\x22" ++ s ++ "\x22" }
        { AuthorAttr := "", DateAttr := none, IdAttr := 0, SectPr := none }
        [xml.Token.EndElement { Name := { Space := "", Local := "sectPrChange" } }]
        { Name := { Space := "", Local := "sectPrChange" },
          Attr := [{ Name := { Space := "", Local := "id" }, Value := "12x" }] }).2.2 ≠ none ∧
      (CT_SectPrChange.UnmarshalXML
        { NewCT_SectPrBase := { ValidateWithPath := fun _ => none },
          UnmarshalCT_SectPrBase := fun obj _ _ => { value := obj, consumed := 0, err := none },
          ParseStdlibTime := wordprocessingml.ParseStdlibTime,
          Quote := fun s => "\x22" ++ s ++ "\x22" }
        { AuthorAttr := "", DateAttr := none, IdAttr := 0, SectPr := none }
        [xml.Token.EndElement { Name := { Space := "", Local := "sectPrChange" } }]
        { Name := { Space := "", Local := "sectPrChange" },
          Attr := [{ Name := { Space := "", Local := "id" }, Value := "12x" }] }).2.1
        = [xml.Token.EndElement { Name := { Space := "", Local := "sectPrChange" } }]) ∧
    (CT_SectPrChange.UnmarshalXML
        { NewCT_SectPrBase := { ValidateWithPath := fun _ => none },
          UnmarshalCT_SectPrBase := fun obj _ _ => { value := obj, consumed := 0, err := none },
          ParseStdlibTime := wordprocessingml.ParseStdlibTime,
          Quote := fun s => "\x22" ++ s ++ "\x22" }
        { AuthorAttr := "", DateAttr := none, IdAttr := 0, SectPr := none }
        [xml.Token.EndElement { Name := { Space := "", Local := "sectPrChange" } }]
        { Name := { Space := "", Local := "sectPrChange" },
          Attr := [{ Name := { Space := "", Local := "author" }, Value := "a" },
                   { Name := { Space := "", Local := "id" }, Value := "12" },
                   { Name := { Space := "", Local := "author" }, Value := "b" },
                   { Name := { Space := "", Local := "id" }, Value := "-7" }] }).1.AuthorAttr
      = "b" :=
  ⟨(CT_SectPrChange_unmarshal_id _ rfl _ _ _).1
    ⟨{ Name := { Space := "", Local := "id" }, Value := "12x" }, List.mem_singleton.2 rfl, rfl,
      by decide⟩,
   ((CT_SectPrChange_unmarshal_id _ rfl _ _ _).2
      (by
        intro x hx hid
        simp only [List.mem_cons, List.mem_singleton, List.not_mem_nil, or_false] at hx
        rcases hx with rfl | rfl | rfl | rfl
        · exact absurd hid (by decide)
        · exact ⟨12, by decide, by decide, by decide⟩
        · exact absurd hid (by decide)
        · exact ⟨-7, by decide, by decide, by decide⟩)).2
      { Name := { Space := "", Local := "author" }, Value := "b" } (by decide)⟩

end wml

/-! ## Claims on the union parsers -/

namespace wordprocessingml

/-- C28: ParseUnionST_HexColor returns a nil error for every string; for "auto" the result has
ST_HexColorAuto equal to ST_HexColorAutoAuto, which is 1, and a nil ST_HexColorRGB; for every
other string, "AUTO" and the empty string among them, it has ST_HexColorAuto equal to
ST_HexColorAutoUnset, which is 0, and ST_HexColorRGB pointing to the string itself. -/
theorem ParseUnionST_HexColor_auto (s : string) :
    (ParseUnionST_HexColor s).2 = none ∧
    ParseUnionST_HexColor "auto"
      = ({ ST_HexColorAuto := ST_HexColorAutoAuto, ST_HexColorRGB := none }, none) ∧
    ST_HexColorAutoAuto = 1 ∧ ST_HexColorAutoUnset = 0 ∧
    (s ≠ "auto" →
      ParseUnionST_HexColor s
        = ({ ST_HexColorAuto := ST_HexColorAutoUnset, ST_HexColorRGB := some s }, none)) ∧
    ParseUnionST_HexColor "AUTO" = ({ ST_HexColorAuto := 0, ST_HexColorRGB := some "AUTO" }, none) ∧
    ParseUnionST_HexColor "" = ({ ST_HexColorAuto := 0, ST_HexColorRGB := some "" }, none) ∧
    ParseUnionST_HexColor "not hex"
      = ({ ST_HexColorAuto := 0, ST_HexColorRGB := some "not hex" }, none) := by
  refine ⟨?_, by decide, rfl, rfl, ?_, by decide, by decide, by decide⟩
  · unfold ParseUnionST_HexColor
    split <;> rfl
  · intro hs
    unfold ParseUnionST_HexColor
    rw [if_neg hs]
    rfl

/-- C29: each of the six union parsers (ParseUnionST_SignedTwipsMeasure,
ParseUnionST_TwipsMeasure, ParseUnionST_DecimalNumberOrPercent, ParseUnionST_HpsMeasure,
ParseUnionST_SignedHpsMeasure, ParseUnionST_TextScale), with the pattern test an arbitrary
predicate (universal, positive, percentage and textScale are the four compiled patterns), returns
for every input s either a nil error and exactly one alternative set (the string alternative,
holding s, when the pattern matches; the numeric alternative, holding the integer strconv
parsed, otherwise), or a non-nil error and both alternatives nil. -/
theorem ParseUnion_exactly_one (universal positive percentage textScale : regexp.Regexp)
    (quote : string → string) (s : string) :
    (((ParseUnionST_SignedTwipsMeasure universal quote s).2 = none →
        (universal.MatchString s = true →
          (ParseUnionST_SignedTwipsMeasure universal quote s).1
            = { Int64 := none, ST_UniversalMeasure := some s }) ∧
        (universal.MatchString s = false →
          (ParseUnionST_SignedTwipsMeasure universal quote s).1
            = { Int64 := some (strconv.ParseInt s 32).1, ST_UniversalMeasure := none })) ∧
      ((ParseUnionST_SignedTwipsMeasure universal quote s).2 ≠ none →
        (ParseUnionST_SignedTwipsMeasure universal quote s).1
          = { Int64 := none, ST_UniversalMeasure := none })) ∧
    (((ParseUnionST_TwipsMeasure positive quote s).2 = none →
        (positive.MatchString s = true →
          (ParseUnionST_TwipsMeasure positive quote s).1
            = { ST_UnsignedDecimalNumber := none, ST_PositiveUniversalMeasure := some s }) ∧
        (positive.MatchString s = false →
          (ParseUnionST_TwipsMeasure positive quote s).1
            = { ST_UnsignedDecimalNumber := some (strconv.ParseUint s 64).1,
                ST_PositiveUniversalMeasure := none })) ∧
      ((ParseUnionST_TwipsMeasure positive quote s).2 ≠ none →
        (ParseUnionST_TwipsMeasure positive quote s).1
          = { ST_UnsignedDecimalNumber := none, ST_PositiveUniversalMeasure := none })) ∧
    (((ParseUnionST_DecimalNumberOrPercent percentage quote s).2 = none →
        (percentage.MatchString s = true →
          (ParseUnionST_DecimalNumberOrPercent percentage quote s).1
            = { ST_UnqualifiedPercentage := none, ST_Percentage := some s }) ∧
        (percentage.MatchString s = false →
          (ParseUnionST_DecimalNumberOrPercent percentage quote s).1
            = { ST_UnqualifiedPercentage := some (strconv.ParseInt s 32).1,
                ST_Percentage := none })) ∧
      ((ParseUnionST_DecimalNumberOrPercent percentage quote s).2 ≠ none →
        (ParseUnionST_DecimalNumberOrPercent percentage quote s).1
          = { ST_UnqualifiedPercentage := none, ST_Percentage := none })) ∧
    (((ParseUnionST_HpsMeasure positive quote s).2 = none →
        (positive.MatchString s = true →
          (ParseUnionST_HpsMeasure positive quote s).1
            = { ST_UnsignedDecimalNumber := none, ST_PositiveUniversalMeasure := some s }) ∧
        (positive.MatchString s = false →
          (ParseUnionST_HpsMeasure positive quote s).1
            = { ST_UnsignedDecimalNumber := some (strconv.ParseUint s 64).1,
                ST_PositiveUniversalMeasure := none })) ∧
      ((ParseUnionST_HpsMeasure positive quote s).2 ≠ none →
        (ParseUnionST_HpsMeasure positive quote s).1
          = { ST_UnsignedDecimalNumber := none, ST_PositiveUniversalMeasure := none })) ∧
    (((ParseUnionST_SignedHpsMeasure universal quote s).2 = none →
        (universal.MatchString s = true →
          (ParseUnionST_SignedHpsMeasure universal quote s).1
            = { Int64 := none, ST_UniversalMeasure := some s }) ∧
        (universal.MatchString s = false →
          (ParseUnionST_SignedHpsMeasure universal quote s).1
            = { Int64 := some (strconv.ParseInt s 32).1, ST_UniversalMeasure := none })) ∧
      ((ParseUnionST_SignedHpsMeasure universal quote s).2 ≠ none →
        (ParseUnionST_SignedHpsMeasure universal quote s).1
          = { Int64 := none, ST_UniversalMeasure := none })) ∧
    (((ParseUnionST_TextScale textScale quote s).2 = none →
        (textScale.MatchString s = true →
          (ParseUnionST_TextScale textScale quote s).1
            = { ST_TextScalePercent := some s, ST_TextScaleDecimal := none }) ∧
        (textScale.MatchString s = false →
          (ParseUnionST_TextScale textScale quote s).1
            = { ST_TextScalePercent := none,
                ST_TextScaleDecimal := some (strconv.ParseInt s 32).1 })) ∧
      ((ParseUnionST_TextScale textScale quote s).2 ≠ none →
        (ParseUnionST_TextScale textScale quote s).1
          = { ST_TextScalePercent := none, ST_TextScaleDecimal := none })) := by
  refine ⟨?_, ?_, ?_, ?_, ?_, ?_⟩
  · unfold ParseUnionST_SignedTwipsMeasure
    cases hm : universal.MatchString s <;> cases hp : strconv.ParseInt s 32 with
      | mk v oe => cases oe <;> simp
  · unfold ParseUnionST_TwipsMeasure
    cases hm : positive.MatchString s <;> cases hp : strconv.ParseUint s 64 with
      | mk v oe => cases oe <;> simp
  · unfold ParseUnionST_DecimalNumberOrPercent
    cases hm : percentage.MatchString s <;> cases hp : strconv.ParseInt s 32 with
      | mk v oe => cases oe <;> simp
  · unfold ParseUnionST_HpsMeasure
    cases hm : positive.MatchString s <;> cases hp : strconv.ParseUint s 64 with
      | mk v oe => cases oe <;> simp
  · unfold ParseUnionST_SignedHpsMeasure
    cases hm : universal.MatchString s <;> cases hp : strconv.ParseInt s 32 with
      | mk v oe => cases oe <;> simp
  · unfold ParseUnionST_TextScale
    cases hm : textScale.MatchString s <;> cases hp : strconv.ParseInt s 32 with
      | mk v oe => cases oe <;> simp

/-- C30: for every s that the universal-measure pattern does not match,
ParseUnionST_MeasurementOrPercent returns the very error (nil or with the same message) that
ParseUnionST_DecimalNumberOrPercent returns, leaves ST_UniversalMeasure nil, and its
ST_DecimalNumberOrPercent field points to the value ParseUnionST_DecimalNumberOrPercent
returns; for every s that the pattern matches, ST_UniversalMeasure holds s,
ST_DecimalNumberOrPercent is nil and the error is nil. -/
theorem ParseUnionST_MeasurementOrPercent_inlines (universal percentage : regexp.Regexp)
    (quote : string → string) (s : string) :
    (universal.MatchString s = false →
      (ParseUnionST_MeasurementOrPercent universal percentage quote s).2
        = (ParseUnionST_DecimalNumberOrPercent percentage quote s).2 ∧
      (ParseUnionST_MeasurementOrPercent universal percentage quote s).1.ST_UniversalMeasure
        = none ∧
      (ParseUnionST_MeasurementOrPercent universal percentage quote s).1.ST_DecimalNumberOrPercent
        = some (ParseUnionST_DecimalNumberOrPercent percentage quote s).1) ∧
    (universal.MatchString s = true →
      ParseUnionST_MeasurementOrPercent universal percentage quote s
        = ({ ST_DecimalNumberOrPercent := none, ST_UniversalMeasure := some s }, none)) := by
  unfold ParseUnionST_MeasurementOrPercent ParseUnionST_DecimalNumberOrPercent
  cases hu : universal.MatchString s <;> cases hm : percentage.MatchString s <;>
    cases hp : strconv.ParseInt s 32 with
    | mk v oe => cases oe <;> simp

end wordprocessingml

/-! ## Lemmas on the compiled patterns, and the claims that rest on them -/

namespace regexp

/-- A character class matches exactly the one-character strings of its members. -/
theorem mem_matches_charClass (cs : List Char) (u : List Char) :
    u ∈ (charClass cs).matches' ↔ ∃ c ∈ cs, u = [c] := by
  induction cs with
  | nil =>
    simp only [charClass, List.foldr_nil, RegularExpression.matches'_zero, List.not_mem_nil,
      false_and, exists_false, iff_false]
    exact Language.not_mem_zero u
  | cons c rest ih =>
    have hunfold : charClass (c :: rest) = RegularExpression.char c + charClass rest := rfl
    rw [hunfold, RegularExpression.matches'_add, Language.mem_add, ih,
      RegularExpression.matches'_char]
    simp only [List.mem_cons, exists_eq_or_imp]
    exact Iff.rfl

/-- A run of literal characters matches exactly itself. -/
theorem mem_matches_literal (cs : List Char) (u : List Char) :
    u ∈ (literal cs).matches' ↔ u = cs := by
  induction cs generalizing u with
  | nil =>
    simp only [literal, List.foldr_nil, RegularExpression.matches'_epsilon, Language.mem_one]
  | cons c rest ih =>
    have hunfold : literal (c :: rest) = RegularExpression.char c * literal rest := rfl
    rw [hunfold, RegularExpression.matches'_mul, Language.mem_mul]
    constructor
    · rintro ⟨a, ha, b, hb, rfl⟩
      rw [RegularExpression.matches'_char, Set.mem_singleton_iff] at ha
      rw [ha, (ih b).1 hb]
      rfl
    · intro hu
      exact ⟨[c], by rw [RegularExpression.matches'_char]; rfl, rest, (ih rest).2 rfl, hu.symm⟩

/-- The pattern x? matches what x matches and the empty string. -/
theorem mem_matches_quest (x : RegularExpression Char) (u : List Char) :
    u ∈ (quest x).matches' ↔ u ∈ x.matches' ∨ u = [] := by
  unfold quest
  rw [RegularExpression.matches'_add, Language.mem_add, RegularExpression.matches'_epsilon,
    Language.mem_one]

/-- MatchString of a compiled pattern holds exactly for the strings one of whose substrings
is in the language of the pattern. -/
theorem MatchString_iff (expr : RegularExpression Char) (s : string) :
    (MustCompile expr).MatchString s = true ↔
      ∃ pre u post : List Char, s.data = pre ++ u ++ post ∧ u ∈ expr.matches' := by
  simp only [MustCompile, List.any_eq_true, List.mem_tails, List.mem_inits,
    ← RegularExpression.rmatch_iff_matches']
  constructor
  · rintro ⟨t, ⟨pre, hpre⟩, u, ⟨post, hpost⟩, hu⟩
    refine ⟨pre, u, post, ?_, hu⟩
    rw [← hpre, ← hpost, List.append_assoc]
  · rintro ⟨pre, u, post, hs, hu⟩
    refine ⟨u ++ post, ⟨pre, ?_⟩, u, ⟨post, rfl⟩, hu⟩
    rw [hs, List.append_assoc]

end regexp

namespace wordprocessingml

/-- The decimal digits are the ten members of the class [0-9]. -/
theorem digit_mem_class (d : Char) (h : '0' ≤ d ∧ d ≤ '9') :
    d ∈ ['0', '1', '2', '3', '4', '5', '6', '7', '8', '9'] := by
  have h0 : '0'.toNat ≤ d.toNat := h.1
  have h9 : d.toNat ≤ '9'.toNat := h.2
  have e9 : '9'.toNat = 57 := by decide
  have e0 : '0'.toNat = 48 := by decide
  have hd : d = Char.ofNat d.toNat := (Char.ofNat_toNat d).symm
  have hcases : d.toNat = 48 ∨ d.toNat = 49 ∨ d.toNat = 50 ∨ d.toNat = 51 ∨ d.toNat = 52 ∨
      d.toNat = 53 ∨ d.toNat = 54 ∨ d.toNat = 55 ∨ d.toNat = 56 ∨ d.toNat = 57 := by omega
  rcases hcases with h | h | h | h | h | h | h | h | h | h <;> rw [hd, h] <;> decide

/-- The members of the class [0-9] are decimal digits. -/
theorem class_mem_digit (d : Char)
    (h : d ∈ ['0', '1', '2', '3', '4', '5', '6', '7', '8', '9']) : '0' ≤ d ∧ d ≤ '9' := by
  simp only [List.mem_cons, List.mem_singleton, List.not_mem_nil, or_false] at h
  rcases h with rfl | rfl | rfl | rfl | rfl | rfl | rfl | rfl | rfl | rfl <;> decide

/-- A string in the language of ST_TextScalePercentPattern ends with a decimal digit and the
percent sign. -/
theorem ST_TextScalePercentPattern_ends (u : List Char)
    (h : u ∈ ST_TextScalePercentPattern.matches') :
    ∃ (w : List Char) (d : Char), u = w ++ [d, '%'] ∧ '0' ≤ d ∧ d ≤ '9' := by
  unfold ST_TextScalePercentPattern at h
  rw [RegularExpression.matches'_mul, Language.mem_mul] at h
  obtain ⟨x, hx, p, hp, rfl⟩ := h
  rw [RegularExpression.matches'_char, Set.mem_singleton_iff] at hp
  subst hp
  rw [RegularExpression.matches'_mul, Language.mem_mul] at hx
  obtain ⟨a, -, m, hm, rfl⟩ := hx
  rw [RegularExpression.matches'_add, Language.mem_add] at hm
  rcases hm with hm | hm
  · rw [regexp.mem_matches_literal] at hm
    subst hm
    refine ⟨a ++ ['6', '0'], '0', ?_, by decide, by decide⟩
    simp only [List.append_assoc, List.cons_append, List.nil_append]
  · rw [RegularExpression.matches'_mul, Language.mem_mul] at hm
    obtain ⟨q₁, -, y, hy, rfl⟩ := hm
    rw [RegularExpression.matches'_mul, Language.mem_mul] at hy
    obtain ⟨q₂, -, z, hz, rfl⟩ := hy
    rw [regexp.mem_matches_charClass] at hz
    obtain ⟨d, hd, rfl⟩ := hz
    refine ⟨a ++ (q₁ ++ q₂), d, ?_, class_mem_digit d hd⟩
    simp only [List.append_assoc, List.cons_append, List.nil_append]

/-- A decimal digit followed by the percent sign is in the language of
ST_TextScalePercentPattern. -/
theorem ST_TextScalePercentPattern_digit_percent (d : Char) (h : '0' ≤ d ∧ d ≤ '9') :
    [d, '%'] ∈ ST_TextScalePercentPattern.matches' := by
  unfold ST_TextScalePercentPattern
  rw [RegularExpression.matches'_mul, Language.mem_mul]
  refine ⟨[d], ?_, ['%'], by rw [RegularExpression.matches'_char]; rfl, rfl⟩
  rw [RegularExpression.matches'_mul, Language.mem_mul]
  refine ⟨[], ?_, [d], ?_, rfl⟩
  · rw [RegularExpression.matches'_star]
    exact Language.nil_mem_kstar _
  · rw [RegularExpression.matches'_add, Language.mem_add]
    right
    rw [RegularExpression.matches'_mul, Language.mem_mul]
    refine ⟨[], (regexp.mem_matches_quest _ _).2 (Or.inr rfl), [d], ?_, rfl⟩
    rw [RegularExpression.matches'_mul, Language.mem_mul]
    refine ⟨[], (regexp.mem_matches_quest _ _).2 (Or.inr rfl), [d], ?_, rfl⟩
    rw [regexp.mem_matches_charClass]
    exact ⟨d, digit_mem_class d h, rfl⟩

/-- Some substring of s is in the language of ST_TextScalePercentPattern exactly when s
contains a decimal digit immediately followed by the percent sign. -/
theorem ST_TextScalePercentPattern_substring_iff (cs : List Char) :
    (∃ pre u post : List Char, cs = pre ++ u ++ post ∧ u ∈ ST_TextScalePercentPattern.matches')
      ↔ ∃ (pre : List Char) (d : Char) (post : List Char),
          cs = pre ++ d :: '%' :: post ∧ '0' ≤ d ∧ d ≤ '9' := by
  constructor
  · rintro ⟨pre, u, post, hs, hu⟩
    obtain ⟨w, d, rfl, hd⟩ := ST_TextScalePercentPattern_ends u hu
    refine ⟨pre ++ w, d, post, ?_, hd⟩
    rw [hs]
    simp only [List.append_assoc, List.cons_append, List.nil_append]
  · rintro ⟨pre, d, post, hs, hd⟩
    refine ⟨pre, [d, '%'], post, ?_, ST_TextScalePercentPattern_digit_percent d hd⟩
    rw [hs]
    simp only [List.append_assoc, List.cons_append, List.nil_append]

/-- ParseUnionST_TextScale returns the percent alternative exactly when the pattern test
succeeds. -/
theorem ParseUnionST_TextScale_percent_iff (re : regexp.Regexp) (quote : string → string)
    (s : string) :
    ParseUnionST_TextScale re quote s
        = ({ ST_TextScalePercent := some s, ST_TextScaleDecimal := none }, none)
      ↔ re.MatchString s = true := by
  unfold ParseUnionST_TextScale
  cases hm : re.MatchString s <;>
    cases hp : strconv.ParseInt s 32 with
    | mk v oe => cases oe <;> simp

/-- C31: ParseUnionST_TextScale tests the pattern 0*(600|([0-5]?[0-9]?[0-9]))% unanchored. For
every string s the pattern test succeeds exactly when some substring of s matches the pattern;
the result is the percent alternative (ST_TextScalePercent pointing to s, ST_TextScaleDecimal
nil, nil error) exactly when that is so, and exactly when s contains a decimal digit
immediately followed by the percent sign. Hence "700%", "1000%" and "x5%y" give the percent
alternative, and a result on the integer branch (ST_TextScaleDecimal non-nil) or an error of
the integer branch only arises for a string without a digit followed by the percent sign. -/
theorem ParseUnionST_TextScale_unanchored (quote : string → string) (s : string) :
    (ST_TextScalePercentPatternRe.MatchString s = true ↔
      ∃ pre u post : List Char,
        s.data = pre ++ u ++ post ∧ u ∈ ST_TextScalePercentPattern.matches') ∧
    (ParseUnionST_TextScale ST_TextScalePercentPatternRe quote s
        = ({ ST_TextScalePercent := some s, ST_TextScaleDecimal := none }, none)
      ↔ ∃ pre u post : List Char,
          s.data = pre ++ u ++ post ∧ u ∈ ST_TextScalePercentPattern.matches') ∧
    (ParseUnionST_TextScale ST_TextScalePercentPatternRe quote s
        = ({ ST_TextScalePercent := some s, ST_TextScaleDecimal := none }, none)
      ↔ ∃ (pre : List Char) (d : Char) (post : List Char),
          s.data = pre ++ d :: '%' :: post ∧ '0' ≤ d ∧ d ≤ '9') ∧
    (ParseUnionST_TextScale ST_TextScalePercentPatternRe quote "700%"
        = ({ ST_TextScalePercent := some "700%", ST_TextScaleDecimal := none }, none) ∧
      ParseUnionST_TextScale ST_TextScalePercentPatternRe quote "1000%"
        = ({ ST_TextScalePercent := some "1000%", ST_TextScaleDecimal := none }, none) ∧
      ParseUnionST_TextScale ST_TextScalePercentPatternRe quote "x5%y"
        = ({ ST_TextScalePercent := some "x5%y", ST_TextScaleDecimal := none }, none)) ∧
    (((ParseUnionST_TextScale ST_TextScalePercentPatternRe quote s).1.ST_TextScaleDecimal ≠ none ∨
        (ParseUnionST_TextScale ST_TextScalePercentPatternRe quote s).2 ≠ none) →
      ¬ ∃ (pre : List Char) (d : Char) (post : List Char),
          s.data = pre ++ d :: '%' :: post ∧ '0' ≤ d ∧ d ≤ '9') := by
  have hmatch : ∀ t : string, ST_TextScalePercentPatternRe.MatchString t = true ↔
      ∃ pre u post : List Char,
        t.data = pre ++ u ++ post ∧ u ∈ ST_TextScalePercentPattern.matches' :=
    fun t => regexp.MatchString_iff ST_TextScalePercentPattern t
  have hdigit : ∀ t : string,
      ParseUnionST_TextScale ST_TextScalePercentPatternRe quote t
          = ({ ST_TextScalePercent := some t, ST_TextScaleDecimal := none }, none)
        ↔ ∃ (pre : List Char) (d : Char) (post : List Char),
            t.data = pre ++ d :: '%' :: post ∧ '0' ≤ d ∧ d ≤ '9' := by
    intro t
    rw [ParseUnionST_TextScale_percent_iff, hmatch, ST_TextScalePercentPattern_substring_iff]
  refine ⟨hmatch s, ?_, hdigit s, ⟨?_, ?_, ?_⟩, ?_⟩
  · rw [ParseUnionST_TextScale_percent_iff, hmatch]
  · exact (hdigit "700%").2 ⟨['7', '0'], '0', [], rfl, by decide, by decide⟩
  · exact (hdigit "1000%").2 ⟨['1', '0', '0'], '0', [], rfl, by decide, by decide⟩
  · exact (hdigit "x5%y").2 ⟨['x'], '5', ['y'], rfl, by decide, by decide⟩
  · intro hint hocc
    rw [(hdigit s).2 hocc] at hint
    rcases hint with hint | hint
    · exact hint rfl
    · exact hint rfl

end wordprocessingml

namespace wordprocessingml

/-- With bitSize 32, strconv.ParseInt on a base-10 integer literal of value n returns n and a
nil error when n is in the signed 32-bit range, and a non-nil error otherwise. -/
theorem ParseInt_32_of_literal (s : string) (n : Int) (hlit : decimalIntLiteral s = some n) :
    ((-2147483648 ≤ n ∧ n ≤ 2147483647) → strconv.ParseInt s 32 = (n, none)) ∧
    (¬ (-2147483648 ≤ n ∧ n ≤ 2147483647) → (strconv.ParseInt s 32).2 ≠ none) := by
  have hpow : (2 ^ (32 - 1) : Int) = 2147483648 := by norm_num
  constructor
  · rintro ⟨hlo, hhi⟩
    apply strconv.ParseInt_ok s 32 (by decide) (by decide) n hlit
    · rw [hpow]
      exact hlo
    · rw [hpow]
      omega
  · intro hout
    apply strconv.ParseInt_err s 32 (by decide) (by decide)
    rintro ⟨v, hv, hlo, hhi⟩
    rw [hlit] at hv
    cases hv
    rw [hpow] at hlo hhi
    apply hout
    constructor
    · exact hlo
    · omega

/-- C32: for every string s that the universal-measure pattern does not match and that is an
optionally signed base-10 integer literal of value n, ParseUnionST_SignedTwipsMeasure returns
a nil error with Int64 pointing to n if and only if -2147483648 <= n <= 2147483647, the result
then being that alternative alone; for n outside that range it returns a non-nil error and
both fields nil. The same holds for ParseUnionST_SignedHpsMeasure. -/
theorem ParseUnion_signed_32bit (universal : regexp.Regexp) (quote : string → string)
    (s : string) (n : Int)
    (hm : universal.MatchString s = false) (hlit : decimalIntLiteral s = some n) :
    ((((ParseUnionST_SignedTwipsMeasure universal quote s).2 = none ∧
          (ParseUnionST_SignedTwipsMeasure universal quote s).1.Int64 = some n)
        ↔ (-2147483648 ≤ n ∧ n ≤ 2147483647)) ∧
      ((-2147483648 ≤ n ∧ n ≤ 2147483647) →
        ParseUnionST_SignedTwipsMeasure universal quote s
          = ({ Int64 := some n, ST_UniversalMeasure := none }, none)) ∧
      (¬ (-2147483648 ≤ n ∧ n ≤ 2147483647) →
        (ParseUnionST_SignedTwipsMeasure universal quote s).2 ≠ none ∧
        (ParseUnionST_SignedTwipsMeasure universal quote s).1
          = { Int64 := none, ST_UniversalMeasure := none })) ∧
    ((((ParseUnionST_SignedHpsMeasure universal quote s).2 = none ∧
          (ParseUnionST_SignedHpsMeasure universal quote s).1.Int64 = some n)
        ↔ (-2147483648 ≤ n ∧ n ≤ 2147483647)) ∧
      ((-2147483648 ≤ n ∧ n ≤ 2147483647) →
        ParseUnionST_SignedHpsMeasure universal quote s
          = ({ Int64 := some n, ST_UniversalMeasure := none }, none)) ∧
      (¬ (-2147483648 ≤ n ∧ n ≤ 2147483647) →
        (ParseUnionST_SignedHpsMeasure universal quote s).2 ≠ none ∧
        (ParseUnionST_SignedHpsMeasure universal quote s).1
          = { Int64 := none, ST_UniversalMeasure := none })) := by
  obtain ⟨hin, hout⟩ := ParseInt_32_of_literal s n hlit
  by_cases hr : -2147483648 ≤ n ∧ n ≤ 2147483647
  · have hp := hin hr
    have htw : ParseUnionST_SignedTwipsMeasure universal quote s
        = ({ Int64 := some n, ST_UniversalMeasure := none }, none) := by
      simp only [ParseUnionST_SignedTwipsMeasure, hm, hp]
      rfl
    have hhps : ParseUnionST_SignedHpsMeasure universal quote s
        = ({ Int64 := some n, ST_UniversalMeasure := none }, none) := by
      simp only [ParseUnionST_SignedHpsMeasure, hm, hp]
      rfl
    rw [htw, hhps]
    exact ⟨⟨⟨fun _ => hr, fun _ => ⟨rfl, rfl⟩⟩, fun _ => rfl, fun hno => absurd hr hno⟩,
      ⟨⟨fun _ => hr, fun _ => ⟨rfl, rfl⟩⟩, fun _ => rfl, fun hno => absurd hr hno⟩⟩
  · have hp := hout hr
    cases hpi : strconv.ParseInt s 32 with
    | mk v oe =>
      rw [hpi] at hp
      cases oe with
      | none => exact absurd rfl hp
      | some e =>
        have htw : ParseUnionST_SignedTwipsMeasure universal quote s
            = ({ Int64 := none, ST_UniversalMeasure := none },
               some (errorfParsingInt quote s e)) := by
          simp only [ParseUnionST_SignedTwipsMeasure, hm, hpi]
          rfl
        have hhps : ParseUnionST_SignedHpsMeasure universal quote s
            = ({ Int64 := none, ST_UniversalMeasure := none },
               some (errorfParsingInt quote s e)) := by
          simp only [ParseUnionST_SignedHpsMeasure, hm, hpi]
          rfl
        rw [htw, hhps]
        refine ⟨⟨⟨?_, fun h => absurd h hr⟩, fun h => absurd h hr, fun _ => ⟨?_, rfl⟩⟩,
          ⟨⟨?_, fun h => absurd h hr⟩, fun h => absurd h hr, fun _ => ⟨?_, rfl⟩⟩⟩
        · rintro ⟨hnone, -⟩
          cases hnone
        · intro hnone
          cases hnone
        · rintro ⟨hnone, -⟩
          cases hnone
        · intro hnone
          cases hnone

/-- Witness for C32: the literal 2147483648 is one past the largest 32-bit integer, and no
pattern matches it here; the parser returns the range error of strconv.ParseInt and leaves
both fields nil. -/
theorem ParseUnion_signed_32bit_witness :
    decimalIntLiteral "2147483648" = some 2147483648 ∧
    (ParseUnionST_SignedTwipsMeasure { MatchString := fun _ => false }
        (fun s => "\x22" ++ s ++ "\x22") "2147483648").2 ≠ none ∧
    (ParseUnionST_SignedTwipsMeasure { MatchString := fun _ => false }
        (fun s => "\x22" ++ s ++ "\x22") "2147483648").1
      = { Int64 := none, ST_UniversalMeasure := none } ∧
    (ParseUnionST_SignedTwipsMeasure { MatchString := fun _ => false }
        (fun s => "\x22" ++ s ++ "\x22") "2147483648").2
      = some ("parsing 2147483648 as int: strconv.ParseInt: parsing \x222147483648\x22: "
          ++ "value out of range") :=
  ⟨by decide,
   ((ParseUnion_signed_32bit { MatchString := fun _ => false } (fun s => "\x22" ++ s ++ "\x22")
      "2147483648" 2147483648 rfl (by decide)).1.2.2 (by decide)).1,
   ((ParseUnion_signed_32bit { MatchString := fun _ => false } (fun s => "\x22" ++ s ++ "\x22")
      "2147483648" 2147483648 rfl (by decide)).1.2.2 (by decide)).2,
   by decide⟩

end wordprocessingml
